import Mathlib

/-!
# GES validate action handlers (`ges/ges-validate.c`)

A shallow embedding of the scenario-action handlers of GStreamer Editing
Services.  Handlers are functions over an explicit `Scenario` state: the
driver's current pipeline, the issues reported so far and the calls made into
the timeline, bus and project collaborators.  Library routines whose code is
not part of `ges-validate.c` (value transformation, serialisation, time
parsing, project loading, the timeline edit operations) are the fields of
`Lib`; the general theorems hold for every `Lib`, and `sample_lib` is the
instance the concrete commands are run with.
-/

set_option autoImplicit false

namespace GESValidate

/-! ## Values and structures -/

/-- Fundamental value types a structure field or an element property can have
(`G_TYPE_INVALID` is the type of a `G_VALUE_INIT` value that was never set). -/
inductive GType
  | invalid | boolean | int | uint | int64 | uint64 | string
  deriving DecidableEq, Repr

/-- The type `GST_TYPE_CLOCK_TIME`, which is defined as `G_TYPE_UINT64`. -/
def GST_TYPE_CLOCK_TIME : GType := GType.uint64

/-- The macro `G_VALUE_TYPE_NAME`. -/
def GType.name : GType → String
  | .invalid => "(null)"
  | .boolean => "gboolean"
  | .int => "gint"
  | .uint => "guint"
  | .int64 => "gint64"
  | .uint64 => "guint64"
  | .string => "gchararray"

/-- Payload of a value: a number or a string. -/
inductive GData
  | num (n : Int)
  | str (s : String)
  deriving DecidableEq, Repr

/-- A `GValue`: a type tag and its payload. -/
structure GValue where
  type : GType
  data : GData
  deriving DecidableEq, Repr

/-- The initialiser `G_VALUE_INIT`: a value that has no type yet. -/
def G_VALUE_INIT : GValue := ⟨GType.invalid, GData.num 0⟩

abbrev GstClockTime := Nat

/-- The constant `GST_CLOCK_TIME_NONE`, the all-ones 64 bit value. -/
def GST_CLOCK_TIME_NONE : GstClockTime := 2 ^ 64 - 1

/-- The macro `GST_CLOCK_TIME_IS_VALID`. -/
def GST_CLOCK_TIME_IS_VALID (t : GstClockTime) : Bool := t != GST_CLOCK_TIME_NONE

/-- A `GstStructure`: a name and an ordered list of named fields. -/
structure GstStructure where
  name : String
  fields : List (String × GValue)
  deriving DecidableEq, Repr

/-- The function `gst_structure_has_name`. -/
def gst_structure_has_name (s : GstStructure) (n : String) : Bool := s.name == n

/-- The function `gst_structure_get_string`: the string held by a field of string type,
`none` (NULL) when the field is absent or of another type. -/
def gst_structure_get_string (s : GstStructure) (field : String) : Option String :=
  match s.fields.lookup field with
  | some ⟨GType.string, GData.str v⟩ => some v
  | _ => none

/-- The function `gst_structure_remove_fields`: drops every field whose name is listed. -/
def gst_structure_remove_fields (s : GstStructure) (names : List String) : GstStructure :=
  { s with fields := s.fields.filter (fun f => !names.contains f.1) }

/-- The function `gst_structure_foreach` of the GStreamer core library, whose
code is not in `ges-validate.c`, by its documented contract: `func` is called
on the fields in order, with the user data; a `GstStructureForeachFunc` returns
`TRUE` if the foreach operation should continue and `FALSE` if it should stop
with `FALSE`; the result is `TRUE` when `func` returned `TRUE` for every field.
The callbacks `check_property` and `set_property` return `FALSE` after some of
their reports and `TRUE` otherwise. -/
def gst_structure_foreach {σ : Type} (func : String → GValue → σ → Bool × σ) :
    List (String × GValue) → σ → Bool × σ
  | [], st => (true, st)
  | f :: rest, st =>
    match func f.1 f.2 st with
    | (true, st1) => gst_structure_foreach func rest st1
    | (false, st1) => (false, st1)

/-! ## Timeline objects -/

/-- A `GstControlBinding` of one property, as the table of the values it yields;
`gst_control_binding_get_value` is the lookup (NULL where the table has no entry). -/
structure GstControlBinding where
  samples : List (GstClockTime × GValue)
  deriving DecidableEq, Repr

/-- The function `gst_control_binding_get_value`. -/
def gst_control_binding_get_value (b : GstControlBinding) (t : GstClockTime) : Option GValue :=
  b.samples.lookup t

/-- A `GESTimelineElement` as seen by the handlers.  The three flags are the
type checks `GES_IS_TRACK_ELEMENT`, `GES_IS_CLIP` and `GES_IS_CONTAINER`. -/
structure GESTimelineElement where
  name : String
  type_name : String
  is_track_element : Bool
  properties : List (String × GValue)
  child_properties : List (String × GValue)
  control_bindings : List (String × GstControlBinding)
  is_clip : Bool := false
  is_container : Bool := false
  deriving DecidableEq, Repr

/-- The function `g_object_get_property` into a `G_VALUE_INIT` value: the value of the object
property, or the value left untouched when the object has no such property. -/
def g_object_get_property (e : GESTimelineElement) (property : String) : GValue :=
  match e.properties.lookup property with
  | some v => v
  | none => G_VALUE_INIT

/-- The function `ges_timeline_element_get_child_property`: `none` stands for `FALSE`. -/
def ges_timeline_element_get_child_property (e : GESTimelineElement) (property : String) :
    Option GValue :=
  e.child_properties.lookup property

/-- The function `ges_track_element_get_control_binding`. -/
def ges_track_element_get_control_binding (e : GESTimelineElement) (property : String) :
    Option GstControlBinding :=
  e.control_bindings.lookup property

/-- A `GESLayer` of a timeline. -/
structure GESLayer where
  priority : Int
  auto_transition : Bool
  deriving DecidableEq, Repr

/-- A `GESTrack` of a timeline: `type` is its `GESTrackType`, a set of flags. -/
structure GESTrack where
  name : String
  type : Nat
  restriction_caps : Option String
  deriving DecidableEq, Repr

/-- A `GESAsset`, by its id and the name of its extractable type. -/
structure GESAsset where
  id : String
  type : String
  deriving DecidableEq, Repr

/-- A `GESTimeline`: its name, its named elements, its layers
(`ges_timeline_get_layers`) and its tracks (`timeline->tracks`). -/
structure GESTimeline where
  name : String
  elements : List GESTimelineElement
  layers : List GESLayer := []
  tracks : List GESTrack := []
  deriving DecidableEq, Repr

/-- The function `ges_timeline_get_element`: lookup by name; a NULL timeline gives
NULL.  The handlers pass the name of a mandatory parameter; for a NULL name
the embedding gives NULL. -/
def ges_timeline_get_element (timeline : Option GESTimeline) (name : Option String) :
    Option GESTimelineElement :=
  match timeline, name with
  | some t, some n => t.elements.find? (fun e => e.name == n)
  | _, _ => none

/-- Replaces the first element that has the name of `e` by `e`. -/
def store_element (e : GESTimelineElement) : List GESTimelineElement → List GESTimelineElement
  | [] => []
  | x :: rest => if x.name == e.name then e :: rest else x :: store_element e rest

/-- The effect of the handlers' writes on an element that the timeline shares
with them: the element `ges_timeline_get_element` finds under that name is `e`
afterwards. -/
def GESTimeline.store (t : GESTimeline) (e : GESTimelineElement) : GESTimeline :=
  { t with elements := store_element e t.elements }

/-! ## Driver state -/

inductive GstState
  | VOID_PENDING | NULL | READY | PAUSED | PLAYING
  deriving DecidableEq, Repr

/-- Numeric value of a `GstState`, used by `state < GST_STATE_PAUSED`. -/
def GstState.toNat : GstState → Nat
  | .VOID_PENDING => 0
  | .NULL => 1
  | .READY => 2
  | .PAUSED => 3
  | .PLAYING => 4

/-- A handler connected to the `message::async-done` signal of the bus:
`_commit_done_cb` with the action (its identity) as user data. -/
structure BusHandler where
  action_id : Nat
  deriving DecidableEq, Repr

/-- The scenario's pipeline.  `is_ges` tells whether it is a `GESPipeline`;
`timeline` is its `timeline` property (NULL while none was set). -/
structure Pipeline where
  is_ges : Bool
  state : GstState
  timeline : Option GESTimeline
  async_done_handlers : List BusHandler
  deriving DecidableEq, Repr

inductive Issue
  | SCENARIO_ACTION_EXECUTION_ERROR
  | SCENARIO_ACTION_CHECK_ERROR
  deriving DecidableEq, Repr

/-- One `GST_VALIDATE_REPORT_ACTION`. -/
structure Report where
  issue : Issue
  message : String
  deriving DecidableEq, Repr

/-- The functions `_validate_action_execute` chooses from (`ActionFromStructureFunc`). -/
inductive StructFunc
  | _ges_add_remove_keyframe_from_struct
  | _ges_add_clip_from_struct
  | _ges_container_add_child_from_struct
  | _ges_set_child_property_from_struct
  deriving DecidableEq, Repr

/-- A handler connected to the `loaded` signal of a project: `_project_loaded_cb`
with the action (its identity) as user data; the project is told by its URI. -/
structure ProjectHandler where
  project : Option String
  action_id : Nat
  deriving DecidableEq, Repr

/-- Calls into the collaborators, in the order they are made. -/
inductive Call
  | object_get_property (element property : String)
  | get_child_property (element property : String)
  | set_child_property (element property : String) (value : GValue)
  | get_control_binding (element property : String)
  | binding_get_value (element property : String) (time : GstClockTime)
  | timeline_unref
  | pipeline_unref
  | signal_connect (action_id : Nat)
  | signal_disconnect (action_id : Nat)
  | timeline_commit
  | save_timeline
  | timeline_save_to_uri (uri : String)
  | element_set_state (state : GstState)
  | file_set_contents (filename contents : String)
  | timeline_remove_layer (layer : GESLayer)
  | timeline_remove_track (track : GESTrack)
  | project_loaded_connect (project : Option String) (action_id : Nat)
  | project_load (uri : Option String) (timeline : Option GESTimeline)
  | from_struct (func : StructFunc) (structure_name : String)
  | project_remove_asset (asset : GESAsset)
  | project_add_asset (asset : GESAsset)
  | get_layer_by_priority (priority : Int)
  | layer_set (layer : GESLayer) (priority : Int) (auto_transition : Bool)
  | layer_remove_clip (layer : GESLayer) (clip : String)
  | container_edit (container : String) (new_layer_priority : Int) (mode edge : Nat)
      (position : GstClockTime)
  | track_set_restriction_caps (track : String) (caps : String)
  | extractable_set_asset (element : String) (asset : GESAsset)
  | container_remove (container child : String)
  | container_ungroup (container : String) (recursive : Bool)
  | set_control_source (element property binding_type : String) (mode : Nat)
  | clip_split (clip : String) (position : GstClockTime)
  | element_copy (element : String) (recursive : Bool)
  | element_paste (element : String) (position : GstClockTime)
  | element_set_name (element name : String)
  deriving DecidableEq, Repr

/-- The state a handler works on. -/
structure Scenario where
  pipeline : Option Pipeline
  reports : List Report
  calls : List Call
  /-- Actions on which `gst_validate_action_set_done` was called, in order. -/
  actions_done : List Nat
  /-- Handlers connected to the `loaded` signal of the projects `_load_project`
  created. -/
  loaded_handlers : List ProjectHandler := []
  deriving DecidableEq, Repr

/-- The macro `GST_VALIDATE_REPORT_ACTION`. -/
def Scenario.report (sc : Scenario) (issue : Issue) (message : String) : Scenario :=
  { sc with reports := sc.reports ++ [⟨issue, message⟩] }

/-- Records a call into a collaborator. -/
def Scenario.call (sc : Scenario) (c : Call) : Scenario :=
  { sc with calls := sc.calls ++ [c] }

/-- A `GstValidateAction`: its identity, type name and structure (`action->structure`). -/
structure GstValidateAction where
  id : Nat
  type : String
  struct : GstStructure
  deriving DecidableEq, Repr

/-- The enumeration `GstValidateActionReturn`.  Handlers declared `gboolean` return `TRUE`,
which is `OK`, or `FALSE`, which is `ERROR`. -/
inductive GstValidateActionReturn
  | ERROR | OK | ASYNC | INTERLACED | ERROR_REPORTED | IN_PROGRESS | NONE | DONE
  deriving DecidableEq, Repr

/-- Signals a project emits while `_ges_load_timeline` waits in its main loop. -/
inductive ProjectSignal
  | loaded
  | error_loading_asset (message : String)
  deriving DecidableEq, Repr

/-- Library routines used by the handlers whose code is outside `ges-validate.c`. -/
structure Lib where
  /-- The function `ges_asset_extract` on the project of a URI: the timeline (NULL when absent)
  and the `GError` message it set, if any. -/
  ges_asset_extract : String → Option GESTimeline × Option String
  /-- The signals delivered by `g_main_loop_run` until the loop returns: the
  first one quits the loop, the others were dispatched before it returned. -/
  main_loop_signals : String → ProjectSignal × List ProjectSignal
  /-- The function `g_value_transform` into an initialised value of the given type: the
  payload written, `none` for `FALSE`. -/
  g_value_transform : GValue → GType → Option GData
  /-- The function `gst_validate_utils_get_clocktime`. -/
  gst_validate_utils_get_clocktime : GstStructure → String → Option GstClockTime
  /-- The function `gst_validate_action_get_clocktime`. -/
  gst_validate_action_get_clocktime : GstValidateAction → String → Option GstClockTime
  /-- The function `gst_value_serialize`. -/
  gst_value_serialize : GValue → String
  /-- The format `GST_TIME_FORMAT` with `GST_TIME_ARGS`. -/
  gst_time_args : GstClockTime → String
  /-- The function `ges_timeline_element_set_child_property`: the element after the write,
  `none` for `FALSE`. -/
  ges_timeline_element_set_child_property :
    GESTimelineElement → String → GValue → Option GESTimelineElement
  /-- The function `ges_timeline_commit`: its result and the timeline afterwards. -/
  ges_timeline_commit : GESTimeline → Bool × GESTimeline
  /-- The persistence target a structure carries, as `_ges_save_timeline_if_needed`
  reads it from the structure. -/
  persistence_target : GstStructure → Option String
  /-- The function `ges_timeline_save_to_uri`. -/
  ges_timeline_save_to_uri : Option GESTimeline → String → Bool
  /-- The function `g_type_from_name`: `none` for the type 0 of an unknown name. -/
  g_type_from_name : String → Option String
  /-- The function `ges_project_get_asset`, on the project of the timeline. -/
  ges_project_get_asset : GESTimeline → String → String → Option GESAsset
  /-- The function `ges_project_remove_asset`: its result and the timeline afterwards. -/
  ges_project_remove_asset : GESTimeline → GESAsset → Bool × GESTimeline
  /-- The function `_ges_get_asset_from_timeline`, given the type and the id. -/
  _ges_get_asset_from_timeline : GESTimeline → String → Option String → Option GESAsset
  /-- The function `ges_project_add_asset`: its result and the timeline afterwards. -/
  ges_project_add_asset : GESTimeline → GESAsset → Bool × GESTimeline
  /-- The function `_ges_get_layer_by_priority`: the layer, NULL when there is
  none, and the timeline afterwards. -/
  _ges_get_layer_by_priority : GESTimeline → Int → Option GESLayer × GESTimeline
  /-- The function `ges_clip_get_layer`. -/
  ges_clip_get_layer : GESTimeline → GESTimelineElement → Option GESLayer
  /-- The function `ges_layer_remove_clip`: its result and the timeline afterwards. -/
  ges_layer_remove_clip : GESTimeline → GESLayer → GESTimelineElement → Bool × GESTimeline
  /-- The function `gst_validate_utils_enum_from_str`, given the name of the
  enumeration type: the value, `none` for `FALSE`. -/
  gst_validate_utils_enum_from_str : String → String → Option Nat
  /-- The function `ges_container_edit` with a NULL list of layers: its result and
  the timeline afterwards. -/
  ges_container_edit :
    GESTimeline → GESTimelineElement → Int → Nat → Nat → GstClockTime → Bool × GESTimeline
  /-- The function `gst_validate_utils_flags_from_str` for `GES_TYPE_TRACK_TYPE`. -/
  gst_validate_utils_flags_from_str : Option String → Nat
  /-- The function `gst_caps_from_string`; the caps are kept as their string. -/
  gst_caps_from_string : Option String → Option String
  /-- The function `ges_extractable_set_asset`: its result and the timeline afterwards. -/
  ges_extractable_set_asset :
    GESTimeline → GESTimelineElement → GESAsset → Bool × GESTimeline
  /-- The function `ges_container_remove`: its result and the timeline afterwards. -/
  ges_container_remove :
    GESTimeline → GESTimelineElement → GESTimelineElement → Bool × GESTimeline
  /-- The function `ges_container_ungroup`: the timeline afterwards. -/
  ges_container_ungroup : GESTimeline → GESTimelineElement → Bool → GESTimeline
  /-- The function `ges_track_element_set_control_source` with a new interpolation
  control source of the given mode: its result and the timeline afterwards. -/
  ges_track_element_set_control_source :
    GESTimeline → GESTimelineElement → Nat → String → String → Bool × GESTimeline
  /-- The function `ges_clip_split`: the timeline afterwards, `none` when it
  returns NULL. -/
  ges_clip_split : GESTimeline → GESTimelineElement → GstClockTime → Option GESTimeline
  /-- The functions `ges_timeline_element_copy` and `ges_timeline_element_paste` of
  the copy at a position: the pasted element and the timeline afterwards, `none`
  when the paste returns NULL. -/
  ges_timeline_element_copy_paste :
    GESTimeline → GESTimelineElement → Bool → GstClockTime →
      Option (GESTimelineElement × GESTimeline)
  /-- The function `ges_timeline_element_set_name`: the timeline afterwards, `none`
  for `FALSE`. -/
  ges_timeline_element_set_name :
    GESTimeline → GESTimelineElement → String → Option GESTimeline
  /-- The call `func (timeline, action->structure, &err)` of
  `_validate_action_execute`: the result, the message of the error set, if
  any, and the timeline afterwards. -/
  from_struct :
    StructFunc → Option GESTimeline → GstStructure → Bool × Option String × Option GESTimeline
  /-- The function `g_get_tmp_dir`. -/
  g_get_tmp_dir : String
  /-- The function `g_file_set_contents`: the message of the error it set, if any. -/
  g_file_set_contents : String → String → Option String
  /-- The function `gst_filename_to_uri`: the URI and the message of the error it
  set, if any. -/
  gst_filename_to_uri : String → Option String × Option String
  /-- The function `ges_project_load` on a new project of the URI: the message of
  the error it set, if any, and whether the project emitted `loaded` before the
  call returned. -/
  ges_project_load : Option String → Option GESTimeline → Option String × Bool

/-! ## Timeline acquisition -/

/-- The callbacks `error_loading_asset_cb` and `project_loaded_cb` applied to one signal:
the content of `data.error` afterwards. -/
def load_signal_cb (error : Option String) : ProjectSignal → Option String
  | .loaded => error
  | .error_loading_asset m => some m

/-- The function `_ges_load_timeline`. -/
def _ges_load_timeline (lib : Lib) (project_uri : String) (sc : Scenario) :
    Option GESTimeline × Scenario :=
  let extracted := lib.ges_asset_extract project_uri
  let timeline := extracted.1
  let error : Option String :=
    match timeline with
    | none => extracted.2
    | some _ =>
      let signals := lib.main_loop_signals project_uri
      (signals.1 :: signals.2).foldl load_signal_cb extracted.2
  match error with
  | some message =>
    (none, sc.report Issue.SCENARIO_ACTION_EXECUTION_ERROR
      ("Can not load timeline from: " ++ project_uri ++ " (" ++ message ++ ")"))
  | none => (timeline, sc)

/-- Outcome of the acquisition macro: it made the handler return, or it left
the locals `timeline` and `pipeline` set (`from_pipeline` tells that `pipeline`
is not NULL). -/
inductive Acquired
  | returned (res : GstValidateActionReturn) (sc : Scenario)
  | locals (timeline : Option GESTimeline) (from_pipeline : Bool) (sc : Scenario)
  deriving DecidableEq, Repr

/-- The call `g_object_get (pipeline, "timeline", &timeline, NULL)`: the timeline
property of a `GESPipeline`, NULL while none was set.  A pipeline of another
type has no such property and the call leaves the local `timeline`, declared
without initialiser, unwritten: the handle is no timeline either and the
embedding takes NULL for it. -/
def pipeline_get_timeline (p : Pipeline) : Option GESTimeline :=
  if p.is_ges then p.timeline else none

/-- The statements of `DECLARE_AND_GET_TIMELINE_AND_PIPELINE`. -/
def acquire_timeline_and_pipeline (lib : Lib) (action : GstValidateAction) (sc : Scenario) :
    Acquired :=
  match gst_structure_get_string action.struct "project-uri" with
  | none =>
    match sc.pipeline with
    | none =>
      Acquired.returned GstValidateActionReturn.ERROR_REPORTED
        (sc.report Issue.SCENARIO_ACTION_EXECUTION_ERROR
          ("Can't execute a '" ++ action.type ++ "' action after the pipeline has been destroyed."))
    | some p => Acquired.locals (pipeline_get_timeline p) true sc
  | some project_uri =>
    match _ges_load_timeline lib project_uri sc with
    | (none, sc1) => Acquired.returned GstValidateActionReturn.ERROR_REPORTED sc1
    | (some t, sc1) => Acquired.locals (some t) false sc1

/-- A handler that starts with `DECLARE_AND_GET_TIMELINE_AND_PIPELINE`: `body`
is the rest of the function, run with the locals the macro declared. -/
def DECLARE_AND_GET_TIMELINE_AND_PIPELINE (lib : Lib) (action : GstValidateAction)
    (sc : Scenario)
    (body : Option GESTimeline → Bool → Scenario → GstValidateActionReturn × Scenario) :
    GstValidateActionReturn × Scenario :=
  match acquire_timeline_and_pipeline lib action sc with
  | Acquired.returned res sc1 => (res, sc1)
  | Acquired.locals timeline from_pipeline sc1 => body timeline from_pipeline sc1

/-- A handler that starts with `DECLARE_AND_GET_TIMELINE`: as above, and the
pipeline reference is dropped when there is one. -/
def DECLARE_AND_GET_TIMELINE (lib : Lib) (action : GstValidateAction) (sc : Scenario)
    (body : Option GESTimeline → Bool → Scenario → GstValidateActionReturn × Scenario) :
    GstValidateActionReturn × Scenario :=
  DECLARE_AND_GET_TIMELINE_AND_PIPELINE lib action sc (fun timeline from_pipeline sc1 =>
    body timeline from_pipeline (if from_pipeline then sc1.call Call.pipeline_unref else sc1))

/-- The timeline is shared with the pipeline: what a handler did to the
timeline it got from the pipeline is what the pipeline holds afterwards. -/
def Scenario.store_timeline (sc : Scenario) (from_pipeline : Bool) (t : GESTimeline) :
    Scenario :=
  if from_pipeline then
    { sc with pipeline := sc.pipeline.map (fun p => { p with timeline := some t }) }
  else sc

/-! ## Property set and check -/

/-- The structure `PropertyData`, the user data of the two field callbacks (the scenario and
the action are passed next to it). -/
structure PropertyData where
  element : GESTimelineElement
  res : GstValidateActionReturn
  time : GstClockTime
  check_children : Bool
  deriving DecidableEq, Repr

/-- Modelled from the spec: the test `gst_value_compare (a, b) == GST_VALUE_EQUAL`
of the GStreamer core library, whose code is not in `ges-validate.c`; values are
compared by value equality: values of different types, or that were never set,
are not equal, and values of one type are equal when their payloads are. -/
def gst_value_compare_equal (a b : GValue) : Bool :=
  a.type != GType.invalid && b.type != GType.invalid && a.type == b.type && a.data == b.data

/-- The expected value `check_property` compares with, after the block
`if (G_VALUE_TYPE (observed_value) != G_VALUE_TYPE (expected_value))`:
`comparable_value` when the conversion succeeded, `expected_value` as it
was otherwise. -/
def comparable_expected (lib : Lib) (action : GstValidateAction) (property : String)
    (observed_value expected_value : GValue) : GValue :=
  if observed_value.type != expected_value.type then
    if observed_value.type == GST_TYPE_CLOCK_TIME then
      match lib.gst_validate_utils_get_clocktime action.struct property with
      | some t => ⟨observed_value.type, GData.num t⟩
      | none => expected_value
    else if observed_value.type == GType.invalid then
      expected_value
    else
      match lib.g_value_transform expected_value observed_value.type with
      | some d => ⟨observed_value.type, d⟩
      | none => expected_value
  else expected_value

/-- Message of the check error of `check_property`. -/
def check_error_message (lib : Lib) (element : GESTimelineElement) (property : String)
    (observed_value expected_value : GValue) : String :=
  element.name ++ ":" ++ property ++ " expected value: '(" ++ observed_value.type.name ++ ")"
    ++ lib.gst_value_serialize expected_value ++ "' different than observed: '("
    ++ expected_value.type.name ++ ")" ++ lib.gst_value_serialize observed_value ++ "'"

/-- The part of `check_property` from the label `compare:` on. -/
def check_property_compare (lib : Lib) (action : GstValidateAction) (property : String)
    (expected_value observed_value : GValue) (st : PropertyData × Scenario) :
    Bool × (PropertyData × Scenario) :=
  let expected := comparable_expected lib action property observed_value expected_value
  if !gst_value_compare_equal observed_value expected then
    (true, ({ st.1 with res := GstValidateActionReturn.ERROR_REPORTED },
      st.2.report Issue.SCENARIO_ACTION_CHECK_ERROR
        (check_error_message lib st.1.element property observed_value expected)))
  else (true, st)

/-- The part of `check_property` that reads the child property when no binding
value was taken (`!tvalue && !ges_timeline_element_get_child_property (...)`). -/
def check_property_child (lib : Lib) (action : GstValidateAction) (property : String)
    (expected_value : GValue) (st : PropertyData × Scenario) :
    Bool × (PropertyData × Scenario) :=
  let sc := st.2.call (Call.get_child_property st.1.element.name property)
  match ges_timeline_element_get_child_property st.1.element property with
  | none =>
    (false, ({ st.1 with res := GstValidateActionReturn.ERROR_REPORTED },
      sc.report Issue.SCENARIO_ACTION_EXECUTION_ERROR
        ("Could not get property: " ++ property ++ ":")))
  | some cvalue => check_property_compare lib action property expected_value cvalue (st.1, sc)

/-- The function `check_property`. -/
def check_property (lib : Lib) (action : GstValidateAction) (property : String)
    (expected_value : GValue) (st : PropertyData × Scenario) :
    Bool × (PropertyData × Scenario) :=
  let data := st.1
  if !data.check_children then
    let sc := st.2.call (Call.object_get_property data.element.name property)
    check_property_compare lib action property expected_value
      (g_object_get_property data.element property) (data, sc)
  else if GST_CLOCK_TIME_IS_VALID data.time then
    if !data.element.is_track_element then
      (false, ({ data with res := GstValidateActionReturn.ERROR_REPORTED },
        st.2.report Issue.SCENARIO_ACTION_EXECUTION_ERROR
          ("Could not get property at time for type " ++ data.element.type_name
            ++ " - only GESTrackElement supported")))
    else
      let sc := st.2.call (Call.get_control_binding data.element.name property)
      match ges_track_element_get_control_binding data.element property with
      | some binding =>
        let sc1 := sc.call (Call.binding_get_value data.element.name property data.time)
        match gst_control_binding_get_value binding data.time with
        | none =>
          (false, ({ data with res := GstValidateActionReturn.ERROR_REPORTED },
            sc1.report Issue.SCENARIO_ACTION_EXECUTION_ERROR
              ("Could not get property: " ++ property ++ " at " ++ lib.gst_time_args data.time)))
        | some tvalue =>
          check_property_compare lib action property expected_value tvalue (data, sc1)
      | none => check_property_child lib action property expected_value (data, sc)
  else check_property_child lib action property expected_value st

/-- The function `set_property`. -/
def set_property (lib : Lib) (property : String) (value : GValue)
    (st : PropertyData × Scenario) : Bool × (PropertyData × Scenario) :=
  let sc := st.2.call (Call.set_child_property st.1.element.name property value)
  match lib.ges_timeline_element_set_child_property st.1.element property value with
  | none =>
    (false, ({ st.1 with res := GstValidateActionReturn.ERROR_REPORTED },
      sc.report Issue.SCENARIO_ACTION_EXECUTION_ERROR
        ("Could not set " ++ st.1.element.name ++ " child property " ++ property ++ " to "
          ++ lib.gst_value_serialize value)))
  | some e => (true, ({ st.1 with element := e }, sc))

/-- The fields `set_or_check_properties` walks over: those of the copy of the
action structure after `gst_structure_remove_fields (structure, "element-name",
"at-time", NULL)`. -/
def property_fields (action : GstValidateAction) : List (String × GValue) :=
  (gst_structure_remove_fields action.struct ["element-name", "at-time"]).fields

/-- The callback `set_or_check_properties` hands to `gst_structure_foreach`. -/
def property_func (lib : Lib) (action : GstValidateAction) :
    String → GValue → PropertyData × Scenario → Bool × (PropertyData × Scenario) :=
  if gst_structure_has_name action.struct "set-child-properties" then set_property lib
  else check_property lib action

/-- The `PropertyData` of `set_or_check_properties` when the callbacks run:
its initialiser, `data.time` as `gst_validate_action_get_clocktime` left it
(`GST_CLOCK_TIME_NONE` unless `at-time` could be read) and the element found. -/
def property_data (lib : Lib) (action : GstValidateAction) (element : GESTimelineElement) :
    PropertyData :=
  { element := element, res := GstValidateActionReturn.OK,
    time := (lib.gst_validate_action_get_clocktime action "at-time").getD GST_CLOCK_TIME_NONE,
    check_children := !gst_structure_has_name action.struct "check-ges-properties" }

/-- The statements of `set_or_check_properties` that follow the acquisition
macro, run with the locals it declared. -/
def set_or_check_properties_body (lib : Lib) (action : GstValidateAction)
    (timeline : Option GESTimeline) (from_pipeline : Bool) (sc1 : Scenario) :
    GstValidateActionReturn × Scenario :=
  let element_name := gst_structure_get_string action.struct "element-name"
  match timeline, ges_timeline_get_element timeline element_name with
  | some t, some element =>
    let r := gst_structure_foreach (property_func lib action) (property_fields action)
      (property_data lib action element, sc1.call Call.timeline_unref)
    (r.2.1.res, r.2.2.store_timeline from_pipeline (t.store r.2.1.element))
  | _, _ =>
    (GstValidateActionReturn.ERROR_REPORTED,
      sc1.report Issue.SCENARIO_ACTION_EXECUTION_ERROR
        ("Can not find element: " ++ element_name.getD "(null)"))

/-- The function `set_or_check_properties`. -/
def set_or_check_properties (lib : Lib) (action : GstValidateAction) (sc : Scenario) :
    GstValidateActionReturn × Scenario :=
  DECLARE_AND_GET_TIMELINE lib action sc (set_or_check_properties_body lib action)

/-! ## Commit -/

/-- The call `g_signal_connect (bus, "message::async-done", _commit_done_cb, action)`;
nothing is connected on a NULL bus. -/
def Scenario.signal_connect (sc : Scenario) (has_bus : Bool) (action_id : Nat) : Scenario :=
  if has_bus then
    { sc with
      pipeline := sc.pipeline.map (fun p =>
        { p with async_done_handlers := p.async_done_handlers ++ [⟨action_id⟩] })
      calls := sc.calls ++ [Call.signal_connect action_id] }
  else sc

/-- The call `g_signal_handlers_disconnect_by_func (bus, _commit_done_cb, action)`: every
handler of the bus with that callback and that user data is removed. -/
def Scenario.signal_disconnect (sc : Scenario) (has_bus : Bool) (action_id : Nat) : Scenario :=
  if has_bus then
    { sc with
      pipeline := sc.pipeline.map (fun p =>
        { p with async_done_handlers :=
            p.async_done_handlers.filter (fun h => h.action_id != action_id) })
      calls := sc.calls ++ [Call.signal_disconnect action_id] }
  else sc

/-- The function `_commit_done_cb`. -/
def _commit_done_cb (action : GstValidateAction) (sc : Scenario) : Scenario :=
  { sc with actions_done := sc.actions_done ++ [action.id] }.signal_disconnect true action.id

/-- Modelled from the spec: the function `_ges_save_timeline_if_needed`, whose
code is not in `ges-validate.c`: a command that carries a persistence target
has the timeline reserialized to that URI, and the result is that of the save;
without a target nothing is saved and the result is `TRUE`. -/
def _ges_save_timeline_if_needed (lib : Lib) (timeline : Option GESTimeline)
    (s : GstStructure) (sc : Scenario) : Bool × Scenario :=
  match lib.persistence_target s with
  | some uri =>
    (lib.ges_timeline_save_to_uri timeline uri, sc.call (Call.timeline_save_to_uri uri))
  | none => (true, sc)

/-- The macro `SAVE_TIMELINE_IF_NEEDED`: the state afterwards, and `false` when the macro
made the handler return the error-reported result. -/
def SAVE_TIMELINE_IF_NEEDED (lib : Lib) (timeline : Option GESTimeline)
    (action : GstValidateAction) (sc : Scenario) : Scenario × Bool :=
  let saved := _ges_save_timeline_if_needed lib timeline action.struct
    (sc.call Call.save_timeline)
  if !saved.1 then
    (((saved.2.report Issue.SCENARIO_ACTION_EXECUTION_ERROR
        ("Could not save timeline to "
          ++ (gst_structure_get_string action.struct "project-id").getD "(null)")).call
      Call.timeline_unref), false)
  else (saved.2, true)

/-- The function `_commit`.  `state0` is the content of the local `state` before
`gst_element_get_state` writes it; the call writes nothing when `pipeline` is
NULL.  The handler prints `GST_OBJECT_NAME (timeline)` first, which reads the
timeline: the branch of a NULL timeline stands for the calls the code would go
on to make, and the theorems on the statements after the macro take a
timeline. -/
def _commit (lib : Lib) (state0 : GstState) (action : GstValidateAction) (sc : Scenario) :
    GstValidateActionReturn × Scenario :=
  DECLARE_AND_GET_TIMELINE_AND_PIPELINE lib action sc (fun timeline from_pipeline sc1 =>
    let sc2 := sc1.signal_connect from_pipeline action.id
    let state :=
      match from_pipeline, sc2.pipeline with
      | true, some p => p.state
      | _, _ => state0
    let committed : Bool × Option GESTimeline × Scenario :=
      match timeline with
      | some t =>
        let r := lib.ges_timeline_commit t
        (r.1, some r.2, (sc2.call Call.timeline_commit).store_timeline from_pipeline r.2)
      | none => (false, none, sc2.call Call.timeline_commit)
    if !committed.1 || decide (state.toNat < GstState.PAUSED.toNat) then
      (GstValidateActionReturn.OK,
        (committed.2.2.signal_disconnect from_pipeline action.id).call Call.timeline_unref)
    else
      let saved := SAVE_TIMELINE_IF_NEEDED lib committed.2.1 action
        (committed.2.2.call Call.timeline_unref)
      if saved.2 then (GstValidateActionReturn.ASYNC, saved.1)
      else (GstValidateActionReturn.ERROR_REPORTED, saved.1))

/-! ## A concrete library and concrete scenarios -/

/-- C cast of an integer to a signed type of `w` bits. -/
def wrap_signed (w : Nat) (n : Int) : Int :=
  let m := n % (2 ^ w : Int)
  if m < (2 ^ (w - 1) : Int) then m else m - (2 ^ w : Int)

/-- C cast of an integer to an unsigned type of `w` bits. -/
def wrap_unsigned (w : Nat) (n : Int) : Int := n % (2 ^ w : Int)

/-- The numeric transformations of `g_value_transform` between integer types
(C casts), to boolean (`!= 0`) and from a number to its decimal string. -/
def sample_transform (v : GValue) (dest : GType) : Option GData :=
  match v.data, v.type, dest with
  | GData.num _, GType.invalid, _ => none
  | GData.num _, GType.boolean, _ => none
  | GData.num n, _, GType.int => some (GData.num (wrap_signed 32 n))
  | GData.num n, _, GType.uint => some (GData.num (wrap_unsigned 32 n))
  | GData.num n, _, GType.int64 => some (GData.num (wrap_signed 64 n))
  | GData.num n, _, GType.uint64 => some (GData.num (wrap_unsigned 64 n))
  | GData.num n, _, GType.boolean => some (GData.num (if n = 0 then 0 else 1))
  | GData.num n, _, GType.string => some (GData.str (toString n))
  | _, _, _ => none

/-- Reads an integer field as a clock time, as `gst_validate_utils_get_clocktime`
does for integer fields. -/
def sample_get_clocktime (s : GstStructure) (field : String) : Option GstClockTime :=
  match s.fields.lookup field with
  | some ⟨GType.uint64, GData.num n⟩ => some (wrap_unsigned 64 n).toNat
  | some ⟨GType.uint, GData.num n⟩ => some (wrap_unsigned 64 n).toNat
  | some ⟨GType.int, GData.num n⟩ => some (wrap_unsigned 64 n).toNat
  | some ⟨GType.int64, GData.num n⟩ => some (wrap_unsigned 64 n).toNat
  | _ => none

/-- Writes a child property the element has, keeping the type of the property:
a value of another type is transformed, and left out when it cannot be. -/
def sample_set_child_property (e : GESTimelineElement) (property : String) (v : GValue) :
    Option GESTimelineElement :=
  match e.child_properties.lookup property with
  | none => none
  | some old =>
    let stored : GValue :=
      if old.type == v.type then v
      else match sample_transform v old.type with
        | some d => ⟨old.type, d⟩
        | none => old
    some { e with child_properties :=
      e.child_properties.map (fun kv => if kv.1 == property then (kv.1, stored) else kv) }

/-- A timeline with one source of type `GESVideoTestSource` (a track element)
and one clip. -/
def sample_timeline : GESTimeline :=
  { name := "timeline0",
    elements := [
      { name := "source0", type_name := "GESVideoTestSource", is_track_element := true,
        properties := [("start", ⟨GType.uint64, GData.num 0⟩)],
        child_properties := [("alpha", ⟨GType.int, GData.num 1⟩),
          ("posx", ⟨GType.int, GData.num 0⟩)],
        control_bindings := [("alpha", ⟨[(5, ⟨GType.int, GData.num 7⟩)]⟩)] },
      { name := "clip0", type_name := "GESTestClip", is_track_element := false,
        properties := [("start", ⟨GType.uint64, GData.num 0⟩)],
        child_properties := [("posx", ⟨GType.int, GData.num 0⟩),
          ("posy", ⟨GType.int, GData.num 0⟩)],
        control_bindings := [], is_clip := true, is_container := true } ],
    layers := [⟨0, false⟩, ⟨1, true⟩],
    tracks := [⟨"video-track", 4, none⟩, ⟨"audio-track", 2, none⟩] }

/-- Renames an element unless another element has the name already. -/
def sample_set_name (t : GESTimeline) (e : GESTimelineElement) (new_name : String) :
    Option GESTimeline :=
  if t.elements.any (fun x => x.name == new_name) then none
  else
    some { t with elements :=
      t.elements.map (fun x => if x.name == e.name then { x with name := new_name } else x) }

/-- The values of the names of the enumerations `GESEditMode`, `GESEdge` and
`GstInterpolationMode`; any other name is no name of the enumeration. -/
def sample_enum_from_str (enum_type name : String) : Option Nat :=
  if enum_type == "GESEditMode" then
    if name == "normal" then some 0
    else if name == "ripple" then some 1
    else if name == "roll" then some 2
    else if name == "trim" then some 3
    else if name == "slide" then some 4
    else none
  else if enum_type == "GESEdge" then
    if name == "edge_start" then some 0
    else if name == "edge_end" then some 1
    else if name == "edge_none" then some 2
    else none
  else if enum_type == "GstInterpolationMode" then
    if name == "none" then some 0
    else if name == "linear" then some 1
    else if name == "cubic" then some 2
    else none
  else none

/-- A library instance: projects load only from `file:///ok.xges`. -/
def sample_lib : Lib :=
  { ges_asset_extract := fun uri =>
      if uri == "file:///ok.xges" then (some sample_timeline, none)
      else (none, some "Could not find a suitable formatter")
    main_loop_signals := fun _ => (ProjectSignal.loaded, [])
    g_value_transform := sample_transform
    gst_validate_utils_get_clocktime := sample_get_clocktime
    gst_validate_action_get_clocktime := fun a f => sample_get_clocktime a.struct f
    gst_value_serialize := fun v =>
      match v.data with
      | GData.num n => toString n
      | GData.str s => s
    gst_time_args := fun t => toString t
    ges_timeline_element_set_child_property := sample_set_child_property
    ges_timeline_commit := fun t => (true, t)
    persistence_target := fun s => gst_structure_get_string s "project-uri"
    ges_timeline_save_to_uri := fun _ uri => uri != "file:///readonly.xges"
    g_type_from_name := fun name => if name == "GESUriClip" then some name else none
    ges_project_get_asset := fun _ id type =>
      if id == "file:///media.ogv" then some ⟨id, type⟩ else none
    ges_project_remove_asset := fun t _ => (true, t)
    _ges_get_asset_from_timeline := fun _ type id =>
      if id == some "file:///media.ogv" then some ⟨"file:///media.ogv", type⟩ else none
    ges_project_add_asset := fun t _ => (true, t)
    _ges_get_layer_by_priority := fun t priority =>
      (t.layers.find? (fun l => l.priority == priority), t)
    ges_clip_get_layer := fun t e => if e.is_clip then t.layers.head? else none
    ges_layer_remove_clip := fun t _ e =>
      (true, { t with elements := t.elements.filter (fun x => x.name != e.name) })
    gst_validate_utils_enum_from_str := sample_enum_from_str
    ges_container_edit := fun t _ _ _ _ _ => (true, t)
    gst_validate_utils_flags_from_str := fun name =>
      if name == some "video" then 4 else if name == some "audio" then 2 else 0
    gst_caps_from_string := fun caps => caps
    ges_extractable_set_asset := fun t _ _ => (true, t)
    ges_container_remove := fun t _ child =>
      (true, { t with elements := t.elements.filter (fun x => x.name != child.name) })
    ges_container_ungroup := fun t _ _ => t
    ges_track_element_set_control_source := fun t e _ property _ =>
      ((e.child_properties.lookup property).isSome, t)
    ges_clip_split := fun t e position =>
      if position == 0 then none
      else some { t with elements := t.elements ++ [{ e with name := e.name ++ "-split" }] }
    ges_timeline_element_copy_paste := fun t e _ position =>
      if position == 0 then none
      else some ({ e with name := e.name ++ "-copy" },
        { t with elements := t.elements ++ [{ e with name := e.name ++ "-copy" }] })
    ges_timeline_element_set_name := sample_set_name
    from_struct := fun _ timeline s =>
      match timeline, gst_structure_get_string s "element-name" with
      | some t, some name =>
        if t.elements.any (fun x => x.name == name) then (true, none, timeline)
        else (false, some ("No element named " ++ name), timeline)
      | _, _ => (false, none, timeline)
    g_get_tmp_dir := "/tmp"
    g_file_set_contents := fun _ _ => none
    gst_filename_to_uri := fun filename => (some ("file://" ++ filename), none)
    ges_project_load := fun uri _ =>
      if uri == some "file:///broken.xges" then (some "Could not parse the project", false)
      else (none, false) }

/-- A GES pipeline holding `sample_timeline`, in the given state. -/
def sample_pipeline (state : GstState) : Pipeline :=
  { is_ges := true, state := state, timeline := some sample_timeline,
    async_done_handlers := [] }

/-- A scenario whose pipeline is `sample_pipeline state`, with nothing reported. -/
def sample_scenario (state : GstState) : Scenario :=
  { pipeline := some (sample_pipeline state), reports := [], calls := [], actions_done := [] }

/-- A scenario whose pipeline has been destroyed. -/
def scenario_without_pipeline : Scenario :=
  { pipeline := none, reports := [], calls := [], actions_done := [] }

/-- An action of the given type whose structure has the given fields. -/
def sample_action (type : String) (fields : List (String × GValue)) : GstValidateAction :=
  { id := 1, type := type, struct := { name := type, fields := fields } }

/-- A string-typed field value. -/
def gstr (s : String) : GValue := ⟨GType.string, GData.str s⟩

/-- An int-typed field value. -/
def gint (n : Int) : GValue := ⟨GType.int, GData.num n⟩

/-! ## Specification functions and concrete commands -/

/-- The report made when the scenario has no pipeline any more. -/
def pipeline_destroyed_report (action : GstValidateAction) : Report :=
  ⟨Issue.SCENARIO_ACTION_EXECUTION_ERROR,
    "Can't execute a '" ++ action.type ++ "' action after the pipeline has been destroyed."⟩

/-- A GES pipeline on which no timeline has been set. -/
def pipeline_without_timeline : Pipeline :=
  { is_ges := true, state := GstState.PAUSED, timeline := none, async_done_handlers := [] }

/-- The property and value of a call of the child-property setter. -/
def Call.set_field? : Call → Option (String × GValue)
  | Call.set_child_property _ property value => some (property, value)
  | _ => none

/-- The fields up to and including the first one on which the setter fails,
starting from element `e`; all the fields when the setter fails on none. -/
def attempted_fields (lib : Lib) : GESTimelineElement → List (String × GValue) →
    List (String × GValue)
  | _, [] => []
  | e, f :: rest =>
    match lib.ges_timeline_element_set_child_property e f.1 f.2 with
    | none => [f]
    | some e1 => f :: attempted_fields lib e1 rest

/-- The setter succeeds on every field in turn, starting from element `e`. -/
def set_all_succeed (lib : Lib) : GESTimelineElement → List (String × GValue) → Bool
  | _, [] => true
  | e, f :: rest =>
    match lib.ges_timeline_element_set_child_property e f.1 f.2 with
    | none => false
    | some e1 => set_all_succeed lib e1 rest

/-- The command of the counterexamples on setting: the first field names a
child property `clip0` does not have, the second one it has. -/
def set_missing_then_posx : GstValidateAction :=
  sample_action "set-child-properties"
    [("element-name", gstr "clip0"), ("nope", gint 3), ("posx", gint 5)]

/-- The observed value `check_property` gets for a property: the object property
for `check-ges-properties`; the binding value when a valid time is given, the
element is a track element and the property has a binding; the child property
otherwise.  `none` when `check_property` returns `FALSE` without comparing. -/
def observed_value (data : PropertyData) (property : String) : Option GValue :=
  if !data.check_children then some (g_object_get_property data.element property)
  else if GST_CLOCK_TIME_IS_VALID data.time then
    if !data.element.is_track_element then none
    else
      match ges_track_element_get_control_binding data.element property with
      | some binding => gst_control_binding_get_value binding data.time
      | none => ges_timeline_element_get_child_property data.element property
  else ges_timeline_element_get_child_property data.element property

/-- The issue a field is reported with: an execution error when no observed value
can be obtained, a check error when the observed value differs from the expected
one, none when the field passes. -/
def field_issue (lib : Lib) (action : GstValidateAction) (data : PropertyData)
    (f : String × GValue) : Option Issue :=
  match observed_value data f.1 with
  | none => some Issue.SCENARIO_ACTION_EXECUTION_ERROR
  | some o =>
    if gst_value_compare_equal o (comparable_expected lib action f.1 o f.2) then none
    else some Issue.SCENARIO_ACTION_CHECK_ERROR

/-- The fields up to and including the first one for which no observed value can
be obtained; all the fields when there is none. -/
def examined_fields (data : PropertyData) : List (String × GValue) → List (String × GValue)
  | [] => []
  | f :: rest =>
    match observed_value data f.1 with
    | none => [f]
    | some _ => f :: examined_fields data rest

/-- The check command of the counterexample on checking: `zz` is not a child
property of `clip0`, and `posy` is, with value 0 and not 7. -/
def check_missing_then_mismatch : GstValidateAction :=
  sample_action "check-child-properties"
    [("element-name", gstr "clip0"), ("zz", gint 1), ("posy", gint 7)]

/-- The check command of the witness: `posx` differs, `zz` cannot be read and
`posy`, which differs too, comes after it. -/
def check_mismatch_missing_mismatch : GstValidateAction :=
  sample_action "check-child-properties"
    [("element-name", gstr "clip0"), ("posx", gint 3), ("zz", gint 1), ("posy", gint 7)]

/-- The timeline handle the acquisition macro leaves in `timeline`; NULL also
when the macro made the handler return. -/
def acquired_timeline (lib : Lib) (action : GstValidateAction) (sc : Scenario) :
    Option GESTimeline :=
  match acquire_timeline_and_pipeline lib action sc with
  | Acquired.returned _ _ => none
  | Acquired.locals timeline _ _ => timeline

/-- The element the command names, looked up in the acquired timeline. -/
def named_element (lib : Lib) (action : GstValidateAction) (sc : Scenario) :
    Option GESTimelineElement :=
  ges_timeline_get_element (acquired_timeline lib action sc)
    (gst_structure_get_string action.struct "element-name")

/-- A check command whose only property field holds the value `posx` has. -/
def check_posx_zero : GstValidateAction :=
  sample_action "check-child-properties" [("element-name", gstr "clip0"), ("posx", gint 0)]

/-- A check command that names an element the timeline does not have. -/
def check_on_missing_element : GstValidateAction :=
  sample_action "check-child-properties" [("element-name", gstr "ghost"), ("posx", gint 0)]

/-- The check of `posx=0` on the clip `clip0`, with an evaluation time. -/
def check_posx_zero_at_time : GstValidateAction :=
  sample_action "check-child-properties"
    [("element-name", gstr "clip0"), ("at-time", gint 5), ("posx", gint 0)]

/-- The `PropertyData` of a check at time 5 on the source `source0`, whose
`alpha` is 1 and has a binding that yields 7 at time 5, and whose `posx` has no
binding. -/
def source_at_five : PropertyData :=
  { element := sample_timeline.elements.get ⟨0, by decide⟩,
    res := GstValidateActionReturn.OK, time := 5, check_children := true }

/-- The command `verb, element-name=<element>, <property>=<value>`. -/
def property_action (verb element property : String) (value : GValue) : GstValidateAction :=
  sample_action verb [("element-name", gstr element), (property, value)]

/-- A 64 bit integer whose low 32 bits are those of 5. -/
def gint64_wrapping_to_five : GValue := ⟨GType.int64, GData.num 4294967301⟩

/-! ## Structure accessors and handler outcomes -/

/-- The function `gst_structure_get_int`: the value of a field of type `gint`. -/
def gst_structure_get_int (s : GstStructure) (field : String) : Option Int :=
  match s.fields.lookup field with
  | some ⟨GType.int, GData.num n⟩ => some n
  | _ => none

/-- The function `gst_structure_get_boolean`: the value of a field of type
`gboolean`. -/
def gst_structure_get_boolean (s : GstStructure) (field : String) : Option Bool :=
  match s.fields.lookup field with
  | some ⟨GType.boolean, GData.num n⟩ => some (n != 0)
  | _ => none

/-- The function `gst_structure_remove_field`. -/
def gst_structure_remove_field (s : GstStructure) (field : String) : GstStructure :=
  gst_structure_remove_fields s [field]

/-- The result of a handler declared `gboolean` that returns the boolean `b`. -/
def gboolean (b : Bool) : GstValidateActionReturn :=
  if b then GstValidateActionReturn.OK else GstValidateActionReturn.ERROR

/-- How a call of a handler ends: it returns a result; or it ends in
`g_assert_not_reached`; or it goes on after the acquisition macro with a handle
that is no timeline (NULL, or not initialised), which is not embedded. -/
inductive Outcome
  | returned (res : GstValidateActionReturn) (sc : Scenario)
  | assertion_failed (sc : Scenario)
  | timeline_missing (sc : Scenario)
  deriving DecidableEq, Repr

/-- A handler that starts with `DECLARE_AND_GET_TIMELINE` and whose body works on
the timeline the macro got. -/
def handler_on_timeline (lib : Lib) (action : GstValidateAction) (sc : Scenario)
    (body : GESTimeline → Bool → Scenario → Outcome) : Outcome :=
  match acquire_timeline_and_pipeline lib action sc with
  | Acquired.returned res sc1 => Outcome.returned res sc1
  | Acquired.locals none _ sc1 => Outcome.timeline_missing sc1
  | Acquired.locals (some t) from_pipeline sc1 =>
    body t from_pipeline (if from_pipeline then sc1.call Call.pipeline_unref else sc1)

/-- Where the statements of a handler before its `SAVE_TIMELINE_IF_NEEDED` lead:
to a `return` of their own; to the label after the macro (`goto beach`), with
the result so far; or to the macro, with the result so far and the timeline. -/
inductive Mutation
  | returned (res : GstValidateActionReturn) (sc : Scenario)
  | beach (res : GstValidateActionReturn) (sc : Scenario)
  | save (res : GstValidateActionReturn) (timeline : GESTimeline) (sc : Scenario)
  deriving DecidableEq, Repr

/-- The end of a handler that persists: `SAVE_TIMELINE_IF_NEEDED`, then the
release of the timeline and the `return` of the result. -/
def save_and_return (lib : Lib) (action : GstValidateAction) : Mutation → Outcome
  | Mutation.returned res sc => Outcome.returned res sc
  | Mutation.beach res sc => Outcome.returned res (sc.call Call.timeline_unref)
  | Mutation.save res timeline sc =>
    let saved := SAVE_TIMELINE_IF_NEEDED lib (some timeline) action sc
    if saved.2 then Outcome.returned res (saved.1.call Call.timeline_unref)
    else Outcome.returned GstValidateActionReturn.ERROR_REPORTED saved.1

/-- Modelled from the spec: the function `ges_timeline_remove_layer`, whose code
is not in `ges-validate.c`: a layer of the timeline is removed from it. -/
def ges_timeline_remove_layer (t : GESTimeline) (layer : GESLayer) : Bool × GESTimeline :=
  (decide (layer ∈ t.layers), { t with layers := t.layers.erase layer })

/-- Modelled from the spec: the function `ges_timeline_remove_track`, whose code
is not in `ges-validate.c`: a track of the timeline is removed from it. -/
def ges_timeline_remove_track (t : GESTimeline) (track : GESTrack) : Bool × GESTimeline :=
  (decide (track ∈ t.tracks), { t with tracks := t.tracks.erase track })

/-- The call `g_object_set (layer, "priority", priority, "auto-transition",
auto_transition, NULL)`: the first layer equal to `layer` gets the two values;
nothing is set on a NULL layer. -/
def layer_set_properties (t : GESTimeline) (layer : Option GESLayer) (priority : Int)
    (auto_transition : Bool) : GESTimeline :=
  match layer with
  | none => t
  | some l =>
    match t.layers.indexOf? l with
    | some i => { t with layers := t.layers.set i ⟨priority, auto_transition⟩ }
    | none => t

/-- The function `ges_track_set_restriction_caps` on the tracks of the timeline
whose type has a flag in common with `track_types`. -/
def set_restriction_caps (tracks : List GESTrack) (track_types : Nat) (caps : String) :
    List GESTrack :=
  tracks.map (fun track =>
    if track.type &&& track_types != 0 then { track with restriction_caps := some caps }
    else track)

/-- The function `gst_element_set_state` on the pipeline. -/
def Scenario.set_state (sc : Scenario) (state : GstState) : Scenario :=
  { sc with
    pipeline := sc.pipeline.map (fun p => { p with state := state })
    calls := sc.calls ++ [Call.element_set_state state] }

/-- The value `GES_EDIT_MODE_NORMAL`. -/
def GES_EDIT_MODE_NORMAL : Nat := 0

/-- The value `GES_EDGE_NONE`. -/
def GES_EDGE_NONE : Nat := 2

/-- The value `GST_INTERPOLATION_MODE_LINEAR`. -/
def GST_INTERPOLATION_MODE_LINEAR : Nat := 1

/-! ## Handlers that persist the timeline -/

/-- The statements of `_remove_asset` between the acquisition macro and
`SAVE_TIMELINE_IF_NEEDED`. -/
def _remove_asset_mutation (lib : Lib) (action : GstValidateAction) (t : GESTimeline)
    (from_pipeline : Bool) (sc : Scenario) : Mutation :=
  match gst_structure_get_string action.struct "type",
    gst_structure_get_string action.struct "id" with
  | some type_string, some id =>
    match lib.g_type_from_name type_string with
    | none => Mutation.beach GstValidateActionReturn.ERROR sc
    | some type =>
      match lib.ges_project_get_asset t id type with
      | none => Mutation.beach GstValidateActionReturn.ERROR sc
      | some asset =>
        let r := lib.ges_project_remove_asset t asset
        Mutation.save (gboolean r.1) r.2
          ((sc.call (Call.project_remove_asset asset)).store_timeline from_pipeline r.2)
  | _, _ => Mutation.beach GstValidateActionReturn.ERROR sc

/-- The statements of `_add_asset` between the acquisition macro and
`SAVE_TIMELINE_IF_NEEDED`. -/
def _add_asset_mutation (lib : Lib) (action : GstValidateAction) (t : GESTimeline)
    (from_pipeline : Bool) (sc : Scenario) : Mutation :=
  match gst_structure_get_string action.struct "type",
    gst_structure_get_string action.struct "id" with
  | some type_string, some id =>
    match lib.g_type_from_name type_string with
    | none => Mutation.beach GstValidateActionReturn.ERROR sc
    | some type =>
      match lib._ges_get_asset_from_timeline t type (some id) with
      | none => Mutation.beach GstValidateActionReturn.ERROR sc
      | some asset =>
        let r := lib.ges_project_add_asset t asset
        Mutation.save (gboolean r.1) r.2
          ((sc.call (Call.project_add_asset asset)).store_timeline from_pipeline r.2)
  | _, _ => Mutation.beach GstValidateActionReturn.ERROR sc

/-- The statements of `_add_layer` between the acquisition macro and
`SAVE_TIMELINE_IF_NEEDED`; `res` is `TRUE` from its declaration on. -/
def _add_layer_mutation (lib : Lib) (action : GstValidateAction) (t : GESTimeline)
    (from_pipeline : Bool) (sc : Scenario) : Mutation :=
  match gst_structure_get_int action.struct "priority" with
  | none => Mutation.beach GstValidateActionReturn.OK sc
  | some priority =>
    let got := lib._ges_get_layer_by_priority t priority
    let auto_transition :=
      (gst_structure_get_boolean action.struct "auto-transition").getD false
    let t1 := layer_set_properties got.2 got.1 priority auto_transition
    let sc1 := sc.call (Call.get_layer_by_priority priority)
    let sc2 :=
      match got.1 with
      | some layer => sc1.call (Call.layer_set layer priority auto_transition)
      | none => sc1
    Mutation.save GstValidateActionReturn.OK t1 (sc2.store_timeline from_pipeline t1)

/-- The statements of `_remove_layer` between the acquisition macro and
`SAVE_TIMELINE_IF_NEEDED`. -/
def _remove_layer_mutation (lib : Lib) (action : GstValidateAction) (t : GESTimeline)
    (from_pipeline : Bool) (sc : Scenario) : Mutation :=
  match gst_structure_get_int action.struct "priority" with
  | none => Mutation.beach GstValidateActionReturn.ERROR sc
  | some priority =>
    let got := lib._ges_get_layer_by_priority t priority
    let sc1 := sc.call (Call.get_layer_by_priority priority)
    match got.1 with
    | some layer =>
      let r := ges_timeline_remove_layer got.2 layer
      Mutation.save (gboolean r.1) r.2
        ((sc1.call (Call.timeline_remove_layer layer)).store_timeline from_pipeline r.2)
    | none =>
      Mutation.save GstValidateActionReturn.ERROR got.2
        (sc1.store_timeline from_pipeline got.2)

/-- The statements of `_remove_clip` between the acquisition macro and
`SAVE_TIMELINE_IF_NEEDED`. -/
def _remove_clip_mutation (lib : Lib) (action : GstValidateAction) (t : GESTimeline)
    (from_pipeline : Bool) (sc : Scenario) : Mutation :=
  match ges_timeline_get_element (some t) (gst_structure_get_string action.struct "name") with
  | none => Mutation.returned GstValidateActionReturn.ERROR sc
  | some clip =>
    if clip.is_clip then
      match lib.ges_clip_get_layer t clip with
      | some layer =>
        let r := lib.ges_layer_remove_clip t layer clip
        Mutation.save (gboolean r.1) r.2
          ((sc.call (Call.layer_remove_clip layer clip.name)).store_timeline from_pipeline r.2)
      | none => Mutation.save GstValidateActionReturn.ERROR t sc
    else Mutation.returned GstValidateActionReturn.ERROR sc

/-- The value of an optional enumeration field of `_edit_container` and
`_set_control_source`: the default when the field is absent, else what
`gst_validate_utils_enum_from_str` gives (`none` when it fails). -/
def optional_enum (lib : Lib) (action : GstValidateAction) (field enum_type : String)
    (default : Nat) : Option Nat :=
  match gst_structure_get_string action.struct field with
  | some str => lib.gst_validate_utils_enum_from_str enum_type str
  | none => some default

/-- The statements of `_edit_container` between the acquisition macro and
`SAVE_TIMELINE_IF_NEEDED`. -/
def _edit_container_mutation (lib : Lib) (action : GstValidateAction) (t : GESTimeline)
    (from_pipeline : Bool) (sc : Scenario) : Mutation :=
  let clip_name := gst_structure_get_string action.struct "container-name"
  match ges_timeline_get_element (some t) clip_name with
  | none =>
    Mutation.returned GstValidateActionReturn.ERROR_REPORTED
      (sc.report Issue.SCENARIO_ACTION_EXECUTION_ERROR
        ("Could not find container " ++ clip_name.getD "(null)"))
  | some container =>
    match lib.gst_validate_action_get_clocktime action "position" with
    | none => Mutation.beach GstValidateActionReturn.ERROR sc
    | some position =>
      match optional_enum lib action "edit-mode" "GESEditMode" GES_EDIT_MODE_NORMAL with
      | none => Mutation.returned GstValidateActionReturn.ERROR sc
      | some mode =>
        match optional_enum lib action "edge" "GESEdge" GES_EDGE_NONE with
        | none => Mutation.returned GstValidateActionReturn.ERROR sc
        | some edge =>
          let new_layer_priority :=
            (gst_structure_get_int action.struct "new-layer-priority").getD (-1)
          let r := lib.ges_container_edit t container new_layer_priority mode edge position
          let sc1 := (sc.call (Call.container_edit container.name new_layer_priority mode edge
            position)).store_timeline from_pipeline r.2
          if r.1 then Mutation.save GstValidateActionReturn.OK r.2 sc1
          else Mutation.beach GstValidateActionReturn.ERROR sc1

/-- The statements of `_set_track_restriction_caps` between the acquisition macro
and `SAVE_TIMELINE_IF_NEEDED`. -/
def _set_track_restriction_caps_mutation (lib : Lib) (action : GstValidateAction)
    (t : GESTimeline) (from_pipeline : Bool) (sc : Scenario) : Mutation :=
  let track_types :=
    lib.gst_validate_utils_flags_from_str (gst_structure_get_string action.struct "track-type")
  if track_types == 0 then Mutation.returned GstValidateActionReturn.ERROR sc
  else
    match lib.gst_caps_from_string (gst_structure_get_string action.struct "caps") with
    | none => Mutation.returned GstValidateActionReturn.ERROR sc
    | some caps =>
      let touched := t.tracks.filter (fun track => track.type &&& track_types != 0)
      let t1 := { t with tracks := set_restriction_caps t.tracks track_types caps }
      let sc1 : Scenario :=
        { sc with calls := sc.calls
            ++ touched.map (fun track => Call.track_set_restriction_caps track.name caps) }
      Mutation.save (gboolean (!touched.isEmpty)) t1 (sc1.store_timeline from_pipeline t1)

/-- The statements of `_set_asset_on_element` between the acquisition macro and
`SAVE_TIMELINE_IF_NEEDED`. -/
def _set_asset_on_element_mutation (lib : Lib) (action : GstValidateAction) (t : GESTimeline)
    (from_pipeline : Bool) (sc : Scenario) : Mutation :=
  match ges_timeline_get_element (some t)
      (gst_structure_get_string action.struct "element-name") with
  | none => Mutation.returned GstValidateActionReturn.ERROR sc
  | some element =>
    match lib._ges_get_asset_from_timeline t element.type_name
        (gst_structure_get_string action.struct "asset-id") with
    | none => Mutation.beach GstValidateActionReturn.ERROR sc
    | some asset =>
      let r := lib.ges_extractable_set_asset t element asset
      Mutation.save (gboolean r.1) r.2
        ((sc.call (Call.extractable_set_asset element.name asset)).store_timeline
          from_pipeline r.2)

/-- The statements of `_container_remove_child` between the acquisition macro and
`SAVE_TIMELINE_IF_NEEDED`. -/
def _container_remove_child_mutation (lib : Lib) (action : GstValidateAction)
    (t : GESTimeline) (from_pipeline : Bool) (sc : Scenario) : Mutation :=
  match ges_timeline_get_element (some t)
      (gst_structure_get_string action.struct "container-name") with
  | none => Mutation.returned GstValidateActionReturn.ERROR sc
  | some container =>
    if container.is_container then
      match ges_timeline_get_element (some t)
          (gst_structure_get_string action.struct "child-name") with
      | none => Mutation.returned GstValidateActionReturn.ERROR sc
      | some child =>
        let r := lib.ges_container_remove t container child
        Mutation.save (gboolean r.1) r.2
          ((sc.call (Call.container_remove container.name child.name)).store_timeline
            from_pipeline r.2)
    else Mutation.returned GstValidateActionReturn.ERROR sc

/-- The statements of `_ungroup` between the acquisition macro and
`SAVE_TIMELINE_IF_NEEDED`; `res` is `TRUE` from its declaration on. -/
def _ungroup_mutation (lib : Lib) (action : GstValidateAction) (t : GESTimeline)
    (from_pipeline : Bool) (sc : Scenario) : Mutation :=
  match ges_timeline_get_element (some t)
      (gst_structure_get_string action.struct "container-name") with
  | none => Mutation.returned GstValidateActionReturn.ERROR sc
  | some container =>
    if container.is_container then
      let recursive := (gst_structure_get_boolean action.struct "recursive").getD false
      let t1 := lib.ges_container_ungroup t container recursive
      Mutation.save GstValidateActionReturn.OK t1
        ((sc.call (Call.container_ungroup container.name recursive)).store_timeline
          from_pipeline t1)
    else Mutation.returned GstValidateActionReturn.ERROR sc

/-- The statements of `_set_control_source` between the acquisition macro and
`SAVE_TIMELINE_IF_NEEDED`, which follows the label `done`. -/
def _set_control_source_mutation (lib : Lib) (action : GstValidateAction) (t : GESTimeline)
    (from_pipeline : Bool) (sc : Scenario) : Mutation :=
  match gst_structure_get_string action.struct "element-name",
    gst_structure_get_string action.struct "property-name" with
  | some element_name, some property_name =>
    let source_type := gst_structure_get_string action.struct "source-type"
    match ges_timeline_get_element (some t) (some element_name) with
    | none => Mutation.returned GstValidateActionReturn.ERROR sc
    | some element =>
      if element.is_track_element then
        let binding_type :=
          (gst_structure_get_string action.struct "binding-type").getD "direct"
        if source_type == none || source_type == some "interpolation" then
          match optional_enum lib action "interpolation-mode" "GstInterpolationMode"
              GST_INTERPOLATION_MODE_LINEAR with
          | none => Mutation.returned GstValidateActionReturn.ERROR sc
          | some mode =>
            let r := lib.ges_track_element_set_control_source t element mode property_name
              binding_type
            Mutation.save (gboolean r.1) r.2
              ((sc.call (Call.set_control_source element_name property_name binding_type
                mode)).store_timeline from_pipeline r.2)
        else Mutation.save GstValidateActionReturn.ERROR t sc
      else Mutation.returned GstValidateActionReturn.ERROR sc
  | _, _ => Mutation.returned GstValidateActionReturn.ERROR sc

/-- The handlers that end with `SAVE_TIMELINE_IF_NEEDED`. -/
inductive SavingHandler
  | _add_asset | _remove_asset | _add_layer | _remove_layer | _remove_clip
  | _edit_container | _set_track_restriction_caps | _set_asset_on_element
  | _container_remove_child | _ungroup | _set_control_source
  deriving DecidableEq, Repr

/-- The statements of a saving handler between the acquisition macro and
`SAVE_TIMELINE_IF_NEEDED`. -/
def SavingHandler.mutation (h : SavingHandler) (lib : Lib) (action : GstValidateAction)
    (t : GESTimeline) (from_pipeline : Bool) (sc : Scenario) : Mutation :=
  match h with
  | ._add_asset => _add_asset_mutation lib action t from_pipeline sc
  | ._remove_asset => _remove_asset_mutation lib action t from_pipeline sc
  | ._add_layer => _add_layer_mutation lib action t from_pipeline sc
  | ._remove_layer => _remove_layer_mutation lib action t from_pipeline sc
  | ._remove_clip => _remove_clip_mutation lib action t from_pipeline sc
  | ._edit_container => _edit_container_mutation lib action t from_pipeline sc
  | ._set_track_restriction_caps =>
    _set_track_restriction_caps_mutation lib action t from_pipeline sc
  | ._set_asset_on_element => _set_asset_on_element_mutation lib action t from_pipeline sc
  | ._container_remove_child => _container_remove_child_mutation lib action t from_pipeline sc
  | ._ungroup => _ungroup_mutation lib action t from_pipeline sc
  | ._set_control_source => _set_control_source_mutation lib action t from_pipeline sc

/-- A saving handler: the acquisition macro, its statements up to
`SAVE_TIMELINE_IF_NEEDED`, and the common end. -/
def SavingHandler.run (h : SavingHandler) (lib : Lib) (action : GstValidateAction)
    (sc : Scenario) : Outcome :=
  handler_on_timeline lib action sc (fun t from_pipeline sc1 =>
    save_and_return lib action (h.mutation lib action t from_pipeline sc1))

/-- The function `_add_asset`. -/
def _add_asset (lib : Lib) (action : GstValidateAction) (sc : Scenario) : Outcome :=
  SavingHandler._add_asset.run lib action sc

/-- The function `_remove_asset`. -/
def _remove_asset (lib : Lib) (action : GstValidateAction) (sc : Scenario) : Outcome :=
  SavingHandler._remove_asset.run lib action sc

/-- The function `_add_layer`. -/
def _add_layer (lib : Lib) (action : GstValidateAction) (sc : Scenario) : Outcome :=
  SavingHandler._add_layer.run lib action sc

/-- The function `_remove_layer`. -/
def _remove_layer (lib : Lib) (action : GstValidateAction) (sc : Scenario) : Outcome :=
  SavingHandler._remove_layer.run lib action sc

/-- The function `_remove_clip`. -/
def _remove_clip (lib : Lib) (action : GstValidateAction) (sc : Scenario) : Outcome :=
  SavingHandler._remove_clip.run lib action sc

/-- The function `_edit_container`. -/
def _edit_container (lib : Lib) (action : GstValidateAction) (sc : Scenario) : Outcome :=
  SavingHandler._edit_container.run lib action sc

/-- The function `_set_track_restriction_caps`. -/
def _set_track_restriction_caps (lib : Lib) (action : GstValidateAction) (sc : Scenario) :
    Outcome :=
  SavingHandler._set_track_restriction_caps.run lib action sc

/-- The function `_set_asset_on_element`. -/
def _set_asset_on_element (lib : Lib) (action : GstValidateAction) (sc : Scenario) :
    Outcome :=
  SavingHandler._set_asset_on_element.run lib action sc

/-- The function `_container_remove_child`. -/
def _container_remove_child (lib : Lib) (action : GstValidateAction) (sc : Scenario) :
    Outcome :=
  SavingHandler._container_remove_child.run lib action sc

/-- The function `_ungroup`. -/
def _ungroup (lib : Lib) (action : GstValidateAction) (sc : Scenario) : Outcome :=
  SavingHandler._ungroup.run lib action sc

/-- The function `_set_control_source`. -/
def _set_control_source (lib : Lib) (action : GstValidateAction) (sc : Scenario) : Outcome :=
  SavingHandler._set_control_source.run lib action sc

/-! ## Split, copy and the shared execution path -/

/-- The function `_split_clip`. -/
def _split_clip (lib : Lib) (action : GstValidateAction) (sc : Scenario) : Outcome :=
  handler_on_timeline lib action sc (fun t from_pipeline sc1 =>
    match ges_timeline_get_element (some t)
        (gst_structure_get_string action.struct "clip-name") with
    | none => Outcome.returned GstValidateActionReturn.ERROR sc1
    | some element =>
      if element.is_clip then
        let sc2 := sc1.call Call.timeline_unref
        match lib.gst_validate_action_get_clocktime action "position" with
        | none => Outcome.returned GstValidateActionReturn.ERROR sc2
        | some position =>
          let sc3 := sc2.call (Call.clip_split element.name position)
          match lib.ges_clip_split t element position with
          | some t1 =>
            Outcome.returned GstValidateActionReturn.OK (sc3.store_timeline from_pipeline t1)
          | none => Outcome.returned GstValidateActionReturn.ERROR sc3
      else Outcome.returned GstValidateActionReturn.ERROR sc1)

/-- The function `_copy_element`. -/
def _copy_element (lib : Lib) (action : GstValidateAction) (sc : Scenario) : Outcome :=
  handler_on_timeline lib action sc (fun t from_pipeline sc1 =>
    match ges_timeline_get_element (some t)
        (gst_structure_get_string action.struct "element-name") with
    | none => Outcome.returned GstValidateActionReturn.ERROR sc1
    | some element =>
      let recursive := (gst_structure_get_boolean action.struct "recursive").getD true
      match lib.gst_validate_action_get_clocktime action "position" with
      | none => Outcome.returned GstValidateActionReturn.ERROR sc1
      | some position =>
        let sc2 := (sc1.call (Call.element_copy element.name recursive)).call
          (Call.element_paste element.name position)
        match lib.ges_timeline_element_copy_paste t element recursive position with
        | none =>
          Outcome.returned GstValidateActionReturn.ERROR_REPORTED
            ((sc2.call Call.timeline_unref).report Issue.SCENARIO_ACTION_EXECUTION_ERROR
              ("Could not paste clip " ++ element.name))
        | some pasted =>
          let sc3 := (sc2.store_timeline from_pipeline pasted.2).call Call.timeline_unref
          match gst_structure_get_string action.struct "paste-name" with
          | none => Outcome.returned GstValidateActionReturn.OK sc3
          | some paste_name =>
            let sc4 := sc3.call (Call.element_set_name pasted.1.name paste_name)
            match lib.ges_timeline_element_set_name pasted.2 pasted.1 paste_name with
            | none =>
              Outcome.returned GstValidateActionReturn.ERROR_REPORTED
                (sc4.report Issue.SCENARIO_ACTION_EXECUTION_ERROR
                  ("Could not set element name " ++ paste_name))
            | some t2 =>
              Outcome.returned GstValidateActionReturn.OK
                (sc4.store_timeline from_pipeline t2))

/-- The function `_validate_action_execute` chooses from the name of the
structure; `none` stands for the branch of `g_assert_not_reached`. -/
def struct_func (s : GstStructure) : Option StructFunc :=
  if gst_structure_has_name s "add-keyframe" || gst_structure_has_name s "remove-keyframe" then
    some StructFunc._ges_add_remove_keyframe_from_struct
  else if gst_structure_has_name s "add-clip" then
    some StructFunc._ges_add_clip_from_struct
  else if gst_structure_has_name s "container-add-child" then
    some StructFunc._ges_container_add_child_from_struct
  else if gst_structure_has_name s "set-child-property" then
    some StructFunc._ges_set_child_property_from_struct
  else none

/-- The function `_validate_action_execute`. -/
def _validate_action_execute (lib : Lib) (action : GstValidateAction) (sc : Scenario) :
    Outcome :=
  match acquire_timeline_and_pipeline lib action sc with
  | Acquired.returned res sc1 => Outcome.returned res sc1
  | Acquired.locals timeline from_pipeline sc1 =>
    let sc2 := if from_pipeline then sc1.call Call.pipeline_unref else sc1
    let s := gst_structure_remove_field action.struct "playback-time"
    match struct_func s with
    | none => Outcome.assertion_failed sc2
    | some func =>
      let r := lib.from_struct func timeline s
      let sc3 := sc2.call (Call.from_struct func s.name)
      let sc4 :=
        match r.2.2 with
        | some t1 => sc3.store_timeline from_pipeline t1
        | none => sc3
      if !r.1 then
        Outcome.returned GstValidateActionReturn.OK
          (sc4.report Issue.SCENARIO_ACTION_EXECUTION_ERROR
            ("Could not execute " ++ s.name ++ " (error: " ++ r.2.1.getD "None" ++ ")"))
      else Outcome.returned GstValidateActionReturn.OK (sc4.call Call.timeline_unref)

/-! ## Load project -/

/-- The function `_project_loaded_cb`. -/
def _project_loaded_cb (action : GstValidateAction) (sc : Scenario) : Scenario :=
  { sc with actions_done := sc.actions_done ++ [action.id] }

/-- The statements of `_load_project` that set the local `uri`, from the test of
`serialized-content` on: `none` when they lead to the label `fail`. -/
def load_project_uri (lib : Lib) (action : GstValidateAction) (tmpfile : String)
    (sc : Scenario) : Option (Option String) × Scenario :=
  match gst_structure_get_string action.struct "serialized-content" with
  | some content =>
    let sc1 := sc.call (Call.file_set_contents tmpfile content)
    match lib.g_file_set_contents tmpfile content with
    | some message =>
      (none, sc1.report Issue.SCENARIO_ACTION_EXECUTION_ERROR
        ("Could not set XML content: " ++ message))
    | none =>
      match (lib.gst_filename_to_uri tmpfile).2 with
      | some message =>
        (none, sc1.report Issue.SCENARIO_ACTION_EXECUTION_ERROR
          ("Could not set filename to URI: " ++ message))
      | none => (some (lib.gst_filename_to_uri tmpfile).1, sc1)
  | none =>
    match gst_structure_get_string action.struct "uri" with
    | none =>
      (none, sc.report Issue.SCENARIO_ACTION_EXECUTION_ERROR
        ("None of 'uri' or 'content' passed as parametter" ++ " can't load any timeline!"))
    | some uri => (some (some uri), sc)

/-- The two loops of `_load_project`: every layer `ges_timeline_get_layers` gave
is removed from the timeline, then every track `ges_timeline_get_tracks` gave. -/
def remove_layers_and_tracks (t : GESTimeline) : GESTimeline :=
  let t1 := t.layers.foldl (fun acc layer => (ges_timeline_remove_layer acc layer).2) t
  t1.tracks.foldl (fun acc track => (ges_timeline_remove_track acc track).2) t1

/-- The calls the two loops of `_load_project` make. -/
def remove_layers_and_tracks_calls (t : GESTimeline) : List Call :=
  t.layers.map Call.timeline_remove_layer ++ t.tracks.map Call.timeline_remove_track

/-- The statements of `_load_project` from the first loop on, with the local
`state` and the local `uri`. -/
def load_project_from (lib : Lib) (action : GstValidateAction) (timeline : Option GESTimeline)
    (from_pipeline : Bool) (state : GstState) (uri : Option String) (sc : Scenario) :
    GstValidateActionReturn × Scenario :=
  let cleared := timeline.map remove_layers_and_tracks
  let sc1 : Scenario :=
    match timeline, cleared with
    | some t, some t1 =>
      { sc with calls := sc.calls ++ remove_layers_and_tracks_calls t }.store_timeline
        from_pipeline t1
    | _, _ => sc
  let sc2 : Scenario :=
    { sc1 with
      loaded_handlers := sc1.loaded_handlers ++ [⟨uri, action.id⟩]
      calls := sc1.calls ++ [Call.project_loaded_connect uri action.id,
        Call.project_load uri cleared] }
  let r := lib.ges_project_load uri cleared
  let sc3 := if r.2 then _project_loaded_cb action sc2 else sc2
  match r.1 with
  | some message =>
    (GstValidateActionReturn.ERROR_REPORTED,
      sc3.report Issue.SCENARIO_ACTION_EXECUTION_ERROR
        ("Could not load timeline: " ++ message))
  | none => (GstValidateActionReturn.ASYNC, sc3.set_state state)

/-- The statements of `_load_project` that follow the acquisition macro. -/
def _load_project_body (lib : Lib) (action : GstValidateAction)
    (timeline : Option GESTimeline) (from_pipeline : Bool) (sc1 : Scenario) :
    GstValidateActionReturn × Scenario :=
  let tmpfile := lib.g_get_tmp_dir ++ "/" ++ "tmpxgesload.xges"
  match (if from_pipeline then sc1.pipeline else none) with
  | some p =>
    if p.is_ges then
      let sc2 := sc1.set_state GstState.NULL
      match load_project_uri lib action tmpfile sc2 with
      | (none, sc3) => (GstValidateActionReturn.ERROR_REPORTED, sc3)
      | (some uri, sc3) => load_project_from lib action timeline from_pipeline p.state uri sc3
    else
      (GstValidateActionReturn.ERROR_REPORTED,
        sc1.report Issue.SCENARIO_ACTION_EXECUTION_ERROR
          "Not a GES pipeline, can't work with it")
  | none =>
    (GstValidateActionReturn.ERROR_REPORTED,
      sc1.report Issue.SCENARIO_ACTION_EXECUTION_ERROR
        "Not a GES pipeline, can't work with it")

/-- The function `_load_project`. -/
def _load_project (lib : Lib) (action : GstValidateAction) (sc : Scenario) :
    GstValidateActionReturn × Scenario :=
  DECLARE_AND_GET_TIMELINE_AND_PIPELINE lib action sc (_load_project_body lib action)

/-! ## Signals -/

/-- The bus emits `message::async-done` to the given handlers, in order: a
handler is called when it is still connected at its turn (a handler
disconnected during the emission is not called); `action_of` gives the action
a handler has as user data. -/
def emit_to_handlers (action_of : Nat → GstValidateAction) :
    List BusHandler → Scenario → Scenario
  | [], sc => sc
  | h :: rest, sc =>
    emit_to_handlers action_of rest
      (match sc.pipeline with
        | some p =>
          if h ∈ p.async_done_handlers then _commit_done_cb (action_of h.action_id) sc else sc
        | none => sc)

/-- The bus of the pipeline emits `message::async-done`, to the handlers
connected when the emission starts. -/
def emit_async_done (action_of : Nat → GstValidateAction) (sc : Scenario) : Scenario :=
  match sc.pipeline with
  | some p => emit_to_handlers action_of p.async_done_handlers sc
  | none => sc

/-- The project of the URI emits `loaded`: each handler connected to the signal
of that project is called. -/
def emit_project_loaded (action_of : Nat → GstValidateAction) (project : Option String)
    (sc : Scenario) : Scenario :=
  (sc.loaded_handlers.filter (fun h => h.project == project)).foldl
    (fun acc h => _project_loaded_cb (action_of h.action_id) acc) sc

/-- A `commit` action. -/
def commit_action : GstValidateAction := sample_action "commit" []

/-- The actions by their identity, for the concrete scenarios: the action of
identity `i` is a `commit` action. -/
def sample_action_of (i : Nat) : GstValidateAction := { commit_action with id := i }

/-- The handlers connected to `message::async-done` on the bus of the pipeline. -/
def connected_handlers (sc : Scenario) : List BusHandler :=
  match sc.pipeline with
  | some p => p.async_done_handlers
  | none => []

/-! ## Concrete commands of the asynchronous handlers -/

/-- A `load-project` action that names the project by `uri`. -/
def load_project_action : GstValidateAction :=
  sample_action "load-project" [("uri", gstr "file:///new.xges")]

/-- A `commit` action that carries `project-uri`: the timeline is loaded from
that project and saved to it. -/
def commit_and_save_action : GstValidateAction :=
  sample_action "commit" [("project-uri", gstr "file:///ok.xges")]

/-- The result a call of a handler returned, when it returned one. -/
def Outcome.result : Outcome → Option GstValidateActionReturn
  | Outcome.returned res _ => some res
  | Outcome.assertion_failed _ => none
  | Outcome.timeline_missing _ => none

/-- The state in which a call of a handler ended. -/
def Outcome.scenario : Outcome → Scenario
  | Outcome.returned _ sc => sc
  | Outcome.assertion_failed sc => sc
  | Outcome.timeline_missing sc => sc

/-- A playing pipeline that is not a `GESPipeline`. -/
def plain_pipeline : Pipeline :=
  { is_ges := false, state := GstState.PLAYING, timeline := none, async_done_handlers := [] }

/-- A scenario whose pipeline is not a `GESPipeline`. -/
def scenario_with_plain_pipeline : Scenario :=
  { pipeline := some plain_pipeline, reports := [], calls := [], actions_done := [] }

/-- A `load-project` action that carries both `serialized-content` and `uri`. -/
def load_content_action : GstValidateAction :=
  sample_action "load-project"
    [("uri", gstr "file:///new.xges"), ("serialized-content", gstr "<ges/>")]

/-- The path of the temporary file of `_load_project`. -/
def load_project_tmpfile (lib : Lib) : String :=
  lib.g_get_tmp_dir ++ "/" ++ "tmpxgesload.xges"

/-! ## Concrete commands of the shared execution path -/

/-- The structured operation of a verb of the shared execution path, as the
specification lists them; `none` for any other verb. -/
def matching_operation (verb : String) : Option StructFunc :=
  if verb = "add-keyframe" then some StructFunc._ges_add_remove_keyframe_from_struct
  else if verb = "remove-keyframe" then some StructFunc._ges_add_remove_keyframe_from_struct
  else if verb = "add-clip" then some StructFunc._ges_add_clip_from_struct
  else if verb = "container-add-child" then
    some StructFunc._ges_container_add_child_from_struct
  else if verb = "set-child-property" then
    some StructFunc._ges_set_child_property_from_struct
  else none

/-- An action whose verb is none of those of the shared execution path. -/
def unknown_verb_action : GstValidateAction := sample_action "frobnicate" []

/-- A `set-child-property` action on an element the timeline does not have. -/
def rejected_set_child_property_action : GstValidateAction :=
  sample_action "set-child-property"
    [("element-name", gstr "nope"), ("property", gstr "posx"), ("value", gint 5)]

/-- A `set-child-property` action on the clip of the timeline. -/
def accepted_set_child_property_action : GstValidateAction :=
  sample_action "set-child-property"
    [("element-name", gstr "clip0"), ("property", gstr "posx"), ("value", gint 5)]

/-! ## Concrete commands that carry a persistence target -/

/-- A library instance as `sample_lib`, where no timeline can be saved. -/
def readonly_lib : Lib :=
  { sample_lib with ges_timeline_save_to_uri := fun _ _ => false }

/-- The verb a saving handler is registered for. -/
def SavingHandler.verb : SavingHandler → String
  | ._add_asset => "add-asset"
  | ._remove_asset => "remove-asset"
  | ._add_layer => "add-layer"
  | ._remove_layer => "remove-layer"
  | ._remove_clip => "remove-clip"
  | ._edit_container => "edit-container"
  | ._set_track_restriction_caps => "set-track-restriction-caps"
  | ._set_asset_on_element => "element-set-asset"
  | ._container_remove_child => "container-remove-child"
  | ._ungroup => "ungroup-container"
  | ._set_control_source => "set-control-source"

/-- Parameters with which the mutation of a saving handler succeeds on
`sample_timeline`. -/
def SavingHandler.sample_fields : SavingHandler → List (String × GValue)
  | ._add_asset => [("type", gstr "GESUriClip"), ("id", gstr "file:///media.ogv")]
  | ._remove_asset => [("type", gstr "GESUriClip"), ("id", gstr "file:///media.ogv")]
  | ._add_layer => [("priority", gint 2)]
  | ._remove_layer => [("priority", gint 0)]
  | ._remove_clip => [("name", gstr "clip0")]
  | ._edit_container =>
    [("container-name", gstr "clip0"), ("position", ⟨GType.uint64, GData.num 5⟩)]
  | ._set_track_restriction_caps => [("track-type", gstr "video"), ("caps", gstr "video/x-raw")]
  | ._set_asset_on_element =>
    [("element-name", gstr "clip0"), ("asset-id", gstr "file:///media.ogv")]
  | ._container_remove_child =>
    [("container-name", gstr "clip0"), ("child-name", gstr "source0")]
  | ._ungroup => [("container-name", gstr "clip0")]
  | ._set_control_source =>
    [("element-name", gstr "source0"), ("property-name", gstr "alpha")]

/-- A command of a saving handler that carries `project-uri`: the timeline is
loaded from that project and is to be saved to it. -/
def saving_action (h : SavingHandler) : GstValidateAction :=
  sample_action h.verb (h.sample_fields ++ [("project-uri", gstr "file:///ok.xges")])

/-- The timeline `sample_timeline` after the removal of its first layer. -/
def sample_timeline_without_first_layer : GESTimeline :=
  { sample_timeline with layers := [⟨1, true⟩] }

/-- A `copy-element` command that carries `project-uri`. -/
def copy_and_save_action : GstValidateAction :=
  sample_action "copy-element"
    [("element-name", gstr "clip0"), ("position", ⟨GType.uint64, GData.num 5⟩),
      ("project-uri", gstr "file:///ok.xges")]

/-- A `split-clip` command that carries `project-uri`. -/
def split_and_save_action : GstValidateAction :=
  sample_action "split-clip"
    [("clip-name", gstr "clip0"), ("position", ⟨GType.uint64, GData.num 5⟩),
      ("project-uri", gstr "file:///ok.xges")]

/-! ## Concrete commands of the layer, clip, track and container handlers -/

/-- The timeline handle as a counter: the number of releases of the timeline
(`gst_object_unref (timeline)`) among the calls; the acquisition macro adds
one reference per command. -/
def timeline_releases (calls : List Call) : Nat := calls.count Call.timeline_unref

/-- The layers of the timeline of the pipeline. -/
def Scenario.layers (sc : Scenario) : Option (List GESLayer) :=
  (sc.pipeline.bind pipeline_get_timeline).map GESTimeline.layers

/-- The tracks of the timeline of the pipeline. -/
def Scenario.tracks (sc : Scenario) : Option (List GESTrack) :=
  (sc.pipeline.bind pipeline_get_timeline).map GESTimeline.tracks

/-- Modelled from the spec: the function `ges_timeline_append_layer`, whose code
is not in `ges-validate.c`, called `count` times: each new layer has its index
in the timeline as priority and no auto-transition. -/
def appended_layers (t : GESTimeline) (count : Nat) : GESTimeline :=
  { t with layers := t.layers ++
      (List.range count).map (fun i => (⟨(t.layers.length + i : Nat), false⟩ : GESLayer)) }

/-- Modelled from the spec: the collaborator `get-layer-by-priority`
(`_ges_get_layer_by_priority`), whose code is not in `ges-validate.c`: the
layer of that priority when the timeline has that many layers; a layer of a
priority that does not exist yet is created, the timeline being given new
layers, each with its index as priority, up to that priority. -/
def get_or_append_layer (t : GESTimeline) (priority : Int) :
    Option GESLayer × GESTimeline :=
  let wanted := (max priority 0).toNat
  if t.layers.length ≤ wanted then
    (some ⟨wanted, false⟩, appended_layers t (wanted + 1 - t.layers.length))
  else (t.layers.find? (fun l => l.priority == wanted), t)

/-- A library instance as `sample_lib`, with layers created on demand. -/
def layered_lib : Lib :=
  { sample_lib with _ges_get_layer_by_priority := get_or_append_layer }

/-- An `add-layer` action with the given priority. -/
def add_layer_action (priority : Int) : GstValidateAction :=
  sample_action "add-layer" [("priority", gint priority)]

/-- A `remove-layer` action with the given priority. -/
def remove_layer_action (priority : Int) : GstValidateAction :=
  sample_action "remove-layer" [("priority", gint priority)]

/-- An `add-layer` action without `priority`. -/
def add_layer_without_priority_action : GstValidateAction :=
  sample_action "add-layer" [("auto-transition", ⟨GType.boolean, GData.num 1⟩)]

/-- An `edit-container` action on a container the timeline does not have. -/
def edit_missing_container_action : GstValidateAction :=
  sample_action "edit-container"
    [("container-name", gstr "nope"), ("position", ⟨GType.uint64, GData.num 5⟩)]

/-- An `edit-container` action on the clip of the timeline. -/
def edit_container_action : GstValidateAction :=
  sample_action "edit-container"
    [("container-name", gstr "clip0"), ("position", ⟨GType.uint64, GData.num 5⟩),
      ("edit-mode", gstr "normal"), ("new-layer-priority", gint 1)]

/-- A `copy-element` action with the declared parameter `recurse` set to false. -/
def copy_without_recursion_action : GstValidateAction :=
  sample_action "copy-element"
    [("element-name", gstr "clip0"), ("recurse", ⟨GType.boolean, GData.num 0⟩),
      ("position", ⟨GType.uint64, GData.num 5⟩)]

/-- A scenario whose pipeline holds `sample_timeline` without its layers: the
clip is in no layer. -/
def scenario_without_layers : Scenario :=
  { pipeline := some
      { is_ges := true, state := GstState.PLAYING,
        timeline := some { sample_timeline with layers := [] }, async_done_handlers := [] },
    reports := [], calls := [], actions_done := [] }

/-- A `remove-clip` action on the clip of the timeline. -/
def remove_clip_action : GstValidateAction :=
  sample_action "remove-clip" [("name", gstr "clip0")]

/-- A `set-track-restriction-caps` action on the video tracks. -/
def restrict_video_action : GstValidateAction :=
  sample_action "set-track-restriction-caps"
    [("track-type", gstr "video"), ("caps", gstr "video/x-raw")]

/-- A `set-child-properties` action that carries `project-uri`. -/
def set_with_project_uri_action : GstValidateAction :=
  sample_action "set-child-properties"
    [("element-name", gstr "clip0"), ("posx", gint 5),
      ("project-uri", gstr "file:///ok.xges")]

/-- A `check-child-properties` action that carries `project-uri`. -/
def check_with_project_uri_action : GstValidateAction :=
  sample_action "check-child-properties"
    [("element-name", gstr "clip0"), ("posx", gint 0),
      ("project-uri", gstr "file:///ok.xges")]

/-- A `check-ges-properties` action that carries `project-uri`. -/
def check_ges_with_project_uri_action : GstValidateAction :=
  sample_action "check-ges-properties"
    [("element-name", gstr "clip0"), ("start", ⟨GType.uint64, GData.num 0⟩),
      ("project-uri", gstr "file:///ok.xges")]

/-- A `load-project` action with neither `serialized-content` nor `uri`. -/
def load_without_source_action : GstValidateAction := sample_action "load-project" []

/-- A `copy-element` action with the field `recursive` set to false. -/
def copy_with_recursive_field_action : GstValidateAction :=
  sample_action "copy-element"
    [("element-name", gstr "clip0"), ("recursive", ⟨GType.boolean, GData.num 0⟩),
      ("position", ⟨GType.uint64, GData.num 5⟩)]

/-- The calls of `SAVE_TIMELINE_IF_NEEDED`: the helper, and within it the save to
the persistence target when the command carries one. -/
def save_calls (lib : Lib) (action : GstValidateAction) : List Call :=
  Call.save_timeline ::
    (match lib.persistence_target action.struct with
      | some uri => [Call.timeline_save_to_uri uri]
      | none => [])

/-- The scenario the statements of a handler start from after
`DECLARE_AND_GET_TIMELINE`: the pipeline reference is dropped when there is one. -/
def Scenario.after_acquisition (sc : Scenario) (from_pipeline : Bool) : Scenario :=
  if from_pipeline then sc.call Call.pipeline_unref else sc

/-- The state in which the statements of a saving handler before the save macro
ended. -/
def Mutation.scenario : Mutation → Scenario
  | Mutation.returned _ sc => sc
  | Mutation.beach _ sc => sc
  | Mutation.save _ _ sc => sc

/-- A library instance whose persistence target is the field `project-id`, the
one the message of `SAVE_TIMELINE_IF_NEEDED` prints, and that cannot save. -/
def detached_target_lib : Lib :=
  { sample_lib with
    persistence_target := fun s => gst_structure_get_string s "project-id"
    ges_timeline_save_to_uri := fun _ _ => false }

/-- A `commit` action that carries `project-id`. -/
def commit_with_project_id_action : GstValidateAction :=
  sample_action "commit" [("project-id", gstr "file:///ok.xges")]

/-! ## Concrete commands of the revision -/

/-- An int64 value that is not 0 and that a C cast to `gint` turns into 0. -/
def gint64_wrapping_to_zero : GValue := ⟨GType.int64, GData.num 4294967296⟩

/-- A check of `posx` of the clip against an int64 value that is not 0. -/
def check_posx_wrapping_to_zero : GstValidateAction :=
  sample_action "check-child-properties"
    [("element-name", gstr "clip0"), ("posx", gint64_wrapping_to_zero)]

/-- An `edit-container` action with an edit mode and an edge that are not the
defaults. -/
def edit_container_ripple_action : GstValidateAction :=
  sample_action "edit-container"
    [("container-name", gstr "clip0"), ("position", ⟨GType.uint64, GData.num 5⟩),
      ("edit-mode", gstr "ripple"), ("edge", gstr "edge_end"),
      ("new-layer-priority", gint 1)]

/-- An `edit-container` action with the mandatory fields only. -/
def edit_container_default_action : GstValidateAction :=
  sample_action "edit-container"
    [("container-name", gstr "clip0"), ("position", ⟨GType.uint64, GData.num 5⟩)]

/-- An `edit-container` action whose `edit-mode` is no name of `GESEditMode`. -/
def edit_container_bad_mode_action : GstValidateAction :=
  sample_action "edit-container"
    [("container-name", gstr "clip0"), ("position", ⟨GType.uint64, GData.num 5⟩),
      ("edit-mode", gstr "bogus")]

/-- An `edit-container` action whose `edge` is no name of `GESEdge`. -/
def edit_container_bad_edge_action : GstValidateAction :=
  sample_action "edit-container"
    [("container-name", gstr "clip0"), ("position", ⟨GType.uint64, GData.num 5⟩),
      ("edit-mode", gstr "trim"), ("edge", gstr "bogus")]

/-! ## Timeline acquisition: theorems -/

theorem acquire_without_pipeline (lib : Lib) (action : GstValidateAction) (sc : Scenario)
    (huri : gst_structure_get_string action.struct "project-uri" = none)
    (hpipe : sc.pipeline = none) :
    acquire_timeline_and_pipeline lib action sc =
      Acquired.returned GstValidateActionReturn.ERROR_REPORTED
        { sc with reports := sc.reports ++ [pipeline_destroyed_report action] } := by
  simp [acquire_timeline_and_pipeline, huri, hpipe, Scenario.report, pipeline_destroyed_report]

/-- The function `_ges_load_timeline` either returns no timeline or leaves the
scenario as it was. -/
theorem load_timeline_some (lib : Lib) (project_uri : String) (sc sc1 : Scenario)
    (t : GESTimeline) (h : _ges_load_timeline lib project_uri sc = (some t, sc1)) :
    sc1 = sc := by
  simp only [_ges_load_timeline] at h
  split at h
  · simp at h
  · simp only [Prod.mk.injEq] at h
    exact h.2.symm

/-- When the acquisition macro leaves the locals set it has reported nothing
and called nothing: the scenario is as it was. -/
theorem acquire_locals_scenario (lib : Lib) (action : GstValidateAction) (sc sc1 : Scenario)
    (timeline : Option GESTimeline) (from_pipeline : Bool)
    (h : acquire_timeline_and_pipeline lib action sc = Acquired.locals timeline from_pipeline sc1) :
    sc1 = sc := by
  unfold acquire_timeline_and_pipeline at h
  split at h
  · split at h
    · cases h
    · cases h; rfl
  · split at h
    · cases h
    · rename_i heq
      cases h
      exact load_timeline_some lib _ sc sc1 _ heq

/-- C2 (the code departs from it): on a scenario whose pipeline has no timeline,
a command without `project-uri` gets a NULL timeline handle from the acquisition
macro, which neither reports an error nor makes the handler return. -/
theorem acquisition_yields_null_handle_without_report :
    acquire_timeline_and_pipeline sample_lib
        (sample_action "set-child-properties" [("element-name", gstr "clip0"), ("posx", gint 5)])
        { pipeline := some pipeline_without_timeline, reports := [], calls := [],
          actions_done := [] }
      = Acquired.locals none true
        { pipeline := some pipeline_without_timeline, reports := [], calls := [],
          actions_done := [] } := by
  decide

/-- The function `_ges_load_timeline` reports an error only when a `GError` was set: were
`ges_asset_extract` to give no timeline and set no error, the handler would
return the error-reported result with nothing reported. -/
theorem load_failure_without_error_is_not_reported :
    acquire_timeline_and_pipeline
        { sample_lib with ges_asset_extract := fun _ => (none, none) }
        (sample_action "set-child-properties"
          [("element-name", gstr "clip0"), ("project-uri", gstr "file:///missing.xges")])
        (sample_scenario GstState.PAUSED)
      = Acquired.returned GstValidateActionReturn.ERROR_REPORTED
        (sample_scenario GstState.PAUSED) := by
  decide

/-- Once the project has signalled `error-loading-asset` while
`_ges_load_timeline` waits, an error is held whatever signal follows. -/
theorem error_signal_is_kept (signals : List ProjectSignal) (m : String) :
    ∃ m1, signals.foldl load_signal_cb (some m) = some m1 := by
  induction signals generalizing m with
  | nil => exact ⟨m, rfl⟩
  | cons s rest ih =>
    cases s with
    | loaded => exact ih m
    | error_loading_asset m2 => exact ih m2

/-- Whenever the project signals `error-loading-asset` while `_ges_load_timeline`
waits, the timeline is discarded: no timeline is returned and one execution
error is reported. -/
theorem load_error_discards_timeline (lib : Lib) (project_uri : String) (sc : Scenario)
    (m : String)
    (hsig : ProjectSignal.error_loading_asset m ∈
      (lib.main_loop_signals project_uri).1 :: (lib.main_loop_signals project_uri).2)
    (hex : (lib.ges_asset_extract project_uri).1 ≠ none) :
    (_ges_load_timeline lib project_uri sc).1 = none
      ∧ ∃ message, (_ges_load_timeline lib project_uri sc).2 =
          sc.report Issue.SCENARIO_ACTION_EXECUTION_ERROR message := by
  have key : ∀ (l : List ProjectSignal) (e : Option String),
      ProjectSignal.error_loading_asset m ∈ l → ∃ m1, l.foldl load_signal_cb e = some m1 := by
    intro l
    induction l with
    | nil => intro e h; simp at h
    | cons s rest ih =>
      intro e h
      rcases List.mem_cons.1 h with h1 | h1
      · subst h1
        exact error_signal_is_kept rest m
      · exact ih _ h1
  obtain ⟨m1, hm1⟩ := key _ (lib.ges_asset_extract project_uri).2 hsig
  cases hx : (lib.ges_asset_extract project_uri).1 with
  | none => exact absurd hx hex
  | some t =>
    have h : _ges_load_timeline lib project_uri sc =
        (none, sc.report Issue.SCENARIO_ACTION_EXECUTION_ERROR
          ("Can not load timeline from: " ++ project_uri ++ " (" ++ m1 ++ ")")) := by
      simp only [_ges_load_timeline, hx, hm1]
    rw [h]
    exact ⟨rfl, _, rfl⟩

/-! ## Property set: theorems -/

theorem attempted_fields_prefix (lib : Lib) (fields : List (String × GValue))
    (e : GESTimelineElement) : attempted_fields lib e fields <+: fields := by
  induction fields generalizing e with
  | nil => exact List.prefix_refl _
  | cons f rest ih =>
    simp only [attempted_fields]
    split
    · exact ⟨rest, rfl⟩
    · exact (List.prefix_cons_inj f).2 (ih _)

theorem attempted_fields_all (lib : Lib) (fields : List (String × GValue))
    (e : GESTimelineElement) (h : set_all_succeed lib e fields = true) :
    attempted_fields lib e fields = fields := by
  induction fields generalizing e with
  | nil => rfl
  | cons f rest ih =>
    cases hs : lib.ges_timeline_element_set_child_property e f.1 f.2 with
    | none => simp [set_all_succeed, hs] at h
    | some e1 =>
      simp only [set_all_succeed, hs] at h
      simp only [attempted_fields, hs, ih e1 h]

theorem foreach_cons_true {σ : Type} (func : String → GValue → σ → Bool × σ)
    (f : String × GValue) (rest : List (String × GValue)) (st st1 : σ)
    (h : func f.1 f.2 st = (true, st1)) :
    gst_structure_foreach func (f :: rest) st = gst_structure_foreach func rest st1 := by
  simp only [gst_structure_foreach, h]

theorem foreach_cons_false {σ : Type} (func : String → GValue → σ → Bool × σ)
    (f : String × GValue) (rest : List (String × GValue)) (st st1 : σ)
    (h : func f.1 f.2 st = (false, st1)) :
    gst_structure_foreach func (f :: rest) st = (false, st1) := by
  simp only [gst_structure_foreach, h]

theorem set_property_none (lib : Lib) (property : String) (value : GValue)
    (st : PropertyData × Scenario)
    (h : lib.ges_timeline_element_set_child_property st.1.element property value = none) :
    set_property lib property value st =
      (false, ({ st.1 with res := GstValidateActionReturn.ERROR_REPORTED },
        (st.2.call (Call.set_child_property st.1.element.name property value)).report
          Issue.SCENARIO_ACTION_EXECUTION_ERROR
          ("Could not set " ++ st.1.element.name ++ " child property " ++ property ++ " to "
            ++ lib.gst_value_serialize value))) := by
  simp only [set_property, h]

theorem set_property_some (lib : Lib) (property : String) (value : GValue)
    (st : PropertyData × Scenario) (e : GESTimelineElement)
    (h : lib.ges_timeline_element_set_child_property st.1.element property value = some e) :
    set_property lib property value st =
      (true, ({ st.1 with element := e },
        st.2.call (Call.set_child_property st.1.element.name property value))) := by
  simp only [set_property, h]

/-- The calls `gst_structure_foreach` makes with `set_property`. -/
theorem foreach_set_calls (lib : Lib) (fields : List (String × GValue))
    (data : PropertyData) (sc : Scenario) :
    (gst_structure_foreach (set_property lib) fields (data, sc)).2.2.calls.filterMap
        Call.set_field?
      = sc.calls.filterMap Call.set_field? ++ attempted_fields lib data.element fields := by
  induction fields generalizing data sc with
  | nil => simp [gst_structure_foreach, attempted_fields]
  | cons f rest ih =>
    cases h : lib.ges_timeline_element_set_child_property data.element f.1 f.2 with
    | none =>
      rw [foreach_cons_false _ _ _ _ _ (set_property_none lib f.1 f.2 (data, sc) h)]
      simp [attempted_fields, h, Scenario.call, Scenario.report, Call.set_field?,
        List.filterMap_append]
    | some e1 =>
      rw [foreach_cons_true _ _ _ _ _ (set_property_some lib f.1 f.2 (data, sc) e1 h), ih]
      simp [attempted_fields, h, Scenario.call, Call.set_field?, List.filterMap_append]

/-- Result of `gst_structure_foreach` with `set_property`: unchanged when every
setter succeeds, error-reported otherwise. -/
theorem foreach_set_res (lib : Lib) (fields : List (String × GValue))
    (data : PropertyData) (sc : Scenario) :
    (gst_structure_foreach (set_property lib) fields (data, sc)).2.1.res
      = if set_all_succeed lib data.element fields then data.res
        else GstValidateActionReturn.ERROR_REPORTED := by
  induction fields generalizing data sc with
  | nil => simp [gst_structure_foreach, set_all_succeed]
  | cons f rest ih =>
    cases h : lib.ges_timeline_element_set_child_property data.element f.1 f.2 with
    | none =>
      rw [foreach_cons_false _ _ _ _ _ (set_property_none lib f.1 f.2 (data, sc) h)]
      simp [set_all_succeed, h]
    | some e1 =>
      rw [foreach_cons_true _ _ _ _ _ (set_property_some lib f.1 f.2 (data, sc) e1 h), ih]
      simp [set_all_succeed, h]

/-- What `set_or_check_properties` does once the acquisition macro has set the
locals. -/
theorem set_or_check_properties_acquired (lib : Lib) (action : GstValidateAction)
    (sc sc1 : Scenario) (timeline : Option GESTimeline) (from_pipeline : Bool)
    (hacq : acquire_timeline_and_pipeline lib action sc
      = Acquired.locals timeline from_pipeline sc1) :
    set_or_check_properties lib action sc =
      set_or_check_properties_body lib action timeline from_pipeline
        (if from_pipeline then sc.call Call.pipeline_unref else sc) := by
  have hsc := acquire_locals_scenario lib action sc sc1 timeline from_pipeline hacq
  subst hsc
  simp only [set_or_check_properties, DECLARE_AND_GET_TIMELINE,
    DECLARE_AND_GET_TIMELINE_AND_PIPELINE, hacq]

theorem store_timeline_calls (sc : Scenario) (from_pipeline : Bool) (t : GESTimeline) :
    (sc.store_timeline from_pipeline t).calls = sc.calls := by
  unfold Scenario.store_timeline
  split <;> rfl

theorem store_timeline_reports (sc : Scenario) (from_pipeline : Bool) (t : GESTimeline) :
    (sc.store_timeline from_pipeline t).reports = sc.reports := by
  unfold Scenario.store_timeline
  split <;> rfl

/-- C3 as stated fails: with a first field whose setter fails, the setter is
never attempted on the second field `posx`. -/
theorem set_not_attempted_after_failure :
    ¬ (∀ f ∈ property_fields set_missing_then_posx,
        f ∈ (set_or_check_properties sample_lib set_missing_then_posx
          (sample_scenario GstState.PAUSED)).2.calls.filterMap Call.set_field?) := by
  decide

/-- C3, amended: for a `set-child-properties` command on an existing element the
setter is attempted, in order, on the fields up to and including the first one on
which it fails, and on no field after it; when no setter fails it is attempted on
every field. -/
theorem set_attempted_until_first_failure (lib : Lib) (action : GstValidateAction)
    (sc sc1 : Scenario) (t : GESTimeline) (from_pipeline : Bool) (element : GESTimelineElement)
    (hname : action.struct.name = "set-child-properties")
    (hacq : acquire_timeline_and_pipeline lib action sc
      = Acquired.locals (some t) from_pipeline sc1)
    (helem : ges_timeline_get_element (some t)
      (gst_structure_get_string action.struct "element-name") = some element) :
    (set_or_check_properties lib action sc).2.calls.filterMap Call.set_field?
        = sc.calls.filterMap Call.set_field?
          ++ attempted_fields lib element (property_fields action)
      ∧ attempted_fields lib element (property_fields action) <+: property_fields action
      ∧ (set_all_succeed lib element (property_fields action) = true →
          attempted_fields lib element (property_fields action) = property_fields action) := by
  refine ⟨?_, attempted_fields_prefix lib _ _, attempted_fields_all lib _ _⟩
  rw [set_or_check_properties_acquired lib action sc sc1 (some t) from_pipeline hacq]
  simp only [set_or_check_properties_body, helem]
  have hf : property_func lib action = set_property lib := by
    simp [property_func, gst_structure_has_name, hname]
  simp only [hf, store_timeline_calls]
  rw [foreach_set_calls]
  cases from_pipeline <;>
    simp [Scenario.call, Call.set_field?, List.filterMap_append, property_data]

/-- Witness of C3 amended: on `clip0` the setter is attempted on `nope` only. -/
theorem set_attempted_until_first_failure_witness :
    (set_or_check_properties sample_lib set_missing_then_posx
        (sample_scenario GstState.PAUSED)).2.calls.filterMap Call.set_field?
      = [("nope", gint 3)] := by
  have h := (set_attempted_until_first_failure sample_lib set_missing_then_posx
    (sample_scenario GstState.PAUSED) (sample_scenario GstState.PAUSED) sample_timeline true
    (sample_timeline.elements.get ⟨1, by decide⟩) (by decide) (by decide) (by decide)).1
  rw [h]
  decide

/-! ## Property check: theorems -/

/-- What `check_property_compare` gives: the callback returns `TRUE`; an unequal
value sets the result and reports one check error. -/
theorem check_property_compare_spec (lib : Lib) (action : GstValidateAction)
    (property : String) (expected observed : GValue) (st : PropertyData × Scenario) :
    ∃ message,
      check_property_compare lib action property expected observed st =
        if gst_value_compare_equal observed
            (comparable_expected lib action property observed expected) then (true, st)
        else (true, ({ st.1 with res := GstValidateActionReturn.ERROR_REPORTED },
          st.2.report Issue.SCENARIO_ACTION_CHECK_ERROR message)) := by
  refine ⟨check_error_message lib st.1.element property observed
    (comparable_expected lib action property observed expected), ?_⟩
  simp only [check_property_compare]
  cases gst_value_compare_equal observed
    (comparable_expected lib action property observed expected) <;> simp

/-- The function `check_property` for `check-ges-properties`: the object property is compared. -/
theorem check_property_object (lib : Lib) (action : GstValidateAction) (property : String)
    (expected : GValue) (data : PropertyData) (sc : Scenario)
    (h1 : data.check_children = false) :
    check_property lib action property expected (data, sc) =
      check_property_compare lib action property expected
        (g_object_get_property data.element property)
        (data, sc.call (Call.object_get_property data.element.name property)) := by
  simp [check_property, h1]

/-- The function `check_property` with a valid time on an element that is not a track element. -/
theorem check_property_not_track (lib : Lib) (action : GstValidateAction) (property : String)
    (expected : GValue) (data : PropertyData) (sc : Scenario)
    (h1 : data.check_children = true) (h2 : GST_CLOCK_TIME_IS_VALID data.time = true)
    (h3 : data.element.is_track_element = false) :
    check_property lib action property expected (data, sc) =
      (false, ({ data with res := GstValidateActionReturn.ERROR_REPORTED },
        sc.report Issue.SCENARIO_ACTION_EXECUTION_ERROR
          ("Could not get property at time for type " ++ data.element.type_name
            ++ " - only GESTrackElement supported"))) := by
  simp [check_property, h1, h2, h3]

/-- The function `check_property` with a valid time on a track element whose property has a
binding that yields a value. -/
theorem check_property_binding_value (lib : Lib) (action : GstValidateAction)
    (property : String) (expected : GValue) (data : PropertyData) (sc : Scenario)
    (binding : GstControlBinding) (tvalue : GValue)
    (h1 : data.check_children = true) (h2 : GST_CLOCK_TIME_IS_VALID data.time = true)
    (h3 : data.element.is_track_element = true)
    (hb : ges_track_element_get_control_binding data.element property = some binding)
    (hv : gst_control_binding_get_value binding data.time = some tvalue) :
    check_property lib action property expected (data, sc) =
      check_property_compare lib action property expected tvalue
        (data, (sc.call (Call.get_control_binding data.element.name property)).call
          (Call.binding_get_value data.element.name property data.time)) := by
  simp [check_property, h1, h2, h3, hb, hv]

/-- The function `check_property` with a valid time on a track element whose property has a
binding that yields no value. -/
theorem check_property_binding_none (lib : Lib) (action : GstValidateAction)
    (property : String) (expected : GValue) (data : PropertyData) (sc : Scenario)
    (binding : GstControlBinding)
    (h1 : data.check_children = true) (h2 : GST_CLOCK_TIME_IS_VALID data.time = true)
    (h3 : data.element.is_track_element = true)
    (hb : ges_track_element_get_control_binding data.element property = some binding)
    (hv : gst_control_binding_get_value binding data.time = none) :
    check_property lib action property expected (data, sc) =
      (false, ({ data with res := GstValidateActionReturn.ERROR_REPORTED },
        ((sc.call (Call.get_control_binding data.element.name property)).call
          (Call.binding_get_value data.element.name property data.time)).report
          Issue.SCENARIO_ACTION_EXECUTION_ERROR
          ("Could not get property: " ++ property ++ " at " ++ lib.gst_time_args data.time))) := by
  simp [check_property, h1, h2, h3, hb, hv]

/-- The function `check_property` with a valid time on a track element whose property has no
binding. -/
theorem check_property_no_binding (lib : Lib) (action : GstValidateAction)
    (property : String) (expected : GValue) (data : PropertyData) (sc : Scenario)
    (h1 : data.check_children = true) (h2 : GST_CLOCK_TIME_IS_VALID data.time = true)
    (h3 : data.element.is_track_element = true)
    (hb : ges_track_element_get_control_binding data.element property = none) :
    check_property lib action property expected (data, sc) =
      check_property_child lib action property expected
        (data, sc.call (Call.get_control_binding data.element.name property)) := by
  simp [check_property, h1, h2, h3, hb]

/-- The function `check_property` on child properties without a valid time. -/
theorem check_property_no_time (lib : Lib) (action : GstValidateAction)
    (property : String) (expected : GValue) (data : PropertyData) (sc : Scenario)
    (h1 : data.check_children = true) (h2 : GST_CLOCK_TIME_IS_VALID data.time = false) :
    check_property lib action property expected (data, sc) =
      check_property_child lib action property expected (data, sc) := by
  simp [check_property, h1, h2]

/-- Summary of one call of `check_property`: it returns `TRUE` exactly when an
observed value was obtained, keeps the element, sets the result when the field
fails and reports exactly the issue of the field. -/
theorem check_property_spec (lib : Lib) (action : GstValidateAction) (f : String × GValue)
    (data : PropertyData) (sc : Scenario) :
    (check_property lib action f.1 f.2 (data, sc)).1 = (observed_value data f.1).isSome
      ∧ (check_property lib action f.1 f.2 (data, sc)).2.1 =
          { data with res := if (field_issue lib action data f).isSome
              then GstValidateActionReturn.ERROR_REPORTED else data.res }
      ∧ (check_property lib action f.1 f.2 (data, sc)).2.2.reports.map Report.issue =
          sc.reports.map Report.issue ++ (field_issue lib action data f).toList
      ∧ (check_property lib action f.1 f.2 (data, sc)).2.2.pipeline = sc.pipeline := by
  have hcmp : ∀ (o : GValue) (sc1 : Scenario), sc1.reports = sc.reports →
      sc1.pipeline = sc.pipeline → observed_value data f.1 = some o →
      (check_property_compare lib action f.1 f.2 o (data, sc1)).1 = true
      ∧ (check_property_compare lib action f.1 f.2 o (data, sc1)).2.1 =
          { data with res := if (field_issue lib action data f).isSome
              then GstValidateActionReturn.ERROR_REPORTED else data.res }
      ∧ (check_property_compare lib action f.1 f.2 o (data, sc1)).2.2.reports.map Report.issue =
          sc.reports.map Report.issue ++ (field_issue lib action data f).toList
      ∧ (check_property_compare lib action f.1 f.2 o (data, sc1)).2.2.pipeline
          = sc.pipeline := by
    intro o sc1 hrep hpipe hobs
    obtain ⟨message, hm⟩ := check_property_compare_spec lib action f.1 f.2 o (data, sc1)
    rw [hm]
    simp only [field_issue, hobs]
    cases gst_value_compare_equal o (comparable_expected lib action f.1 o f.2) <;>
      simp [Scenario.report, hrep, hpipe]
  have hchild : ∀ (sc1 : Scenario), sc1.reports = sc.reports → sc1.pipeline = sc.pipeline →
      observed_value data f.1 = ges_timeline_element_get_child_property data.element f.1 →
      (check_property_child lib action f.1 f.2 (data, sc1)).1 = (observed_value data f.1).isSome
      ∧ (check_property_child lib action f.1 f.2 (data, sc1)).2.1 =
          { data with res := if (field_issue lib action data f).isSome
              then GstValidateActionReturn.ERROR_REPORTED else data.res }
      ∧ (check_property_child lib action f.1 f.2 (data, sc1)).2.2.reports.map Report.issue =
          sc.reports.map Report.issue ++ (field_issue lib action data f).toList
      ∧ (check_property_child lib action f.1 f.2 (data, sc1)).2.2.pipeline = sc.pipeline := by
    intro sc1 hrep hpipe hobs
    cases hc : ges_timeline_element_get_child_property data.element f.1 with
    | none =>
      rw [hc] at hobs
      simp [check_property_child, hc, field_issue, hobs, Scenario.report, Scenario.call, hrep,
        hpipe]
    | some c =>
      rw [hc] at hobs
      simp only [check_property_child, hc]
      have := hcmp c (sc1.call (Call.get_child_property data.element.name f.1))
        (by simp [Scenario.call, hrep]) (by simp [Scenario.call, hpipe]) hobs
      simpa [hobs] using this
  by_cases h1 : data.check_children = true
  · by_cases h2 : GST_CLOCK_TIME_IS_VALID data.time = true
    · by_cases h3 : data.element.is_track_element = true
      · cases hb : ges_track_element_get_control_binding data.element f.1 with
        | none =>
          have hobs : observed_value data f.1
              = ges_timeline_element_get_child_property data.element f.1 := by
            simp [observed_value, h1, h2, h3, hb]
          rw [check_property_no_binding lib action f.1 f.2 data sc h1 h2 h3 hb]
          exact hchild _ (by simp [Scenario.call]) (by simp [Scenario.call]) hobs
        | some binding =>
          cases hv : gst_control_binding_get_value binding data.time with
          | none =>
            have hobs : observed_value data f.1 = none := by
              simp [observed_value, h1, h2, h3, hb, hv]
            rw [check_property_binding_none lib action f.1 f.2 data sc binding h1 h2 h3 hb hv]
            simp [hobs, field_issue, Scenario.report, Scenario.call]
          | some tvalue =>
            have hobs : observed_value data f.1 = some tvalue := by
              simp [observed_value, h1, h2, h3, hb, hv]
            rw [check_property_binding_value lib action f.1 f.2 data sc binding tvalue
              h1 h2 h3 hb hv]
            have := hcmp tvalue
              ((sc.call (Call.get_control_binding data.element.name f.1)).call
                (Call.binding_get_value data.element.name f.1 data.time))
              (by simp [Scenario.call]) (by simp [Scenario.call]) hobs
            simpa [hobs] using this
      · have h3f : data.element.is_track_element = false := by simpa using h3
        have hobs : observed_value data f.1 = none := by
          simp [observed_value, h1, h2, h3f]
        rw [check_property_not_track lib action f.1 f.2 data sc h1 h2 h3f]
        simp [hobs, field_issue, Scenario.report]
    · have h2f : GST_CLOCK_TIME_IS_VALID data.time = false := by simpa using h2
      have hobs : observed_value data f.1
          = ges_timeline_element_get_child_property data.element f.1 := by
        simp [observed_value, h1, h2f]
      rw [check_property_no_time lib action f.1 f.2 data sc h1 h2f]
      exact hchild _ rfl rfl hobs
  · have h1f : data.check_children = false := by simpa using h1
    have hobs : observed_value data f.1 = some (g_object_get_property data.element f.1) := by
      simp [observed_value, h1f]
    rw [check_property_object lib action f.1 f.2 data sc h1f]
    have := hcmp (g_object_get_property data.element f.1)
      (sc.call (Call.object_get_property data.element.name f.1))
      (by simp [Scenario.call]) (by simp [Scenario.call]) hobs
    simpa [hobs] using this

theorem observed_value_res (data : PropertyData) (res : GstValidateActionReturn)
    (property : String) :
    observed_value { data with res := res } property = observed_value data property := rfl

theorem field_issue_res (lib : Lib) (action : GstValidateAction) (data : PropertyData)
    (res : GstValidateActionReturn) (f : String × GValue) :
    field_issue lib action { data with res := res } f = field_issue lib action data f := rfl

theorem examined_fields_res (data : PropertyData) (res : GstValidateActionReturn)
    (fields : List (String × GValue)) :
    examined_fields { data with res := res } fields = examined_fields data fields := by
  induction fields with
  | nil => rfl
  | cons f rest ih => simp only [examined_fields, observed_value_res, ih]

/-- What `gst_structure_foreach` with `check_property` reports and returns. -/
theorem foreach_check_spec (lib : Lib) (action : GstValidateAction)
    (fields : List (String × GValue)) (data : PropertyData) (sc : Scenario) :
    (gst_structure_foreach (check_property lib action) fields (data, sc)).2.2.reports.map
        Report.issue
      = sc.reports.map Report.issue
        ++ (examined_fields data fields).filterMap (field_issue lib action data)
    ∧ (gst_structure_foreach (check_property lib action) fields (data, sc)).2.1
      = { data with res :=
          bif fields.all (fun f => (field_issue lib action data f).isNone) then data.res
          else GstValidateActionReturn.ERROR_REPORTED }
    ∧ (gst_structure_foreach (check_property lib action) fields (data, sc)).2.2.pipeline
      = sc.pipeline := by
  induction fields generalizing data sc with
  | nil => simp [gst_structure_foreach, examined_fields]
  | cons f rest ih =>
    obtain ⟨hb, hd, hr, hp⟩ := check_property_spec lib action f data sc
    generalize hcp : check_property lib action f.1 f.2 (data, sc) = out at hb hd hr hp
    obtain ⟨b, d1, sc1⟩ := out
    simp only at hb hd hr hp
    cases hobs : observed_value data f.1 with
    | none =>
      have hbf : b = false := by simpa [hobs] using hb
      subst hbf
      have hi : field_issue lib action data f = some Issue.SCENARIO_ACTION_EXECUTION_ERROR := by
        simp [field_issue, hobs]
      rw [foreach_cons_false _ _ _ _ _ hcp]
      simp only [hr, hd, hp, examined_fields, hobs]
      simp [hi, List.filterMap_cons]
    | some o =>
      have hbt : b = true := by simpa [hobs] using hb
      subst hbt
      rw [foreach_cons_true _ _ _ _ _ hcp]
      obtain ⟨ih1, ih2, ih3⟩ := ih d1 sc1
      rw [ih1, ih2, ih3, hr, hp]
      subst hd
      clear hcp ih1 ih2 ih3 ih
      have hfi : ∀ (r : GstValidateActionReturn),
          field_issue lib action ⟨data.element, r, data.time, data.check_children⟩
            = field_issue lib action data := fun _ => rfl
      have hex : ∀ (r : GstValidateActionReturn),
          examined_fields ⟨data.element, r, data.time, data.check_children⟩ rest
            = examined_fields data rest := fun r => examined_fields_res data r rest
      simp only [hfi, hex, examined_fields, hobs, List.filterMap_cons, List.all_cons]
      by_cases hi : field_issue lib action data f = none
      · simp [hi]
      · obtain ⟨i, hi1⟩ := Option.ne_none_iff_exists'.1 hi
        simp [hi1]

/-- C4 as stated fails: both fields of the command fail (`zz` cannot be read,
`posy` differs from the expected value) and only one error is reported, the one
of `zz`: the command stops at the first field that cannot be read. -/
theorem check_stops_at_unreadable_field :
    (property_fields check_missing_then_mismatch).map
        (field_issue sample_lib check_missing_then_mismatch
          (property_data sample_lib check_missing_then_mismatch
            (sample_timeline.elements.get ⟨1, by decide⟩)))
      = [some Issue.SCENARIO_ACTION_EXECUTION_ERROR, some Issue.SCENARIO_ACTION_CHECK_ERROR]
    ∧ (set_or_check_properties sample_lib check_missing_then_mismatch
        (sample_scenario GstState.PAUSED)).2.reports
      = [⟨Issue.SCENARIO_ACTION_EXECUTION_ERROR, "Could not get property: zz:"⟩] := by
  decide

/-- C4, amended: for a check command on an existing element the fields are
examined in order up to and including the first one whose observed value cannot
be obtained (a property that cannot be read, a binding that yields no value, a
time given for an element that is not a track element), and no field after it.
Each examined field that fails is reported once: a check error for a value
mismatch, which does not stop the examination, an execution error for a value
that cannot be obtained. -/
theorem check_examines_until_unreadable_field (lib : Lib) (action : GstValidateAction)
    (sc sc1 : Scenario) (t : GESTimeline) (from_pipeline : Bool) (element : GESTimelineElement)
    (hname : action.struct.name ≠ "set-child-properties")
    (hacq : acquire_timeline_and_pipeline lib action sc
      = Acquired.locals (some t) from_pipeline sc1)
    (helem : ges_timeline_get_element (some t)
      (gst_structure_get_string action.struct "element-name") = some element) :
    (set_or_check_properties lib action sc).2.reports.map Report.issue
      = sc.reports.map Report.issue
        ++ (examined_fields (property_data lib action element) (property_fields action)).filterMap
            (field_issue lib action (property_data lib action element))
    ∧ ((∀ f ∈ property_fields action,
          (observed_value (property_data lib action element) f.1).isSome) →
        examined_fields (property_data lib action element) (property_fields action)
          = property_fields action) := by
  constructor
  · rw [set_or_check_properties_acquired lib action sc sc1 (some t) from_pipeline hacq]
    simp only [set_or_check_properties_body, helem]
    have hf : property_func lib action = check_property lib action := by
      simp [property_func, gst_structure_has_name, hname]
    simp only [hf, store_timeline_reports]
    rw [(foreach_check_spec lib action _ _ _).1]
    cases from_pipeline <;> simp [Scenario.call]
  · generalize property_fields action = fields
    generalize property_data lib action element = data
    intro h
    induction fields with
    | nil => rfl
    | cons f rest ih =>
      have h1 := h f (List.mem_cons_self _ _)
      cases hobs : observed_value data f.1 with
      | none => simp [hobs] at h1
      | some o =>
        simp only [examined_fields, hobs]
        rw [ih (fun g hg => h g (List.mem_cons_of_mem _ hg))]

/-- Witness of C4 amended: the mismatch of `posx` is reported and the examination
goes on to `zz`, where it stops; `posy` is not reported. -/
theorem check_examines_until_unreadable_field_witness :
    (set_or_check_properties sample_lib check_mismatch_missing_mismatch
        (sample_scenario GstState.PAUSED)).2.reports.map Report.issue
      = [Issue.SCENARIO_ACTION_CHECK_ERROR, Issue.SCENARIO_ACTION_EXECUTION_ERROR] := by
  have h := (check_examines_until_unreadable_field sample_lib check_mismatch_missing_mismatch
    (sample_scenario GstState.PAUSED) (sample_scenario GstState.PAUSED) sample_timeline true
    (sample_timeline.elements.get ⟨1, by decide⟩) (by decide) (by decide) (by decide)).1
  rw [h]
  decide

/-! ## Result of `set_or_check_properties` -/

theorem acquire_returned_res (lib : Lib) (action : GstValidateAction) (sc sc1 : Scenario)
    (res : GstValidateActionReturn)
    (h : acquire_timeline_and_pipeline lib action sc = Acquired.returned res sc1) :
    res = GstValidateActionReturn.ERROR_REPORTED := by
  unfold acquire_timeline_and_pipeline at h
  split at h
  · split at h
    · cases h; rfl
    · cases h
  · split at h
    · cases h; rfl
    · cases h

theorem field_issue_none_iff (lib : Lib) (action : GstValidateAction) (data : PropertyData)
    (f : String × GValue) :
    field_issue lib action data f = none ↔
      ∃ o, observed_value data f.1 = some o
        ∧ gst_value_compare_equal o (comparable_expected lib action f.1 o f.2) = true := by
  unfold field_issue
  cases hobs : observed_value data f.1 with
  | none => simp
  | some o =>
    cases hc : gst_value_compare_equal o (comparable_expected lib action f.1 o f.2) <;> simp [hc]

/-- C5 as stated fails: `posx` of the clip `clip0` is `(gint) 0` and the check of
`posx` against the expected value `(gint64) 4294967296` returns OK with
nothing reported, although the observed value could be read and does not equal
the expected value: the comparison is made with the expected value converted
into the type of the observed one, which is 0. -/
theorem check_ok_with_unequal_expected_value :
    (set_or_check_properties sample_lib check_posx_wrapping_to_zero
        (sample_scenario GstState.PAUSED)).1 = GstValidateActionReturn.OK
    ∧ (set_or_check_properties sample_lib check_posx_wrapping_to_zero
        (sample_scenario GstState.PAUSED)).2.reports = []
    ∧ property_fields check_posx_wrapping_to_zero = [("posx", gint64_wrapping_to_zero)]
    ∧ (named_element sample_lib check_posx_wrapping_to_zero
        (sample_scenario GstState.PAUSED)).map
          (fun element => observed_value
            (property_data sample_lib check_posx_wrapping_to_zero element) "posx")
      = some (some (gint 0))
    ∧ gint 0 ≠ gint64_wrapping_to_zero
    ∧ gst_value_compare_equal (gint 0) gint64_wrapping_to_zero = false := by
  decide

/-- C5, amended: `set_or_check_properties` returns OK exactly when the named element
exists in the acquired timeline and no field fails: for `set-child-properties`
the setter succeeds on every field in turn, for a check command every field has
an observed value that could be read and is equal to the expected value as
converted into the type of the observed value.  In every other case the result is
error-reported; and when the element does not exist, one execution error
`Can not find element` is reported and nothing else is done: no field is
processed. -/
theorem set_or_check_ok_iff_element_and_fields (lib : Lib) (action : GstValidateAction)
    (sc : Scenario) :
    ((set_or_check_properties lib action sc).1 = GstValidateActionReturn.OK ↔
      ∃ element, named_element lib action sc = some element ∧
        (if action.struct.name = "set-child-properties" then
          set_all_succeed lib element (property_fields action) = true
        else ∀ f ∈ property_fields action,
          ∃ o, observed_value (property_data lib action element) f.1 = some o
            ∧ gst_value_compare_equal o (comparable_expected lib action f.1 o f.2) = true))
    ∧ ((set_or_check_properties lib action sc).1 ≠ GstValidateActionReturn.OK →
        (set_or_check_properties lib action sc).1 = GstValidateActionReturn.ERROR_REPORTED)
    ∧ (∀ timeline from_pipeline sc1,
        acquire_timeline_and_pipeline lib action sc
          = Acquired.locals timeline from_pipeline sc1 →
        named_element lib action sc = none →
        set_or_check_properties lib action sc =
          (GstValidateActionReturn.ERROR_REPORTED,
            (if from_pipeline then sc.call Call.pipeline_unref else sc).report
              Issue.SCENARIO_ACTION_EXECUTION_ERROR
              ("Can not find element: "
                ++ (gst_structure_get_string action.struct "element-name").getD "(null)"))) := by
  cases hacq : acquire_timeline_and_pipeline lib action sc with
  | returned res sc1 =>
    have hres := acquire_returned_res lib action sc sc1 res hacq
    subst hres
    have hrun : set_or_check_properties lib action sc
        = (GstValidateActionReturn.ERROR_REPORTED, sc1) := by
      simp only [set_or_check_properties, DECLARE_AND_GET_TIMELINE,
        DECLARE_AND_GET_TIMELINE_AND_PIPELINE, hacq]
    have hnone : named_element lib action sc = none := by
      simp [named_element, acquired_timeline, hacq, ges_timeline_get_element]
    refine ⟨?_, ?_, ?_⟩
    · simp [hrun, hnone]
    · intro _; rw [hrun]
    · intro timeline from_pipeline sc2 h; cases h
  | locals timeline from_pipeline sc1 =>
    have hrun := set_or_check_properties_acquired lib action sc sc1 timeline from_pipeline hacq
    have hnamed : named_element lib action sc = ges_timeline_get_element timeline
        (gst_structure_get_string action.struct "element-name") := by
      simp [named_element, acquired_timeline, hacq]
    rw [hrun, hnamed]
    cases timeline with
    | none =>
      simp [set_or_check_properties_body, ges_timeline_get_element]
    | some t =>
      cases helem : ges_timeline_get_element (some t)
          (gst_structure_get_string action.struct "element-name") with
      | none =>
        simp [set_or_check_properties_body, helem]
      | some element =>
        simp only [set_or_check_properties_body, helem]
        refine ⟨?_, ?_, ?_⟩
        · by_cases hname : action.struct.name = "set-child-properties"
          · have hf : property_func lib action = set_property lib := by
              simp [property_func, gst_structure_has_name, hname]
            rw [hf, foreach_set_res]
            cases hs : set_all_succeed lib element (property_fields action) <;>
              simp [hname, hs, property_data]
          · have hf : property_func lib action = check_property lib action := by
              simp [property_func, gst_structure_has_name, hname]
            rw [hf, (foreach_check_spec lib action _ _ _).2.1]
            simp only [hname, if_false]
            cases hall : (property_fields action).all
                (fun f => (field_issue lib action (property_data lib action element) f).isNone)
            · simp only [cond_false]
              constructor
              · intro h; cases h
              · rintro ⟨e, he, hpass⟩
                cases he
                have : (property_fields action).all
                    (fun f => (field_issue lib action (property_data lib action element) f).isNone)
                    = true := by
                  rw [List.all_eq_true]
                  intro f hf
                  rw [Option.isNone_iff_eq_none, field_issue_none_iff]
                  exact hpass f hf
                rw [this] at hall
                cases hall
            · simp only [cond_true]
              constructor
              · intro _
                refine ⟨element, rfl, ?_⟩
                intro f hf
                rw [List.all_eq_true] at hall
                have := hall f hf
                rw [Option.isNone_iff_eq_none, field_issue_none_iff] at this
                exact this
              · intro _; rfl
        · by_cases hname : action.struct.name = "set-child-properties"
          · have hf : property_func lib action = set_property lib := by
              simp [property_func, gst_structure_has_name, hname]
            rw [hf, foreach_set_res]
            cases hs : set_all_succeed lib element (property_fields action) <;>
              simp [property_data]
          · have hf : property_func lib action = check_property lib action := by
              simp [property_func, gst_structure_has_name, hname]
            rw [hf, (foreach_check_spec lib action _ _ _).2.1]
            cases hall : (property_fields action).all
                (fun f => (field_issue lib action (property_data lib action element) f).isNone) <;>
              simp [property_data]
        · intro timeline2 fp2 sc2 _ h
          cases h

/-- Witness of C5 amended: the check of `posx=0` on `clip0` returns OK; on an element
that does not exist the only effect is the report `Can not find element`. -/
theorem set_or_check_ok_iff_element_and_fields_witness :
    (set_or_check_properties sample_lib check_posx_zero (sample_scenario GstState.PAUSED)).1
        = GstValidateActionReturn.OK
      ∧ set_or_check_properties sample_lib check_on_missing_element
          (sample_scenario GstState.PAUSED)
        = (GstValidateActionReturn.ERROR_REPORTED,
            ((sample_scenario GstState.PAUSED).call Call.pipeline_unref).report
              Issue.SCENARIO_ACTION_EXECUTION_ERROR "Can not find element: ghost") := by
  constructor
  · refine (set_or_check_ok_iff_element_and_fields sample_lib check_posx_zero
      (sample_scenario GstState.PAUSED)).1.2 ⟨sample_timeline.elements.get ⟨1, by decide⟩,
        by decide, ?_⟩
    rw [if_neg (by decide)]
    intro f hf
    have hfields : property_fields check_posx_zero = [("posx", gint 0)] := by decide
    rw [hfields, List.mem_singleton] at hf
    subst hf
    exact ⟨gint 0, by decide, by decide⟩
  · exact (set_or_check_ok_iff_element_and_fields sample_lib check_on_missing_element
      (sample_scenario GstState.PAUSED)).2.2 (some sample_timeline) true
        (sample_scenario GstState.PAUSED) (by decide) (by decide)

/-! ## Checks at a given time -/

/-- C6 as stated fails: `posx` of the clip `clip0` is 0 and the check of `posx=0`
returns OK; with `at-time` added the same check returns the error-reported
result, and the child property has not been read. -/
theorem at_time_on_clip_fails_check :
    (set_or_check_properties sample_lib check_posx_zero (sample_scenario GstState.PAUSED)).1
        = GstValidateActionReturn.OK
      ∧ (set_or_check_properties sample_lib check_posx_zero_at_time
          (sample_scenario GstState.PAUSED)).1 = GstValidateActionReturn.ERROR_REPORTED
      ∧ Call.get_child_property "clip0" "posx" ∉
          (set_or_check_properties sample_lib check_posx_zero_at_time
            (sample_scenario GstState.PAUSED)).2.calls := by
  decide

/-- C6, amended: for a `check-child-properties` command with a valid evaluation
time, on an existing element that is not a track element and with at least one
property field, the check does not fall back to the plain child property: it
reports one execution error (only `GESTrackElement` is supported), reads no
property, examines no further field and returns the error-reported result. -/
theorem at_time_requires_track_element (lib : Lib) (action : GstValidateAction)
    (sc sc1 : Scenario) (t : GESTimeline) (from_pipeline : Bool) (element : GESTimelineElement)
    (time : GstClockTime) (f : String × GValue) (rest : List (String × GValue))
    (hset : action.struct.name ≠ "set-child-properties")
    (hges : action.struct.name ≠ "check-ges-properties")
    (hacq : acquire_timeline_and_pipeline lib action sc
      = Acquired.locals (some t) from_pipeline sc1)
    (helem : ges_timeline_get_element (some t)
      (gst_structure_get_string action.struct "element-name") = some element)
    (htime : lib.gst_validate_action_get_clocktime action "at-time" = some time)
    (hvalid : time ≠ GST_CLOCK_TIME_NONE)
    (htrack : element.is_track_element = false)
    (hfields : property_fields action = f :: rest) :
    (set_or_check_properties lib action sc).1 = GstValidateActionReturn.ERROR_REPORTED
      ∧ (set_or_check_properties lib action sc).2.reports = sc.reports ++
          [⟨Issue.SCENARIO_ACTION_EXECUTION_ERROR,
            "Could not get property at time for type " ++ element.type_name
              ++ " - only GESTrackElement supported"⟩]
      ∧ (set_or_check_properties lib action sc).2.calls =
          (if from_pipeline then sc.calls ++ [Call.pipeline_unref] else sc.calls)
            ++ [Call.timeline_unref] := by
  rw [set_or_check_properties_acquired lib action sc sc1 (some t) from_pipeline hacq]
  simp only [set_or_check_properties_body, helem, hfields]
  have hf : property_func lib action = check_property lib action := by
    simp [property_func, gst_structure_has_name, hset]
  have hstep := check_property_not_track lib action f.1 f.2 (property_data lib action element)
    ((if from_pipeline then sc.call Call.pipeline_unref else sc).call Call.timeline_unref)
    (by simp [property_data, gst_structure_has_name, hges])
    (by simp [property_data, htime, GST_CLOCK_TIME_IS_VALID, hvalid])
    (by simp [property_data, htrack])
  rw [hf, foreach_cons_false _ _ _ _ _ hstep]
  simp only [store_timeline_reports, store_timeline_calls]
  cases from_pipeline <;> simp [Scenario.report, Scenario.call, property_data]

/-- Witness of C6 amended, on the clip `clip0` with `at-time=5`. -/
theorem at_time_requires_track_element_witness :
    (set_or_check_properties sample_lib check_posx_zero_at_time
        (sample_scenario GstState.PAUSED)).1 = GstValidateActionReturn.ERROR_REPORTED
      ∧ (set_or_check_properties sample_lib check_posx_zero_at_time
          (sample_scenario GstState.PAUSED)).2.reports =
        [⟨Issue.SCENARIO_ACTION_EXECUTION_ERROR,
          "Could not get property at time for type GESTestClip"
            ++ " - only GESTrackElement supported"⟩] := by
  have h := at_time_requires_track_element sample_lib check_posx_zero_at_time
    (sample_scenario GstState.PAUSED) (sample_scenario GstState.PAUSED) sample_timeline true
    (sample_timeline.elements.get ⟨1, by decide⟩) 5 ("posx", gint 0) []
    (by decide) (by decide) (by decide) (by decide) (by decide) (by decide) (by decide)
    (by decide)
  exact ⟨h.1, h.2.1⟩

/-- C7: in `check_property` for child properties, with a valid evaluation time
on a track element: when the property has a control binding that yields a value
`v` at that time, the observed value is `v`, it is what the expected value is
compared with, the child property is not read, and the outcome does not depend
on the element's child properties; when the property has no control binding the
observed value is the element's child property value. -/
theorem check_at_time_prefers_binding (lib : Lib) (action : GstValidateAction)
    (property : String) (expected : GValue) (data : PropertyData) (sc : Scenario)
    (h1 : data.check_children = true) (h2 : GST_CLOCK_TIME_IS_VALID data.time = true)
    (h3 : data.element.is_track_element = true) :
    (∀ binding v,
        ges_track_element_get_control_binding data.element property = some binding →
        gst_control_binding_get_value binding data.time = some v →
        observed_value data property = some v
        ∧ check_property lib action property expected (data, sc) =
            check_property_compare lib action property expected v
              (data, (sc.call (Call.get_control_binding data.element.name property)).call
                (Call.binding_get_value data.element.name property data.time))
        ∧ (check_property lib action property expected (data, sc)).2.2.calls =
            sc.calls ++ [Call.get_control_binding data.element.name property,
              Call.binding_get_value data.element.name property data.time]
        ∧ ∀ child_properties,
            (check_property lib action property expected
              ({ data with element :=
                  { data.element with child_properties := child_properties } }, sc)).2.2
              = (check_property lib action property expected (data, sc)).2.2
            ∧ (check_property lib action property expected
              ({ data with element :=
                  { data.element with child_properties := child_properties } }, sc)).2.1.res
              = (check_property lib action property expected (data, sc)).2.1.res)
    ∧ (ges_track_element_get_control_binding data.element property = none →
        observed_value data property
          = ges_timeline_element_get_child_property data.element property
        ∧ check_property lib action property expected (data, sc) =
            check_property_child lib action property expected
              (data, sc.call (Call.get_control_binding data.element.name property))) := by
  constructor
  · intro binding v hb hv
    have hrun := check_property_binding_value lib action property expected data sc binding v
      h1 h2 h3 hb hv
    refine ⟨by simp [observed_value, h1, h2, h3, hb, hv], hrun, ?_, ?_⟩
    · rw [hrun]
      simp only [check_property_compare]
      split <;> simp [Scenario.report, Scenario.call]
    · intro child_properties
      rw [hrun, check_property_binding_value lib action property expected
        { data with element := { data.element with child_properties := child_properties } }
        sc binding v h1 h2 h3 hb hv]
      simp only [check_property_compare]
      split <;> simp [check_error_message]
  · intro hb
    exact ⟨by simp [observed_value, h1, h2, h3, hb],
      check_property_no_binding lib action property expected data sc h1 h2 h3 hb⟩

/-- Witness of C7: at time 5 the check of `alpha=7` passes on `source0` (the
binding yields 7, the child property is 1), and the check of `posx=0`, a
property without binding, passes on the child property. -/
theorem check_at_time_prefers_binding_witness :
    check_property sample_lib (sample_action "check-child-properties" []) "alpha" (gint 7)
        (source_at_five, sample_scenario GstState.PAUSED)
      = (true, source_at_five,
          ((sample_scenario GstState.PAUSED).call
            (Call.get_control_binding "source0" "alpha")).call
            (Call.binding_get_value "source0" "alpha" 5))
    ∧ check_property sample_lib (sample_action "check-child-properties" []) "posx" (gint 0)
        (source_at_five, sample_scenario GstState.PAUSED)
      = (true, source_at_five,
          ((sample_scenario GstState.PAUSED).call
            (Call.get_control_binding "source0" "posx")).call
            (Call.get_child_property "source0" "posx")) := by
  have h := check_at_time_prefers_binding sample_lib
    (sample_action "check-child-properties" []) "alpha" (gint 7) source_at_five
    (sample_scenario GstState.PAUSED) (by decide) (by decide) (by decide)
  have h' := check_at_time_prefers_binding sample_lib
    (sample_action "check-child-properties" []) "posx" (gint 0) source_at_five
    (sample_scenario GstState.PAUSED) (by decide) (by decide) (by decide)
  constructor
  · rw [(h.1 ⟨[(5, gint 7)]⟩ (gint 7) (by decide) (by decide)).2.1]
    decide
  · rw [(h'.2 (by decide)).2]
    decide

/-! ## Comparison of the observed and the expected value -/

theorem check_property_compare_pass_iff (lib : Lib) (action : GstValidateAction)
    (property : String) (expected observed : GValue) (st : PropertyData × Scenario) :
    check_property_compare lib action property expected observed st = (true, st) ↔
      gst_value_compare_equal observed
        (comparable_expected lib action property observed expected) = true := by
  simp only [check_property_compare]
  cases h : gst_value_compare_equal observed
      (comparable_expected lib action property observed expected)
  · simp only [Bool.not_false, if_true, Bool.false_eq_true, iff_false]
    intro hEq
    have hlen := congrArg (fun r => r.2.2.reports.length) hEq
    simp [Scenario.report] at hlen
  · simp

/-- C8: from the label `compare:` of `check_property` on, for an expected value
that is a value of a structure field (it has a type).  When the observed and the
expected value have the same type the field passes exactly when they are equal.
When the types differ and the observed value is a clock time, the field passes
exactly when the field of the command reads as a time and that time is the
observed value; when the types differ otherwise, exactly when the expected value
transforms into the type of the observed value and the transformed value is the
observed value.  A field that does not pass sets the error-reported result and
reports one check error, and when there was no conversion its message contains
the serialised expected value and the serialised observed value. -/
theorem compare_converts_expected_to_observed_type (lib : Lib) (action : GstValidateAction)
    (property : String) (expected observed : GValue) (st : PropertyData × Scenario)
    (hexp : expected.type ≠ GType.invalid) :
    (observed.type = expected.type →
      (check_property_compare lib action property expected observed st = (true, st)
        ↔ observed = expected))
    ∧ (observed.type ≠ expected.type → observed.type = GST_TYPE_CLOCK_TIME →
      (check_property_compare lib action property expected observed st = (true, st)
        ↔ ∃ t, lib.gst_validate_utils_get_clocktime action.struct property = some t
            ∧ observed = ⟨GST_TYPE_CLOCK_TIME, GData.num t⟩))
    ∧ (observed.type ≠ expected.type → observed.type ≠ GST_TYPE_CLOCK_TIME →
      (check_property_compare lib action property expected observed st = (true, st)
        ↔ ∃ d, observed.type ≠ GType.invalid
            ∧ lib.g_value_transform expected observed.type = some d
            ∧ observed = ⟨observed.type, d⟩))
    ∧ (check_property_compare lib action property expected observed st ≠ (true, st) →
      ∃ message,
        check_property_compare lib action property expected observed st =
          (true, ({ st.1 with res := GstValidateActionReturn.ERROR_REPORTED },
            st.2.report Issue.SCENARIO_ACTION_CHECK_ERROR message)))
    ∧ (observed.type ≠ expected.type →
      comparable_expected lib action property observed expected = expected →
      ∃ a b c,
        check_property_compare lib action property expected observed st =
          (true, ({ st.1 with res := GstValidateActionReturn.ERROR_REPORTED },
            st.2.report Issue.SCENARIO_ACTION_CHECK_ERROR
              (a ++ lib.gst_value_serialize expected ++ b
                ++ lib.gst_value_serialize observed ++ c)))) := by
  obtain ⟨otype, odata⟩ := observed
  obtain ⟨etype, edata⟩ := expected
  simp only at hexp
  refine ⟨?_, ?_, ?_, ?_, ?_⟩
  · intro hty
    simp only at hty
    subst hty
    rw [check_property_compare_pass_iff]
    simp [comparable_expected, gst_value_compare_equal, hexp]
  · intro hty hclock
    simp only at hty hclock
    subst hclock
    rw [check_property_compare_pass_iff]
    cases ht : lib.gst_validate_utils_get_clocktime action.struct property with
    | none =>
      simp [comparable_expected, gst_value_compare_equal, hty, ht]
    | some t =>
      have hty1 : ¬ GType.uint64 = etype := hty
      simp [comparable_expected, gst_value_compare_equal, ht, GST_TYPE_CLOCK_TIME, hty1]
  · intro hty hclock
    simp only at hty hclock
    rw [check_property_compare_pass_iff]
    by_cases hinv : otype = GType.invalid
    · simp [comparable_expected, gst_value_compare_equal, hty, hclock, hinv]
    · cases hd : lib.g_value_transform ⟨etype, edata⟩ otype with
      | none =>
        simp [comparable_expected, gst_value_compare_equal, hty, hclock, hinv, hd]
      | some d =>
        simp [comparable_expected, gst_value_compare_equal, hty, hclock, hinv, hd]
  · intro hfail
    obtain ⟨message, hm⟩ := check_property_compare_spec lib action property
      ⟨etype, edata⟩ ⟨otype, odata⟩ st
    refine ⟨message, ?_⟩
    rw [hm] at hfail ⊢
    split
    · rename_i heq
      simp [heq] at hfail
    · rfl
  · intro hty hconv
    simp only at hty
    refine ⟨st.1.element.name ++ ":" ++ property ++ " expected value: '(" ++ otype.name ++ ")",
      "' different than observed: '(" ++ etype.name ++ ")", "'", ?_⟩
    have hne : gst_value_compare_equal ⟨otype, odata⟩ ⟨etype, edata⟩ = false := by
      simp [gst_value_compare_equal, hty]
    simp only [check_property_compare, hconv, hne, check_error_message, Bool.not_false, if_true,
      String.append_assoc]

/-- Witness of C8 on `clip0`: equal values of one type pass; an expected string
has no conversion into the type of an observed int, so the field fails and the
message holds both serialised values. -/
theorem compare_converts_expected_to_observed_type_witness :
    check_property_compare sample_lib check_posx_zero "posx" (gint 0) (gint 0)
        (property_data sample_lib check_posx_zero (sample_timeline.elements.get ⟨1, by decide⟩),
          sample_scenario GstState.PAUSED)
      = (true, (property_data sample_lib check_posx_zero
          (sample_timeline.elements.get ⟨1, by decide⟩), sample_scenario GstState.PAUSED))
    ∧ ∃ a b c,
      check_property_compare sample_lib check_posx_zero "posx" (gstr "zero") (gint 0)
        (property_data sample_lib check_posx_zero (sample_timeline.elements.get ⟨1, by decide⟩),
          sample_scenario GstState.PAUSED)
      = (true, ({ property_data sample_lib check_posx_zero
            (sample_timeline.elements.get ⟨1, by decide⟩) with
            res := GstValidateActionReturn.ERROR_REPORTED },
          (sample_scenario GstState.PAUSED).report Issue.SCENARIO_ACTION_CHECK_ERROR
            (a ++ sample_lib.gst_value_serialize (gstr "zero") ++ b
              ++ sample_lib.gst_value_serialize (gint 0) ++ c))) :=
  ⟨((compare_converts_expected_to_observed_type sample_lib check_posx_zero "posx" (gint 0)
      (gint 0) _ (by decide)).1 rfl).2 rfl,
    (compare_converts_expected_to_observed_type sample_lib check_posx_zero "posx" (gstr "zero")
      (gint 0) _ (by decide)).2.2.2.2 (by decide) (by decide)⟩

/-! ## Set, then check -/

/-- After `store`, the lookup of the name finds the stored element. -/
theorem find_stored_element (e e1 : GESTimelineElement) (name : String)
    (elements : List GESTimelineElement)
    (hfind : elements.find? (fun x => x.name == name) = some e)
    (hname : e1.name = e.name) :
    (store_element e1 elements).find? (fun x => x.name == name) = some e1 := by
  have hen : e.name = name := by
    have := List.find?_some hfind
    simpa using this
  induction elements with
  | nil => simp at hfind
  | cons x rest ih =>
    by_cases hx : x.name = name
    · simp [store_element, hname, hen, hx]
    · have hrest : rest.find? (fun y => y.name == name) = some e := by
        simpa [List.find?_cons, hx] using hfind
      simp [store_element, hname, hen, hx, List.find?_cons, ih hrest]

/-- What a property command without `project-uri` and without `at-time` does on
a GES pipeline that has a timeline and the named element. -/
theorem property_action_run (lib : Lib) (sc : Scenario) (p : Pipeline) (t : GESTimeline)
    (e : GESTimelineElement) (verb element property : String) (value : GValue)
    (hpipe : sc.pipeline = some p) (hges : p.is_ges = true) (htl : p.timeline = some t)
    (hfind : ges_timeline_get_element (some t) (some element) = some e)
    (h1 : property ≠ "element-name") (h2 : property ≠ "at-time")
    (h3 : property ≠ "project-uri") :
    set_or_check_properties lib (property_action verb element property value) sc =
      ((property_func lib (property_action verb element property value) property value
          (property_data lib (property_action verb element property value) e,
            (sc.call Call.pipeline_unref).call Call.timeline_unref)).2.1.res,
        (property_func lib (property_action verb element property value) property value
          (property_data lib (property_action verb element property value) e,
            (sc.call Call.pipeline_unref).call Call.timeline_unref)).2.2.store_timeline true
          (t.store (property_func lib (property_action verb element property value)
            property value
            (property_data lib (property_action verb element property value) e,
              (sc.call Call.pipeline_unref).call Call.timeline_unref)).2.1.element)) := by
  have huri : gst_structure_get_string (property_action verb element property value).struct
      "project-uri" = none := by
    have hb : ("project-uri" == property) = false := beq_eq_false_iff_ne.2 (Ne.symm h3)
    simp [gst_structure_get_string, property_action, sample_action, List.lookup, gstr, hb]
  have hacq : acquire_timeline_and_pipeline lib (property_action verb element property value) sc
      = Acquired.locals (some t) true sc := by
    simp [acquire_timeline_and_pipeline, huri, hpipe, pipeline_get_timeline, hges, htl]
  have hname : gst_structure_get_string (property_action verb element property value).struct
      "element-name" = some element := by
    simp [gst_structure_get_string, property_action, sample_action, List.lookup, gstr]
  have hfields : property_fields (property_action verb element property value)
      = [(property, value)] := by
    simp [property_fields, gst_structure_remove_fields, property_action, sample_action,
      List.filter, h1, h2]
  rw [set_or_check_properties_acquired lib _ sc sc (some t) true hacq]
  simp only [set_or_check_properties_body, hname, hfind, hfields, if_true]
  generalize hstep : property_func lib (property_action verb element property value) property
    value (property_data lib (property_action verb element property value) e,
      (sc.call Call.pipeline_unref).call Call.timeline_unref) = out
  obtain ⟨b, d, sc2⟩ := out
  cases b
  · rw [foreach_cons_false _ (property, value) [] _ _ hstep]
  · rw [foreach_cons_true _ (property, value) [] _ _ hstep]
    simp [gst_structure_foreach]

/-- C9 as stated fails: after `set-child-properties posx=5` on `clip0`, the check
of `posx=(gint64)4294967301`, a value different from 5, returns OK: the expected
value is transformed into the `gint` type of the property before the comparison,
which gives 5. -/
theorem check_passes_on_different_value :
    (set_or_check_properties sample_lib
        (property_action "set-child-properties" "clip0" "posx" (gint 5))
        (sample_scenario GstState.PAUSED)).1 = GstValidateActionReturn.OK
    ∧ gint64_wrapping_to_five ≠ gint 5
    ∧ (set_or_check_properties sample_lib
        (property_action "check-child-properties" "clip0" "posx" gint64_wrapping_to_five)
        (set_or_check_properties sample_lib
          (property_action "set-child-properties" "clip0" "posx" (gint 5))
          (sample_scenario GstState.PAUSED)).2).1 = GstValidateActionReturn.OK := by
  decide

/-- C9, amended: on a GES pipeline with a timeline, for an element `e`, a child
property `X` and a value `v` the element accepts (the setter succeeds and the
property then reads `v`): `set-child-properties X=v` returns OK, and afterwards
`check-child-properties X=v` returns OK, while `check-child-properties X=w`
returns the error-reported result exactly when `w`, as converted for the
comparison, is not equal to `v`, in particular when `w` has the type of `v` and
differs from it; the check error then reported holds the serialised converted
expected value and the serialised observed value `v`. -/
theorem set_then_check_round_trip (lib : Lib) (sc : Scenario) (p : Pipeline)
    (t : GESTimeline) (e e1 : GESTimelineElement) (element X : String) (v w : GValue)
    (hpipe : sc.pipeline = some p) (hges : p.is_ges = true) (htl : p.timeline = some t)
    (hfind : ges_timeline_get_element (some t) (some element) = some e)
    (h1 : X ≠ "element-name") (h2 : X ≠ "at-time") (h3 : X ≠ "project-uri")
    (hv : v.type ≠ GType.invalid)
    (hset : lib.ges_timeline_element_set_child_property e X v = some e1)
    (hname : e1.name = e.name)
    (hread : ges_timeline_element_get_child_property e1 X = some v)
    (htime : ∀ value, lib.gst_validate_action_get_clocktime
      (property_action "check-child-properties" element X value) "at-time" = none) :
    (set_or_check_properties lib (property_action "set-child-properties" element X v) sc).1
        = GstValidateActionReturn.OK
    ∧ (set_or_check_properties lib (property_action "check-child-properties" element X v)
        (set_or_check_properties lib
          (property_action "set-child-properties" element X v) sc).2).1
        = GstValidateActionReturn.OK
    ∧ ((set_or_check_properties lib (property_action "check-child-properties" element X w)
        (set_or_check_properties lib
          (property_action "set-child-properties" element X v) sc).2).1
        = GstValidateActionReturn.ERROR_REPORTED
      ↔ gst_value_compare_equal v (comparable_expected lib
          (property_action "check-child-properties" element X w) X v w) = false)
    ∧ (w.type = v.type → w ≠ v →
        gst_value_compare_equal v (comparable_expected lib
          (property_action "check-child-properties" element X w) X v w) = false)
    ∧ (gst_value_compare_equal v (comparable_expected lib
          (property_action "check-child-properties" element X w) X v w) = false →
        ∃ a b c,
          (set_or_check_properties lib (property_action "check-child-properties" element X w)
            (set_or_check_properties lib
              (property_action "set-child-properties" element X v) sc).2).2.reports
          = (set_or_check_properties lib
              (property_action "set-child-properties" element X v) sc).2.reports
            ++ [⟨Issue.SCENARIO_ACTION_CHECK_ERROR,
              a ++ lib.gst_value_serialize (comparable_expected lib
                  (property_action "check-child-properties" element X w) X v w)
                ++ b ++ lib.gst_value_serialize v ++ c⟩]) := by
  -- the set command
  have hsetf : property_func lib (property_action "set-child-properties" element X v)
      = set_property lib := by
    simp [property_func, gst_structure_has_name, property_action, sample_action]
  have hsetrun := property_action_run lib sc p t e "set-child-properties" element X v
    hpipe hges htl hfind h1 h2 h3
  rw [hsetf, set_property_some lib X v _ e1 (by simpa [property_data] using hset)] at hsetrun
  simp only at hsetrun
  rw [hsetrun]
  -- the state the check commands start from
  have hpipe2 : ((((sc.call Call.pipeline_unref).call Call.timeline_unref).call
      (Call.set_child_property
        (property_data lib (property_action "set-child-properties" element X v) e).element.name
        X v)).store_timeline true (t.store e1)).pipeline
      = some { p with timeline := some (t.store e1) } := by
    simp [Scenario.store_timeline, Scenario.call, hpipe]
  have hfind2 : ges_timeline_get_element (some (t.store e1)) (some element) = some e1 := by
    simp only [ges_timeline_get_element, GESTimeline.store] at hfind ⊢
    exact find_stored_element e e1 element t.elements hfind hname
  have hcheckf : ∀ value,
      property_func lib (property_action "check-child-properties" element X value)
        = check_property lib (property_action "check-child-properties" element X value) := by
    intro value
    simp [property_func, gst_structure_has_name, property_action, sample_action]
  have hcheck : ∀ value st2,
      check_property lib (property_action "check-child-properties" element X value) X value
        (property_data lib (property_action "check-child-properties" element X value) e1, st2)
      = check_property_compare lib (property_action "check-child-properties" element X value)
          X value v
          (property_data lib (property_action "check-child-properties" element X value) e1,
            st2.call (Call.get_child_property e1.name X)) := by
    intro value st2
    rw [check_property_no_time _ _ _ _ _ _
      (by simp [property_data, gst_structure_has_name, property_action, sample_action])
      (by simp [property_data, htime, GST_CLOCK_TIME_IS_VALID])]
    simp [check_property_child, property_data, hread]
  have hrun : ∀ value,
      set_or_check_properties lib (property_action "check-child-properties" element X value)
        ((((sc.call Call.pipeline_unref).call Call.timeline_unref).call
          (Call.set_child_property
            (property_data lib (property_action "set-child-properties" element X v)
              e).element.name X v)).store_timeline true (t.store e1)) = _ :=
    fun value => property_action_run lib _ { p with timeline := some (t.store e1) }
      (t.store e1) e1 "check-child-properties" element X value hpipe2 hges rfl hfind2 h1 h2 h3
  refine ⟨rfl, ?_, ?_, ?_, ?_⟩
  · rw [hrun v, hcheckf, hcheck]
    have hpass : gst_value_compare_equal v (comparable_expected lib
        (property_action "check-child-properties" element X v) X v v) = true := by
      simp [comparable_expected, gst_value_compare_equal, hv]
    simp [check_property_compare, hpass, property_data]
  · rw [hrun w, hcheckf, hcheck]
    simp only [check_property_compare]
    cases gst_value_compare_equal v (comparable_expected lib
        (property_action "check-child-properties" element X w) X v w) <;>
      simp [property_data]
  · intro hty hne
    have hne1 : ¬ v = w := fun h => hne h.symm
    obtain ⟨vt, vd⟩ := v
    obtain ⟨wt, wd⟩ := w
    simp only at hty
    subst hty
    simp only [GValue.mk.injEq, true_and] at hne1
    simp [comparable_expected, gst_value_compare_equal, hne1]
  · intro hfail
    refine ⟨e1.name ++ ":" ++ X ++ " expected value: '(" ++ v.type.name ++ ")",
      "' different than observed: '(" ++ (comparable_expected lib
        (property_action "check-child-properties" element X w) X v w).type.name ++ ")",
      "'", ?_⟩
    rw [hrun w, hcheckf, hcheck]
    simp [check_property_compare, hfail, store_timeline_reports, Scenario.report,
      Scenario.call, check_error_message, property_data, String.append_assoc]

/-- Witness of C9 amended: on `clip0`, after `posx=5` is set, the check of
`posx=5` returns OK and the check of `posx=6` the error-reported result. -/
theorem set_then_check_round_trip_witness :
    (set_or_check_properties sample_lib
        (property_action "check-child-properties" "clip0" "posx" (gint 5))
        (set_or_check_properties sample_lib
          (property_action "set-child-properties" "clip0" "posx" (gint 5))
          (sample_scenario GstState.PAUSED)).2).1 = GstValidateActionReturn.OK
    ∧ (set_or_check_properties sample_lib
        (property_action "check-child-properties" "clip0" "posx" (gint 6))
        (set_or_check_properties sample_lib
          (property_action "set-child-properties" "clip0" "posx" (gint 5))
          (sample_scenario GstState.PAUSED)).2).1 = GstValidateActionReturn.ERROR_REPORTED := by
  have h := set_then_check_round_trip sample_lib (sample_scenario GstState.PAUSED)
    (sample_pipeline GstState.PAUSED) sample_timeline
    (sample_timeline.elements.get ⟨1, by decide⟩)
    { sample_timeline.elements.get ⟨1, by decide⟩ with
      child_properties := [("posx", gint 5), ("posy", gint 0)] }
    "clip0" "posx" (gint 5) (gint 6) rfl rfl rfl (by decide) (by decide) (by decide)
    (by decide) (by decide) (by decide) rfl (by decide) (fun _ => rfl)
  exact ⟨h.2.1, h.2.2.1.2 (h.2.2.2.1 rfl (by decide))⟩

/-! ## Commit: the synchronous path -/

/-- C10 as stated fails: on a pipeline in the READY state `_commit` returns OK and
has called `g_signal_connect` for `message::async-done` on the bus on its way:
the handler is connected before the state is looked at and disconnected again
before the return. -/
theorem commit_below_paused_connects_handler :
    (_commit sample_lib GstState.NULL (sample_action "commit" [])
        (sample_scenario GstState.READY)).1 = GstValidateActionReturn.OK
    ∧ (_commit sample_lib GstState.NULL (sample_action "commit" [])
        (sample_scenario GstState.READY)).2.calls
      = [Call.signal_connect 1, Call.timeline_commit, Call.signal_disconnect 1,
          Call.timeline_unref] := by
  decide

/-- C10, amended: for a commit command without `project-uri` on a pipeline that
holds a timeline and whose state is below paused, or whose timeline commit call
reports nothing to do, `_commit` returns the synchronous OK result, reports
nothing and marks no action done; the async-done handler it connected at its
start is disconnected before it returns, so that no async-done handler of the
action is connected to the pipeline bus on return and the handlers of other
actions are as they were. -/
theorem commit_sync_leaves_no_handler (lib : Lib) (state0 : GstState)
    (action : GstValidateAction) (sc : Scenario) (p : Pipeline) (t : GESTimeline)
    (huri : gst_structure_get_string action.struct "project-uri" = none)
    (hpipe : sc.pipeline = some p)
    (htl : pipeline_get_timeline p = some t)
    (hsync : p.state.toNat < GstState.PAUSED.toNat
      ∨ (lib.ges_timeline_commit t).1 = false) :
    (_commit lib state0 action sc).1 = GstValidateActionReturn.OK
    ∧ (_commit lib state0 action sc).2.pipeline.map Pipeline.async_done_handlers
      = some (p.async_done_handlers.filter (fun h => h.action_id != action.id))
    ∧ (_commit lib state0 action sc).2.calls
      = sc.calls ++ [Call.signal_connect action.id, Call.timeline_commit,
          Call.signal_disconnect action.id, Call.timeline_unref]
    ∧ (_commit lib state0 action sc).2.reports = sc.reports
    ∧ (_commit lib state0 action sc).2.actions_done = sc.actions_done := by
  have hacq : acquire_timeline_and_pipeline lib action sc
      = Acquired.locals (pipeline_get_timeline p) true sc := by
    simp [acquire_timeline_and_pipeline, huri, hpipe]
  have hfilter : (p.async_done_handlers ++ [(⟨action.id⟩ : BusHandler)]).filter
      (fun h => h.action_id != action.id)
      = p.async_done_handlers.filter (fun h => h.action_id != action.id) := by
    simp [List.filter_append]
  simp only [_commit, DECLARE_AND_GET_TIMELINE_AND_PIPELINE, hacq, htl]
  have hcond : (!(lib.ges_timeline_commit t).1
      || decide (p.state.toNat < GstState.PAUSED.toNat)) = true := by
    rcases hsync with h | h
    · simp [h]
    · simp [h]
  simp [Scenario.signal_connect, Scenario.signal_disconnect, Scenario.call,
    Scenario.store_timeline, hpipe, hfilter, hcond]

/-- Witness of C10 amended: a commit on the pipeline in the READY state. -/
theorem commit_sync_leaves_no_handler_witness :
    (_commit sample_lib GstState.NULL (sample_action "commit" [])
        (sample_scenario GstState.READY)).1 = GstValidateActionReturn.OK
    ∧ (_commit sample_lib GstState.NULL (sample_action "commit" [])
        (sample_scenario GstState.READY)).2.pipeline.map Pipeline.async_done_handlers
      = some [] := by
  have h := commit_sync_leaves_no_handler sample_lib GstState.NULL (sample_action "commit" [])
    (sample_scenario GstState.READY) (sample_pipeline GstState.READY) sample_timeline
    (by decide) rfl rfl (Or.inl (by decide))
  exact ⟨h.1, h.2.1⟩

/-! ## Commit: the deferred path -/

theorem connected_handlers_commit_done_cb (action : GstValidateAction) (sc : Scenario) :
    connected_handlers (_commit_done_cb action sc)
      = (connected_handlers sc).filter (fun h => h.action_id != action.id) := by
  unfold connected_handlers _commit_done_cb Scenario.signal_disconnect
  cases h : sc.pipeline <;> simp [h]

theorem actions_done_commit_done_cb (action : GstValidateAction) (sc : Scenario) :
    (_commit_done_cb action sc).actions_done = sc.actions_done ++ [action.id] := by
  simp [_commit_done_cb, Scenario.signal_disconnect]

/-- One step of the emission, in terms of the connected handlers. -/
theorem emit_to_handlers_cons (action_of : Nat → GstValidateAction) (h : BusHandler)
    (rest : List BusHandler) (sc : Scenario) :
    emit_to_handlers action_of (h :: rest) sc
      = emit_to_handlers action_of rest
          (if h ∈ connected_handlers sc then _commit_done_cb (action_of h.action_id) sc
            else sc) := by
  have key : ∀ (o : Option Pipeline) (x y : Scenario),
      (match o with
        | some p => if h ∈ p.async_done_handlers then x else y
        | none => y)
      = (if h ∈ (match o with
          | some p => p.async_done_handlers
          | none => []) then x else y) := by
    intro o x y
    cases o <;> simp
  simp only [emit_to_handlers, connected_handlers]
  exact congrArg _ (key _ _ _)

/-- What an emission of `message::async-done` to the handlers `l` does to an
action `a`: it is marked done once more exactly when a handler of `a` is in `l`
and connected, and no handler of `a` in `l` is connected afterwards. -/
theorem emit_to_handlers_spec (action_of : Nat → GstValidateAction)
    (hid : ∀ i, (action_of i).id = i) (a : Nat) (l : List BusHandler) (sc : Scenario) :
    (emit_to_handlers action_of l sc).actions_done.count a
        = sc.actions_done.count a
          + (if (⟨a⟩ : BusHandler) ∈ l ∧ (⟨a⟩ : BusHandler) ∈ connected_handlers sc then 1 else 0)
      ∧ ((⟨a⟩ : BusHandler) ∈ connected_handlers (emit_to_handlers action_of l sc)
          ↔ (⟨a⟩ : BusHandler) ∈ connected_handlers sc ∧ (⟨a⟩ : BusHandler) ∉ l) := by
  induction l generalizing sc with
  | nil => simp [emit_to_handlers]
  | cons h rest ih =>
    rw [emit_to_handlers_cons]
    obtain ⟨b⟩ := h
    by_cases hconn : (⟨b⟩ : BusHandler) ∈ connected_handlers sc
    · simp only [hconn, if_true]
      obtain ⟨ih1, ih2⟩ := ih (_commit_done_cb (action_of b) sc)
      rw [ih1, ih2, connected_handlers_commit_done_cb, actions_done_commit_done_cb, hid b]
      by_cases hab : b = a
      · subst hab
        simp [hconn, List.count_append]
      · have hab' : ¬ a = b := fun h => hab h.symm
        simp [hab, hab', List.count_append, List.mem_filter, BusHandler.mk.injEq]
    · simp only [hconn, if_false]
      obtain ⟨ih1, ih2⟩ := ih sc
      rw [ih1, ih2]
      by_cases hab : b = a
      · subst hab
        simp [hconn]
      · have hab' : ¬ a = b := fun h => hab h.symm
        simp [hab', BusHandler.mk.injEq]

/-- One emission of `message::async-done`: an action with a connected handler is
marked done once more and has no connected handler afterwards. -/
theorem emit_async_done_spec (action_of : Nat → GstValidateAction)
    (hid : ∀ i, (action_of i).id = i) (a : Nat) (sc : Scenario) :
    (emit_async_done action_of sc).actions_done.count a
        = sc.actions_done.count a
          + (if (⟨a⟩ : BusHandler) ∈ connected_handlers sc then 1 else 0)
      ∧ (⟨a⟩ : BusHandler) ∉ connected_handlers (emit_async_done action_of sc) := by
  have hrun : emit_async_done action_of sc
      = emit_to_handlers action_of (connected_handlers sc) sc := by
    unfold emit_async_done connected_handlers
    cases hp : sc.pipeline <;> simp [emit_to_handlers]
  rw [hrun]
  obtain ⟨h1, h2⟩ := emit_to_handlers_spec action_of hid a (connected_handlers sc) sc
  refine ⟨?_, ?_⟩
  · rw [h1]; simp
  · rw [h2]; simp

/-- The deferred path of `_commit`: the result, the done actions and the handlers
connected on return. -/
theorem commit_async_state (lib : Lib) (state0 : GstState) (action : GstValidateAction)
    (sc : Scenario) (p : Pipeline) (t : GESTimeline)
    (huri : gst_structure_get_string action.struct "project-uri" = none)
    (hpipe : sc.pipeline = some p)
    (htl : pipeline_get_timeline p = some t)
    (hstate : GstState.PAUSED.toNat ≤ p.state.toNat)
    (hcommit : (lib.ges_timeline_commit t).1 = true)
    (hsave : ∀ uri, lib.persistence_target action.struct = some uri →
      lib.ges_timeline_save_to_uri (some (lib.ges_timeline_commit t).2) uri = true) :
    (_commit lib state0 action sc).1 = GstValidateActionReturn.ASYNC
    ∧ (_commit lib state0 action sc).2.actions_done = sc.actions_done
    ∧ (_commit lib state0 action sc).2.reports = sc.reports
    ∧ connected_handlers (_commit lib state0 action sc).2
      = p.async_done_handlers ++ [⟨action.id⟩] := by
  have hacq : acquire_timeline_and_pipeline lib action sc
      = Acquired.locals (some t) true sc := by
    simp [acquire_timeline_and_pipeline, huri, hpipe, htl]
  have hcond : (!(lib.ges_timeline_commit t).1
      || decide (p.state.toNat < GstState.PAUSED.toNat)) = false := by
    simp [hcommit, hstate]
  simp only [_commit, DECLARE_AND_GET_TIMELINE_AND_PIPELINE, hacq]
  cases htarget : lib.persistence_target action.struct with
  | none =>
    simp [Scenario.signal_connect, Scenario.call, Scenario.store_timeline, hpipe, hcond,
      SAVE_TIMELINE_IF_NEEDED, _ges_save_timeline_if_needed, htarget, connected_handlers]
  | some uri =>
    have hs := hsave uri htarget
    simp [Scenario.signal_connect, Scenario.call, Scenario.store_timeline, hpipe, hcond,
      SAVE_TIMELINE_IF_NEEDED, _ges_save_timeline_if_needed, htarget, connected_handlers, hs]

/-- C11: a commit command (without `project-uri`) on a pipeline in the paused state
or above, whose timeline commit call reports a change and whose save, if one is
asked for, succeeds, returns the asynchronous result and marks nothing done
itself; its handler is connected to `message::async-done`, the first emission
of that signal marks the action done exactly once, and a further emission does
not mark it done again. -/
theorem commit_async_marks_done_once (lib : Lib) (state0 : GstState)
    (action : GstValidateAction) (sc : Scenario) (p : Pipeline) (t : GESTimeline)
    (action_of : Nat → GstValidateAction)
    (hid : ∀ i, (action_of i).id = i)
    (huri : gst_structure_get_string action.struct "project-uri" = none)
    (hpipe : sc.pipeline = some p)
    (htl : pipeline_get_timeline p = some t)
    (hstate : GstState.PAUSED.toNat ≤ p.state.toNat)
    (hcommit : (lib.ges_timeline_commit t).1 = true)
    (hsave : ∀ uri, lib.persistence_target action.struct = some uri →
      lib.ges_timeline_save_to_uri (some (lib.ges_timeline_commit t).2) uri = true) :
    (_commit lib state0 action sc).1 = GstValidateActionReturn.ASYNC
    ∧ (_commit lib state0 action sc).2.actions_done = sc.actions_done
    ∧ (⟨action.id⟩ : BusHandler) ∈ connected_handlers (_commit lib state0 action sc).2
    ∧ (emit_async_done action_of (_commit lib state0 action sc).2).actions_done.count action.id
      = sc.actions_done.count action.id + 1
    ∧ (emit_async_done action_of
        (emit_async_done action_of (_commit lib state0 action sc).2)).actions_done.count action.id
      = sc.actions_done.count action.id + 1 := by
  obtain ⟨h1, h2, _, h4⟩ :=
    commit_async_state lib state0 action sc p t huri hpipe htl hstate hcommit hsave
  have hmem : (⟨action.id⟩ : BusHandler) ∈ connected_handlers (_commit lib state0 action sc).2 := by
    rw [h4]; simp
  obtain ⟨e1, e2⟩ := emit_async_done_spec action_of hid action.id (_commit lib state0 action sc).2
  obtain ⟨f1, _⟩ := emit_async_done_spec action_of hid action.id
    (emit_async_done action_of (_commit lib state0 action sc).2)
  refine ⟨h1, h2, hmem, ?_, ?_⟩
  · rw [e1, h2]; simp [hmem]
  · rw [f1, e1, h2]; simp [hmem, e2]

/-- Witness of C11: a commit on the playing pipeline, followed by two emissions of
`message::async-done`. -/
theorem commit_async_marks_done_once_witness :
    (_commit sample_lib GstState.NULL commit_action
        (sample_scenario GstState.PLAYING)).1 = GstValidateActionReturn.ASYNC
    ∧ (emit_async_done sample_action_of
        (emit_async_done sample_action_of
          (_commit sample_lib GstState.NULL commit_action
            (sample_scenario GstState.PLAYING)).2)).actions_done.count 1 = 1 := by
  have h := commit_async_marks_done_once sample_lib GstState.NULL commit_action
    (sample_scenario GstState.PLAYING) (sample_pipeline GstState.PLAYING) sample_timeline
    sample_action_of (fun _ => rfl) (by decide) rfl (by decide) (by decide)
    (by decide) (by intro uri h; simp [sample_lib, commit_action, sample_action,
      gst_structure_get_string] at h)
  exact ⟨h.1, h.2.2.2.2⟩

/-! ## Completion handlers -/

/-- The function `_project_loaded_cb` marks the action done and does nothing
else: the handlers of `loaded`, the pipeline, the calls and the reports are as
they were. -/
theorem project_loaded_cb_frame (action : GstValidateAction) (sc : Scenario) :
    (_project_loaded_cb action sc).loaded_handlers = sc.loaded_handlers
    ∧ (_project_loaded_cb action sc).pipeline = sc.pipeline
    ∧ (_project_loaded_cb action sc).calls = sc.calls
    ∧ (_project_loaded_cb action sc).reports = sc.reports
    ∧ (_project_loaded_cb action sc).actions_done = sc.actions_done ++ [action.id] :=
  ⟨rfl, rfl, rfl, rfl, rfl⟩

/-- C12 fails for `load-project`: the handler `_load_project` connects to `loaded`
is not disconnected when it fires.  After a `load-project` on the playing
pipeline, a first emission of `loaded` by the project marks the action done and
leaves the handler connected, and a second emission marks the action done a
second time. -/
theorem project_loaded_handler_stays_connected :
    (_load_project sample_lib load_project_action
        (sample_scenario GstState.PLAYING)).1 = GstValidateActionReturn.ASYNC
    ∧ (emit_project_loaded sample_action_of (some "file:///new.xges")
        (_load_project sample_lib load_project_action
          (sample_scenario GstState.PLAYING)).2).actions_done = [1]
    ∧ (emit_project_loaded sample_action_of (some "file:///new.xges")
        (_load_project sample_lib load_project_action
          (sample_scenario GstState.PLAYING)).2).loaded_handlers
      = [⟨some "file:///new.xges", 1⟩]
    ∧ (emit_project_loaded sample_action_of (some "file:///new.xges")
        (emit_project_loaded sample_action_of (some "file:///new.xges")
          (_load_project sample_lib load_project_action
            (sample_scenario GstState.PLAYING)).2)).actions_done = [1, 1] := by
  decide

/-! ## Commit and persistence -/

/-- When `SAVE_TIMELINE_IF_NEEDED` lets the handler go on for a command that
carries a persistence target, it has saved the timeline to that target. -/
theorem save_macro_calls (lib : Lib) (timeline : Option GESTimeline)
    (action : GstValidateAction) (sc : Scenario) (uri : String)
    (htarget : lib.persistence_target action.struct = some uri)
    (hok : (SAVE_TIMELINE_IF_NEEDED lib timeline action sc).2 = true) :
    (SAVE_TIMELINE_IF_NEEDED lib timeline action sc).1.calls
      = sc.calls ++ [Call.save_timeline, Call.timeline_save_to_uri uri] := by
  simp only [SAVE_TIMELINE_IF_NEEDED, _ges_save_timeline_if_needed, htarget] at hok ⊢
  split at hok
  · simp at hok
  · rename_i hsave
    simp only [hsave, if_false, Bool.false_eq_true]
    simp [Scenario.call]

/-- Whenever `_commit` returns the asynchronous result for a command that
carries a persistence target, whatever the library and the content of the
local `state`, the save of the timeline to that target is the last call
`_commit` made before it returned; the callback `_commit_done_cb` saves
nothing: all it calls is the disconnection of the handler. -/
theorem commit_saves_before_returning_async (lib : Lib) (state0 : GstState)
    (action : GstValidateAction) (sc : Scenario) (uri : String)
    (htarget : lib.persistence_target action.struct = some uri)
    (hasync : (_commit lib state0 action sc).1 = GstValidateActionReturn.ASYNC) :
    (∃ calls, (_commit lib state0 action sc).2.calls
      = calls ++ [Call.save_timeline, Call.timeline_save_to_uri uri])
    ∧ ∀ sc1, (_commit_done_cb action sc1).calls
      = sc1.calls ++ [Call.signal_disconnect action.id] := by
  refine ⟨?_, ?_⟩
  · simp only [_commit, DECLARE_AND_GET_TIMELINE_AND_PIPELINE] at hasync ⊢
    cases hacq : acquire_timeline_and_pipeline lib action sc with
    | returned res sc1 =>
      have hres := acquire_returned_res lib action sc sc1 res hacq
      rw [hacq] at hasync
      simp [hres] at hasync
    | locals timeline from_pipeline sc1 =>
      rw [hacq] at hasync
      simp only at hasync ⊢
      split at hasync
      · simp at hasync
      · rename_i hcond
        simp only [hcond]
        split at hasync
        · rename_i hsaved
          simp only [hsaved, if_true, if_false, Bool.false_eq_true]
          rw [save_macro_calls lib _ action _ uri htarget hsaved]
          exact ⟨_, rfl⟩
        · simp at hasync
  · intro sc1
    simp [_commit_done_cb, Scenario.signal_disconnect]

/-! ## Load project -/

/-- C14: a `load-project` command (without `project-uri`) on a pipeline that is not
a GES pipeline reports one execution error and returns the error-reported
result; the pipeline, and with it its state and its timeline, is as it was, no
call was made (no state change, no removal of a layer or a track, no temporary
file, no project load) and no handler was connected to a project. -/
theorem load_project_rejects_plain_pipeline (lib : Lib) (action : GstValidateAction)
    (sc : Scenario) (p : Pipeline)
    (huri : gst_structure_get_string action.struct "project-uri" = none)
    (hpipe : sc.pipeline = some p)
    (hges : p.is_ges = false) :
    _load_project lib action sc
      = (GstValidateActionReturn.ERROR_REPORTED,
          sc.report Issue.SCENARIO_ACTION_EXECUTION_ERROR
            "Not a GES pipeline, can't work with it")
    ∧ (_load_project lib action sc).2.reports
      = sc.reports ++ [⟨Issue.SCENARIO_ACTION_EXECUTION_ERROR,
          "Not a GES pipeline, can't work with it"⟩]
    ∧ (_load_project lib action sc).2.pipeline = sc.pipeline
    ∧ (_load_project lib action sc).2.calls = sc.calls
    ∧ (_load_project lib action sc).2.loaded_handlers = sc.loaded_handlers := by
  have hacq : acquire_timeline_and_pipeline lib action sc
      = Acquired.locals (pipeline_get_timeline p) true sc := by
    simp [acquire_timeline_and_pipeline, huri, hpipe]
  have hrun : _load_project lib action sc
      = (GstValidateActionReturn.ERROR_REPORTED,
          sc.report Issue.SCENARIO_ACTION_EXECUTION_ERROR
            "Not a GES pipeline, can't work with it") := by
    simp [_load_project, DECLARE_AND_GET_TIMELINE_AND_PIPELINE, hacq, _load_project_body,
      hpipe, hges]
  rw [hrun]
  exact ⟨rfl, rfl, rfl, rfl, rfl⟩

/-- Witness of C14: a `load-project` on a playing pipeline that is not a GES
pipeline. -/
theorem load_project_rejects_plain_pipeline_witness :
    (_load_project sample_lib load_project_action scenario_with_plain_pipeline).1
      = GstValidateActionReturn.ERROR_REPORTED
    ∧ (_load_project sample_lib load_project_action scenario_with_plain_pipeline).2.calls
      = [] := by
  have h := load_project_rejects_plain_pipeline sample_lib load_project_action
    scenario_with_plain_pipeline plain_pipeline (by decide) rfl rfl
  exact ⟨by rw [h.1], h.2.2.2.1⟩

/-- A `load-project` that passes the test of the pipeline and gets a URI goes on
with the loops and the load. -/
theorem load_project_reaching (lib : Lib) (action : GstValidateAction) (sc : Scenario)
    (p : Pipeline) (uri : Option String)
    (huri : gst_structure_get_string action.struct "project-uri" = none)
    (hpipe : sc.pipeline = some p)
    (hges : p.is_ges = true)
    (hreach : (load_project_uri lib action (load_project_tmpfile lib)
      (sc.set_state GstState.NULL)).1 = some uri) :
    _load_project lib action sc
      = load_project_from lib action p.timeline true p.state uri
          (load_project_uri lib action (load_project_tmpfile lib)
            (sc.set_state GstState.NULL)).2 := by
  have hacq : acquire_timeline_and_pipeline lib action sc
      = Acquired.locals p.timeline true sc := by
    simp [acquire_timeline_and_pipeline, huri, hpipe, pipeline_get_timeline, hges]
  have hpair : load_project_uri lib action (lib.g_get_tmp_dir ++ "/" ++ "tmpxgesload.xges")
      (sc.set_state GstState.NULL)
      = (some uri, (load_project_uri lib action (load_project_tmpfile lib)
          (sc.set_state GstState.NULL)).2) := by
    rw [← hreach]; rfl
  simp only [_load_project, DECLARE_AND_GET_TIMELINE_AND_PIPELINE, hacq, _load_project_body,
    hpipe, if_true, hges, hpair]

/-- The calls and the pipeline after the statements that set the local `uri`. -/
theorem load_project_uri_frame (lib : Lib) (action : GstValidateAction) (tmpfile : String)
    (sc : Scenario) :
    (load_project_uri lib action tmpfile sc).2.pipeline = sc.pipeline
    ∧ (load_project_uri lib action tmpfile sc).2.actions_done = sc.actions_done
    ∧ (load_project_uri lib action tmpfile sc).2.calls
      = sc.calls ++
        (match gst_structure_get_string action.struct "serialized-content" with
          | some content => [Call.file_set_contents tmpfile content]
          | none => []) := by
  cases h0 : gst_structure_get_string action.struct "serialized-content" with
  | none =>
    cases h1 : gst_structure_get_string action.struct "uri" <;>
      simp [load_project_uri, h0, h1, Scenario.report]
  | some content =>
    cases h1 : lib.g_file_set_contents tmpfile content with
    | some message => simp [load_project_uri, h0, h1, Scenario.report, Scenario.call]
    | none =>
      cases h2 : (lib.gst_filename_to_uri tmpfile).2 <;>
        simp [load_project_uri, h0, h1, h2, Scenario.report, Scenario.call]

/-- When `serialized-content` is present, the URI is that of the temporary file. -/
theorem load_project_uri_of_content (lib : Lib) (action : GstValidateAction)
    (tmpfile content : String) (sc : Scenario) (uri : Option String)
    (hcontent : gst_structure_get_string action.struct "serialized-content" = some content)
    (hreach : (load_project_uri lib action tmpfile sc).1 = some uri) :
    uri = (lib.gst_filename_to_uri tmpfile).1 := by
  unfold load_project_uri at hreach
  rw [hcontent] at hreach
  simp only at hreach
  cases h1 : lib.g_file_set_contents tmpfile content with
  | some message => rw [h1] at hreach; simp at hreach
  | none =>
    rw [h1] at hreach
    cases h2 : (lib.gst_filename_to_uri tmpfile).2 with
    | some message => rw [h2] at hreach; simp at hreach
    | none =>
      rw [h2] at hreach
      simp at hreach
      exact hreach.symm

theorem diff_self_eq_nil {α : Type} [DecidableEq α] (l : List α) : l.diff l = [] := by
  induction l with
  | nil => rfl
  | cons a l ih => rw [List.diff_cons, List.erase_cons_head]; exact ih

theorem remove_layers_fold (ls : List GESLayer) (t : GESTimeline) :
    ls.foldl (fun acc layer => (ges_timeline_remove_layer acc layer).2) t
      = { t with layers := t.layers.diff ls } := by
  induction ls generalizing t with
  | nil => simp
  | cons a ls ih =>
    rw [List.foldl_cons, ih]
    simp [ges_timeline_remove_layer]

theorem remove_tracks_fold (ts : List GESTrack) (t : GESTimeline) :
    ts.foldl (fun acc track => (ges_timeline_remove_track acc track).2) t
      = { t with tracks := t.tracks.diff ts } := by
  induction ts generalizing t with
  | nil => simp
  | cons a ts ih =>
    rw [List.foldl_cons, ih]
    simp [ges_timeline_remove_track]

/-- After the two loops of `_load_project` the timeline has no layer and no track,
and its elements and its name are as they were. -/
theorem remove_layers_and_tracks_spec (t : GESTimeline) :
    remove_layers_and_tracks t = { t with layers := [], tracks := [] } := by
  simp [remove_layers_and_tracks, remove_layers_fold, remove_tracks_fold, diff_self_eq_nil]

/-- The calls of `_load_project` from the first loop on. -/
theorem load_project_from_calls (lib : Lib) (action : GstValidateAction) (t : GESTimeline)
    (from_pipeline : Bool) (state : GstState) (uri : Option String) (sc : Scenario) :
    (load_project_from lib action (some t) from_pipeline state uri sc).2.calls
      = sc.calls ++ remove_layers_and_tracks_calls t
        ++ [Call.project_loaded_connect uri action.id,
            Call.project_load uri (some (remove_layers_and_tracks t))]
        ++ (match (lib.ges_project_load uri (some (remove_layers_and_tracks t))).1 with
            | some _ => []
            | none => [Call.element_set_state state]) := by
  simp only [load_project_from, Option.map_some']
  cases h1 : (lib.ges_project_load uri (some (remove_layers_and_tracks t))).1 <;>
    cases h2 : (lib.ges_project_load uri (some (remove_layers_and_tracks t))).2 <;>
    simp [h1, h2, Scenario.set_state, Scenario.report, _project_loaded_cb,
      store_timeline_calls]

/-- C15: a `load-project` command (without `project-uri`) on a GES pipeline that
holds a timeline and that reaches the project load with the URI `uri`: the calls
it makes after those of the scenario so far contain, before the call that loads
the project, the removal of every layer and of every track the timeline held on
entry, and the timeline the project is loaded into has no layer and no track
left; when `serialized-content` is present, the URI loaded is the one derived
from the temporary file, whatever the field `uri` holds. -/
theorem load_project_clears_timeline_first (lib : Lib) (action : GstValidateAction)
    (sc : Scenario) (p : Pipeline) (t : GESTimeline) (uri : Option String)
    (huri : gst_structure_get_string action.struct "project-uri" = none)
    (hpipe : sc.pipeline = some p)
    (hges : p.is_ges = true)
    (htl : p.timeline = some t)
    (hreach : (load_project_uri lib action (load_project_tmpfile lib)
      (sc.set_state GstState.NULL)).1 = some uri) :
    (∃ before after, (_load_project lib action sc).2.calls
        = sc.calls ++ before
          ++ [Call.project_load uri (some (remove_layers_and_tracks t))] ++ after
      ∧ (∀ layer ∈ t.layers, Call.timeline_remove_layer layer ∈ before)
      ∧ (∀ track ∈ t.tracks, Call.timeline_remove_track track ∈ before)
      ∧ (∀ u tl, Call.project_load u tl ∉ before))
    ∧ (remove_layers_and_tracks t).layers = []
    ∧ (remove_layers_and_tracks t).tracks = []
    ∧ (∀ content,
        gst_structure_get_string action.struct "serialized-content" = some content →
        uri = (lib.gst_filename_to_uri (load_project_tmpfile lib)).1) := by
  refine ⟨?_, ?_, ?_, ?_⟩
  · rw [load_project_reaching lib action sc p uri huri hpipe hges hreach, htl,
      load_project_from_calls,
      (load_project_uri_frame lib action (load_project_tmpfile lib)
        (sc.set_state GstState.NULL)).2.2]
    refine ⟨[Call.element_set_state GstState.NULL]
        ++ (match gst_structure_get_string action.struct "serialized-content" with
            | some content => [Call.file_set_contents (load_project_tmpfile lib) content]
            | none => [])
        ++ remove_layers_and_tracks_calls t
        ++ [Call.project_loaded_connect uri action.id],
      (match (lib.ges_project_load uri (some (remove_layers_and_tracks t))).1 with
        | some _ => []
        | none => [Call.element_set_state p.state]), ?_, ?_, ?_, ?_⟩
    · simp [Scenario.set_state]
    · intro layer hl
      simp [remove_layers_and_tracks_calls, hl]
    · intro track ht
      simp [remove_layers_and_tracks_calls, ht]
    · intro u tl
      cases gst_structure_get_string action.struct "serialized-content" <;>
        simp [remove_layers_and_tracks_calls]
  · rw [remove_layers_and_tracks_spec]
  · rw [remove_layers_and_tracks_spec]
  · intro content hcontent
    exact load_project_uri_of_content lib action _ content _ uri hcontent hreach

/-- Witness of C15: a `load-project` that carries both `serialized-content` and
`uri`, on the playing pipeline: the URI loaded is that of the temporary file. -/
theorem load_project_clears_timeline_first_witness :
    (remove_layers_and_tracks sample_timeline).layers = []
    ∧ (remove_layers_and_tracks sample_timeline).tracks = []
    ∧ some "file:///tmp/tmpxgesload.xges"
      = (sample_lib.gst_filename_to_uri (load_project_tmpfile sample_lib)).1 := by
  have h := load_project_clears_timeline_first sample_lib load_content_action
    (sample_scenario GstState.PLAYING) (sample_pipeline GstState.PLAYING) sample_timeline
    (some "file:///tmp/tmpxgesload.xges") (by decide) rfl rfl rfl (by decide)
  exact ⟨h.2.1, h.2.2.1, h.2.2.2 "<ges/>" (by decide)⟩

/-- The result, the pipeline and the done actions of `_load_project` from the
first loop on, when the load reports no error. -/
theorem load_project_from_loaded (lib : Lib) (action : GstValidateAction)
    (timeline : Option GESTimeline) (state : GstState) (uri : Option String)
    (sc : Scenario)
    (hload : (lib.ges_project_load uri (timeline.map remove_layers_and_tracks)).1 = none) :
    (load_project_from lib action timeline true state uri sc).1
        = GstValidateActionReturn.ASYNC
    ∧ (load_project_from lib action timeline true state uri sc).2.pipeline.map Pipeline.state
        = sc.pipeline.map (fun _ => state)
    ∧ (load_project_from lib action timeline true state uri sc).2.calls.getLast?
        = some (Call.element_set_state state)
    ∧ (load_project_from lib action timeline true state uri sc).2.actions_done
        = sc.actions_done ++
          (if (lib.ges_project_load uri (timeline.map remove_layers_and_tracks)).2
            then [action.id] else []) := by
  cases timeline with
  | none =>
    simp only [Option.map_none'] at hload
    cases h2 : (lib.ges_project_load uri none).2 <;>
      cases hp : sc.pipeline <;>
      simp [load_project_from, hload, h2, hp, Scenario.set_state, _project_loaded_cb]
  | some t =>
    simp only [Option.map_some'] at hload
    cases h2 : (lib.ges_project_load uri (some (remove_layers_and_tracks t))).2 <;>
      cases hp : sc.pipeline <;>
      simp [load_project_from, hload, h2, hp, Scenario.set_state, _project_loaded_cb,
        Scenario.store_timeline]

/-- C16 as stated fails: a `load-project` on the playing pipeline, with a project
that has not emitted `loaded` when `ges_project_load` returns, returns the
asynchronous result with the pipeline set back to the playing state already:
the last call of the handler is that state change and no action is marked
done yet. -/
theorem load_project_restores_state_before_loaded :
    (_load_project sample_lib load_project_action
        (sample_scenario GstState.PLAYING)).1 = GstValidateActionReturn.ASYNC
    ∧ (_load_project sample_lib load_project_action
        (sample_scenario GstState.PLAYING)).2.pipeline.map Pipeline.state
      = some GstState.PLAYING
    ∧ (_load_project sample_lib load_project_action
        (sample_scenario GstState.PLAYING)).2.calls.getLast?
      = some (Call.element_set_state GstState.PLAYING)
    ∧ (_load_project sample_lib load_project_action
        (sample_scenario GstState.PLAYING)).2.actions_done = [] := by
  decide

/-- C16, amended: for a `load-project` command (without `project-uri`) on a GES
pipeline that reaches the project load with the URI `uri` and whose load
reports no error, `_load_project` returns the asynchronous result with the
pipeline back in the state it had when the command started; that state change
is the last call of the handler itself, made whether or not `loaded` was
emitted during the load (the action is marked done by then exactly when it
was), and the callback of `loaded` changes neither the pipeline nor the calls. -/
theorem load_project_restores_state_on_return (lib : Lib) (action : GstValidateAction)
    (sc : Scenario) (p : Pipeline) (uri : Option String)
    (huri : gst_structure_get_string action.struct "project-uri" = none)
    (hpipe : sc.pipeline = some p)
    (hges : p.is_ges = true)
    (hreach : (load_project_uri lib action (load_project_tmpfile lib)
      (sc.set_state GstState.NULL)).1 = some uri)
    (hload : (lib.ges_project_load uri (p.timeline.map remove_layers_and_tracks)).1 = none) :
    (_load_project lib action sc).1 = GstValidateActionReturn.ASYNC
    ∧ (_load_project lib action sc).2.pipeline.map Pipeline.state = some p.state
    ∧ (_load_project lib action sc).2.calls.getLast? = some (Call.element_set_state p.state)
    ∧ (_load_project lib action sc).2.actions_done
      = sc.actions_done ++
        (if (lib.ges_project_load uri (p.timeline.map remove_layers_and_tracks)).2
          then [action.id] else [])
    ∧ ∀ sc1, (_project_loaded_cb action sc1).pipeline = sc1.pipeline
      ∧ (_project_loaded_cb action sc1).calls = sc1.calls := by
  rw [load_project_reaching lib action sc p uri huri hpipe hges hreach]
  obtain ⟨h1, h2, h3, h4⟩ := load_project_from_loaded lib action p.timeline p.state uri
    (load_project_uri lib action (load_project_tmpfile lib) (sc.set_state GstState.NULL)).2
    hload
  obtain ⟨f1, f2, _⟩ := load_project_uri_frame lib action (load_project_tmpfile lib)
    (sc.set_state GstState.NULL)
  refine ⟨h1, ?_, h3, ?_, fun sc1 => ⟨rfl, rfl⟩⟩
  · rw [h2, f1]
    simp [Scenario.set_state, hpipe]
  · rw [h4, f2]
    rfl

/-- Witness of C16 amended: the `load-project` on the playing pipeline. -/
theorem load_project_restores_state_on_return_witness :
    (_load_project sample_lib load_project_action
        (sample_scenario GstState.PLAYING)).2.pipeline.map Pipeline.state
      = some GstState.PLAYING :=
  (load_project_restores_state_on_return sample_lib load_project_action
    (sample_scenario GstState.PLAYING) (sample_pipeline GstState.PLAYING)
    (some "file:///new.xges") (by decide) rfl rfl (by decide) (by decide)).2.1

/-! ## The shared execution path -/

/-- The function `_validate_action_execute` chooses by the verb as the table of
the verbs says. -/
theorem struct_func_matches (s : GstStructure) :
    struct_func (gst_structure_remove_field s "playback-time") = matching_operation s.name := by
  simp only [struct_func, matching_operation, gst_structure_has_name,
    gst_structure_remove_field, gst_structure_remove_fields, Bool.or_eq_true, beq_iff_eq]
  by_cases h1 : s.name = "add-keyframe"
  · simp [h1]
  · by_cases h2 : s.name = "remove-keyframe"
    · simp [h2]
    · simp [h1, h2]

/-- C17 as stated fails: for a verb that is none of the five, on a scenario whose
pipeline has been destroyed, `_validate_action_execute` returns the
error-reported result: the acquisition macro returns before the verb is looked
at. -/
theorem unknown_verb_returns_without_pipeline :
    (_validate_action_execute sample_lib unknown_verb_action
        scenario_without_pipeline).result = some GstValidateActionReturn.ERROR_REPORTED
    ∧ (_validate_action_execute sample_lib unknown_verb_action
        scenario_without_pipeline).scenario.reports
      = [⟨Issue.SCENARIO_ACTION_EXECUTION_ERROR,
          "Can't execute a 'frobnicate' action after the pipeline has been destroyed."⟩] := by
  decide

/-- C17, amended: when the acquisition macro does not return (there is a pipeline,
or the project of `project-uri` loads), `_validate_action_execute` ends by the
verb.  For a verb that is none of add-keyframe, remove-keyframe, add-clip,
container-add-child, set-child-property it ends in the assertion failure:
no result is returned and no structured operation is called.  For each of the
five verbs it returns a result and calls exactly one structured operation, the
one of the verb, as its first call after the release of the pipeline; the
only call that may follow is the release of the timeline. -/
theorem execute_dispatches_by_verb (lib : Lib) (action : GstValidateAction)
    (sc sc1 : Scenario) (timeline : Option GESTimeline) (from_pipeline : Bool)
    (hacq : acquire_timeline_and_pipeline lib action sc
      = Acquired.locals timeline from_pipeline sc1) :
    match matching_operation action.struct.name with
    | none =>
      _validate_action_execute lib action sc
        = Outcome.assertion_failed (if from_pipeline then sc.call Call.pipeline_unref else sc)
      ∧ (_validate_action_execute lib action sc).result = none
      ∧ ∀ func name, Call.from_struct func name ∉
          ((_validate_action_execute lib action sc).scenario.calls.drop sc.calls.length)
    | some func =>
      (_validate_action_execute lib action sc).result ≠ none
      ∧ ∃ rest, (_validate_action_execute lib action sc).scenario.calls
          = (if from_pipeline then sc.call Call.pipeline_unref else sc).calls
            ++ Call.from_struct func action.struct.name :: rest
        ∧ (rest = [] ∨ rest = [Call.timeline_unref]) := by
  have hsc := acquire_locals_scenario lib action sc sc1 timeline from_pipeline hacq
  subst hsc
  have hname : (gst_structure_remove_field action.struct "playback-time").name
      = action.struct.name := rfl
  cases hop : matching_operation action.struct.name with
  | none =>
    have hrun : _validate_action_execute lib action sc1
        = Outcome.assertion_failed
            (if from_pipeline then sc1.call Call.pipeline_unref else sc1) := by
      simp only [_validate_action_execute, hacq, struct_func_matches, hop]
    simp only [hrun, Outcome.result, Outcome.scenario, true_and]
    intro func name
    cases from_pipeline <;> simp [Scenario.call]
  | some func =>
    simp only [_validate_action_execute, hacq, struct_func_matches, hop, hname]
    cases hr : (lib.from_struct func timeline
        (gst_structure_remove_field action.struct "playback-time")).1 <;>
      cases ht : (lib.from_struct func timeline
        (gst_structure_remove_field action.struct "playback-time")).2.2 <;>
      simp [hr, ht, Outcome.result, Outcome.scenario, Scenario.call, Scenario.report,
        store_timeline_calls]

/-- Witness of C17 amended: the verb that is none of the five, on the playing
pipeline. -/
theorem execute_dispatches_by_verb_witness :
    _validate_action_execute sample_lib unknown_verb_action (sample_scenario GstState.PLAYING)
      = Outcome.assertion_failed
          ((sample_scenario GstState.PLAYING).call Call.pipeline_unref) :=
  (execute_dispatches_by_verb sample_lib unknown_verb_action
    (sample_scenario GstState.PLAYING) (sample_scenario GstState.PLAYING)
    (some sample_timeline) true (by decide)).1

/-- C18 fails: a `set-child-property` on an element the timeline does not have is
rejected by the structured operation; `_validate_action_execute` reports the
execution error that names the verb and returns OK, the result it also
returns for the same command on an element the timeline has. -/
theorem rejected_operation_returns_ok :
    (_validate_action_execute sample_lib rejected_set_child_property_action
        (sample_scenario GstState.PLAYING)).result = some GstValidateActionReturn.OK
    ∧ (_validate_action_execute sample_lib rejected_set_child_property_action
        (sample_scenario GstState.PLAYING)).scenario.reports
      = [⟨Issue.SCENARIO_ACTION_EXECUTION_ERROR,
          "Could not execute set-child-property (error: No element named nope)"⟩]
    ∧ (_validate_action_execute sample_lib accepted_set_child_property_action
        (sample_scenario GstState.PLAYING)).result = some GstValidateActionReturn.OK
    ∧ (_validate_action_execute sample_lib accepted_set_child_property_action
        (sample_scenario GstState.PLAYING)).scenario.reports = [] := by
  decide

/-! ## Persistence after a mutation -/

/-- C19: for each of the eleven handlers that end with `SAVE_TIMELINE_IF_NEEDED`,
when the acquisition macro got a timeline, the statements of the handler reach
the macro (with the result `res` of the mutation, `OK` when it succeeded) and
the save of the timeline to the persistence target fails, the handler reports
one execution error (the timeline could not be saved) and returns the
error-reported result, whatever `res` is; the timeline is released. -/
theorem save_failure_gives_error_reported (h : SavingHandler) (lib : Lib)
    (action : GstValidateAction) (sc sc1 sc2 : Scenario) (t t1 : GESTimeline)
    (from_pipeline : Bool) (res : GstValidateActionReturn) (uri : String)
    (hacq : acquire_timeline_and_pipeline lib action sc
      = Acquired.locals (some t) from_pipeline sc1)
    (hmut : h.mutation lib action t from_pipeline
      (if from_pipeline then sc1.call Call.pipeline_unref else sc1) = Mutation.save res t1 sc2)
    (htarget : lib.persistence_target action.struct = some uri)
    (hsave : lib.ges_timeline_save_to_uri (some t1) uri = false) :
    h.run lib action sc
      = Outcome.returned GstValidateActionReturn.ERROR_REPORTED
          ((((sc2.call Call.save_timeline).call (Call.timeline_save_to_uri uri)).report
            Issue.SCENARIO_ACTION_EXECUTION_ERROR
            ("Could not save timeline to "
              ++ (gst_structure_get_string action.struct "project-id").getD "(null)")).call
            Call.timeline_unref)
    ∧ (h.run lib action sc).result = some GstValidateActionReturn.ERROR_REPORTED
    ∧ (h.run lib action sc).scenario.reports
      = sc2.reports ++ [⟨Issue.SCENARIO_ACTION_EXECUTION_ERROR,
          "Could not save timeline to "
            ++ (gst_structure_get_string action.struct "project-id").getD "(null)"⟩] := by
  have hrun : h.run lib action sc
      = Outcome.returned GstValidateActionReturn.ERROR_REPORTED
          ((((sc2.call Call.save_timeline).call (Call.timeline_save_to_uri uri)).report
            Issue.SCENARIO_ACTION_EXECUTION_ERROR
            ("Could not save timeline to "
              ++ (gst_structure_get_string action.struct "project-id").getD "(null)")).call
            Call.timeline_unref) := by
    simp only [SavingHandler.run, handler_on_timeline, hacq, hmut, save_and_return,
      SAVE_TIMELINE_IF_NEEDED, _ges_save_timeline_if_needed, htarget, hsave]
    simp
  rw [hrun]
  exact ⟨rfl, rfl, rfl⟩

/-- Witness of C19: a `remove-layer` that carries `project-uri`, with a library
that cannot save. -/
theorem save_failure_gives_error_reported_witness :
    (_remove_layer readonly_lib (saving_action SavingHandler._remove_layer)
        (sample_scenario GstState.PLAYING)).result
      = some GstValidateActionReturn.ERROR_REPORTED :=
  (save_failure_gives_error_reported SavingHandler._remove_layer readonly_lib
    (saving_action SavingHandler._remove_layer) (sample_scenario GstState.PLAYING)
    (sample_scenario GstState.PLAYING)
    (((sample_scenario GstState.PLAYING).call (Call.get_layer_by_priority 0)).call
      (Call.timeline_remove_layer ⟨0, false⟩))
    sample_timeline sample_timeline_without_first_layer false GstValidateActionReturn.OK
    "file:///ok.xges" (by decide) (by decide) (by decide) (by decide)).2.1

/-- Each of the eleven saving handlers has a command whose mutation succeeds on
`sample_timeline`: with a library that cannot save it returns the
error-reported result with the one report of the failed save, and with
`sample_lib` it returns OK after the save. -/
theorem every_saving_handler_reaches_the_save (h : SavingHandler) :
    (h.run readonly_lib (saving_action h) (sample_scenario GstState.PLAYING)).result
      = some GstValidateActionReturn.ERROR_REPORTED
    ∧ (h.run readonly_lib (saving_action h) (sample_scenario GstState.PLAYING)).scenario.reports
      = [⟨Issue.SCENARIO_ACTION_EXECUTION_ERROR, "Could not save timeline to (null)"⟩]
    ∧ (h.run sample_lib (saving_action h) (sample_scenario GstState.PLAYING)).result
      = some GstValidateActionReturn.OK
    ∧ Call.timeline_save_to_uri "file:///ok.xges"
      ∈ (h.run sample_lib (saving_action h) (sample_scenario GstState.PLAYING)).scenario.calls := by
  cases h <;> decide

/-- C20 fails: a `copy-element` and a `split-clip` that carry `project-uri` and
whose mutation succeeds return OK without any save of the timeline: the calls
they make are the copy, the paste (the split) and the release of the timeline. -/
theorem copy_and_split_do_not_save :
    (_copy_element sample_lib copy_and_save_action
        (sample_scenario GstState.PLAYING)).result = some GstValidateActionReturn.OK
    ∧ (_copy_element sample_lib copy_and_save_action
        (sample_scenario GstState.PLAYING)).scenario.calls
      = [Call.element_copy "clip0" true, Call.element_paste "clip0" 5, Call.timeline_unref]
    ∧ (_split_clip sample_lib split_and_save_action
        (sample_scenario GstState.PLAYING)).result = some GstValidateActionReturn.OK
    ∧ (_split_clip sample_lib split_and_save_action
        (sample_scenario GstState.PLAYING)).scenario.calls
      = [Call.timeline_unref, Call.clip_split "clip0" 5]
    ∧ sample_lib.persistence_target copy_and_save_action.struct = some "file:///ok.xges"
    ∧ sample_lib.persistence_target split_and_save_action.struct = some "file:///ok.xges" := by
  decide

/-! ## Release of the timeline -/

/-- C21 fails: with the timeline handle as a counter (one reference acquired per
command, one removed per release), an `edit-container` on a container the
timeline does not have returns the error-reported result without any release,
and so does, with OK, a `set-child-property` the structured operation rejects;
a `commit` whose save fails releases the timeline twice, the save coming after
the first release; a `commit` that returns the asynchronous result hands the
timeline to the save after its release.  An `edit-container` that succeeds
releases the timeline once. -/
theorem timeline_release_is_not_exactly_once :
    (_edit_container sample_lib edit_missing_container_action
        (sample_scenario GstState.PLAYING)).result
      = some GstValidateActionReturn.ERROR_REPORTED
    ∧ timeline_releases (_edit_container sample_lib edit_missing_container_action
        (sample_scenario GstState.PLAYING)).scenario.calls = 0
    ∧ (_validate_action_execute sample_lib rejected_set_child_property_action
        (sample_scenario GstState.PLAYING)).result = some GstValidateActionReturn.OK
    ∧ timeline_releases (_validate_action_execute sample_lib
        rejected_set_child_property_action (sample_scenario GstState.PLAYING)).scenario.calls = 0
    ∧ (_commit readonly_lib GstState.PLAYING commit_and_save_action
        scenario_without_pipeline).1 = GstValidateActionReturn.ERROR_REPORTED
    ∧ (_commit readonly_lib GstState.PLAYING commit_and_save_action
        scenario_without_pipeline).2.calls
      = [Call.timeline_commit, Call.timeline_unref, Call.save_timeline,
          Call.timeline_save_to_uri "file:///ok.xges", Call.timeline_unref]
    ∧ (_commit sample_lib GstState.NULL commit_action (sample_scenario GstState.PLAYING)).2.calls
      = [Call.signal_connect 1, Call.timeline_commit, Call.timeline_unref, Call.save_timeline]
    ∧ (_edit_container sample_lib edit_container_action
        (sample_scenario GstState.PLAYING)).result = some GstValidateActionReturn.OK
    ∧ timeline_releases (_edit_container sample_lib edit_container_action
        (sample_scenario GstState.PLAYING)).scenario.calls = 1 := by
  decide

/-! ## Layers -/

/-- C23 fails: an `add-layer` without `priority` returns OK and appends no layer:
whatever the library, the handler makes no call but the releases of the
pipeline and of the timeline, and the layers of the timeline are as they
were; `auto-transition` is applied to no layer. -/
theorem add_layer_without_priority_adds_nothing (lib : Lib) :
    _add_layer lib add_layer_without_priority_action (sample_scenario GstState.PLAYING)
      = Outcome.returned GstValidateActionReturn.OK
          (((sample_scenario GstState.PLAYING).call Call.pipeline_unref).call
            Call.timeline_unref)
    ∧ (_add_layer lib add_layer_without_priority_action
        (sample_scenario GstState.PLAYING)).scenario.layers
      = (sample_scenario GstState.PLAYING).layers := by
  have hrun : _add_layer lib add_layer_without_priority_action
      (sample_scenario GstState.PLAYING)
      = Outcome.returned GstValidateActionReturn.OK
          (((sample_scenario GstState.PLAYING).call Call.pipeline_unref).call
            Call.timeline_unref) := by
    rfl
  rw [hrun]
  exact ⟨rfl, rfl⟩

/-! ## Copy -/

/-- C24 fails: a `copy-element` with the declared parameter `recurse` set to false
copies recursively: the handler reads the field `recursive`, which the
command does not have, and takes true for it; the same command with the field
`recursive` set to false copies without recursion. -/
theorem copy_ignores_recurse_parameter :
    (_copy_element sample_lib copy_without_recursion_action
        (sample_scenario GstState.PLAYING)).result = some GstValidateActionReturn.OK
    ∧ (_copy_element sample_lib copy_without_recursion_action
        (sample_scenario GstState.PLAYING)).scenario.calls
      = [Call.pipeline_unref, Call.element_copy "clip0" true, Call.element_paste "clip0" 5,
          Call.timeline_unref]
    ∧ gst_structure_get_boolean copy_without_recursion_action.struct "recurse" = some false
    ∧ (_copy_element sample_lib copy_with_recursive_field_action
        (sample_scenario GstState.PLAYING)).scenario.calls
      = [Call.pipeline_unref, Call.element_copy "clip0" false, Call.element_paste "clip0" 5,
          Call.timeline_unref] := by
  decide

/-! ## Property commands that carry a project URI -/

/-- C28 fails: a `set-child-properties` that carries `project-uri` hands the field
`project-uri` to the setter as one more child property, after `posx`, and
returns the error-reported result for it; the two check commands look
`project-uri` up on the element and return the error-reported result. -/
theorem project_uri_is_treated_as_property :
    (set_or_check_properties sample_lib set_with_project_uri_action
        (sample_scenario GstState.PLAYING)).1 = GstValidateActionReturn.ERROR_REPORTED
    ∧ (set_or_check_properties sample_lib set_with_project_uri_action
        (sample_scenario GstState.PLAYING)).2.calls
      = [Call.timeline_unref, Call.set_child_property "clip0" "posx" (gint 5),
          Call.set_child_property "clip0" "project-uri" (gstr "file:///ok.xges")]
    ∧ (set_or_check_properties sample_lib set_with_project_uri_action
        (sample_scenario GstState.PLAYING)).2.reports
      = [⟨Issue.SCENARIO_ACTION_EXECUTION_ERROR,
          "Could not set clip0 child property project-uri to file:///ok.xges"⟩]
    ∧ (set_or_check_properties sample_lib check_with_project_uri_action
        (sample_scenario GstState.PLAYING)).1 = GstValidateActionReturn.ERROR_REPORTED
    ∧ (set_or_check_properties sample_lib check_with_project_uri_action
        (sample_scenario GstState.PLAYING)).2.calls
      = [Call.timeline_unref, Call.get_child_property "clip0" "posx",
          Call.get_child_property "clip0" "project-uri"]
    ∧ (set_or_check_properties sample_lib check_ges_with_project_uri_action
        (sample_scenario GstState.PLAYING)).1 = GstValidateActionReturn.ERROR_REPORTED
    ∧ (set_or_check_properties sample_lib check_ges_with_project_uri_action
        (sample_scenario GstState.PLAYING)).2.calls
      = [Call.timeline_unref, Call.object_get_property "clip0" "start",
          Call.object_get_property "clip0" "project-uri"]
    ∧ property_fields set_with_project_uri_action
      = [("posx", gint 5), ("project-uri", gstr "file:///ok.xges")] := by
  decide

/-! ## A load that fails before it starts -/

/-- C30 fails: a `load-project` with neither `serialized-content` nor `uri` on the
playing pipeline returns the error-reported result and leaves the pipeline in
the NULL state, into which the handler put it before it looked for the URI;
the layers and the tracks of the timeline are as they were. -/
theorem failed_load_leaves_pipeline_in_null_state :
    (_load_project sample_lib load_without_source_action
        (sample_scenario GstState.PLAYING)).1 = GstValidateActionReturn.ERROR_REPORTED
    ∧ (_load_project sample_lib load_without_source_action
        (sample_scenario GstState.PLAYING)).2.pipeline.map Pipeline.state
      = some GstState.NULL
    ∧ (sample_scenario GstState.PLAYING).pipeline.map Pipeline.state = some GstState.PLAYING
    ∧ (_load_project sample_lib load_without_source_action
        (sample_scenario GstState.PLAYING)).2.calls = [Call.element_set_state GstState.NULL]
    ∧ (_load_project sample_lib load_without_source_action
        (sample_scenario GstState.PLAYING)).2.layers = (sample_scenario GstState.PLAYING).layers
    ∧ (_load_project sample_lib load_without_source_action
        (sample_scenario GstState.PLAYING)).2.tracks
      = (sample_scenario GstState.PLAYING).tracks := by
  decide

/-! ## Saving handlers: the common frame -/

/-- A saving handler whose acquisition macro got a timeline runs its statements
on it and ends with the common end. -/
theorem saving_run_acquired (h : SavingHandler) (lib : Lib) (action : GstValidateAction)
    (sc sc1 : Scenario) (t : GESTimeline) (from_pipeline : Bool)
    (hacq : acquire_timeline_and_pipeline lib action sc
      = Acquired.locals (some t) from_pipeline sc1) :
    h.run lib action sc
      = save_and_return lib action
          (h.mutation lib action t from_pipeline (sc.after_acquisition from_pipeline)) := by
  have hsc := acquire_locals_scenario lib action sc sc1 (some t) from_pipeline hacq
  subst hsc
  simp only [SavingHandler.run, handler_on_timeline, hacq, Scenario.after_acquisition]

/-- The common end of a saving handler when the save does not fail: the result
of the mutation is returned, after the calls of the save and the release of
the timeline; nothing is reported and the pipeline is not touched. -/
theorem save_and_return_saved (lib : Lib) (action : GstValidateAction)
    (res : GstValidateActionReturn) (t1 : GESTimeline) (sc2 : Scenario)
    (hsave : ∀ tl uri, lib.persistence_target action.struct = some uri →
      lib.ges_timeline_save_to_uri tl uri = true) :
    save_and_return lib action (Mutation.save res t1 sc2)
      = Outcome.returned res
          { sc2 with calls := sc2.calls ++ save_calls lib action ++ [Call.timeline_unref] } := by
  cases htarget : lib.persistence_target action.struct with
  | none =>
    simp [save_and_return, SAVE_TIMELINE_IF_NEEDED, _ges_save_timeline_if_needed, htarget,
      save_calls, Scenario.call]
  | some uri =>
    have hs := hsave (some t1) uri htarget
    simp [save_and_return, SAVE_TIMELINE_IF_NEEDED, _ges_save_timeline_if_needed, htarget,
      save_calls, Scenario.call, hs]

/-! ## Removal of a clip that is in no layer -/

/-- C25 as stated fails: a `remove-clip` on a clip that is in no layer returns the
error result (`FALSE`): nothing is removed, nothing is reported, and the
handler fails. -/
theorem remove_clip_without_layer_returns_error :
    (_remove_clip sample_lib remove_clip_action scenario_without_layers).result
      = some GstValidateActionReturn.ERROR
    ∧ (_remove_clip sample_lib remove_clip_action scenario_without_layers).scenario.calls
      = [Call.pipeline_unref, Call.save_timeline, Call.timeline_unref]
    ∧ (_remove_clip sample_lib remove_clip_action scenario_without_layers).scenario.reports
      = [] := by
  decide

/-- C25, amended: for a `remove-clip` command that names a clip of the timeline
which is in no layer (and whose save, if one is asked for, does not fail), no
removal is performed, nothing is reported and the pipeline and its timeline
are as they were, but the command fails: the handler returns `FALSE`, the
error result, after the save macro and the release of the timeline. -/
theorem remove_clip_without_layer_fails (lib : Lib) (action : GstValidateAction)
    (sc sc1 : Scenario) (t : GESTimeline) (from_pipeline : Bool) (clip : GESTimelineElement)
    (hacq : acquire_timeline_and_pipeline lib action sc
      = Acquired.locals (some t) from_pipeline sc1)
    (hclip : ges_timeline_get_element (some t)
      (gst_structure_get_string action.struct "name") = some clip)
    (his : clip.is_clip = true)
    (hlayer : lib.ges_clip_get_layer t clip = none)
    (hsave : ∀ tl uri, lib.persistence_target action.struct = some uri →
      lib.ges_timeline_save_to_uri tl uri = true) :
    (_remove_clip lib action sc).result = some GstValidateActionReturn.ERROR
    ∧ (_remove_clip lib action sc).scenario.calls
      = (sc.after_acquisition from_pipeline).calls ++ save_calls lib action
        ++ [Call.timeline_unref]
    ∧ (∀ layer name, Call.layer_remove_clip layer name
        ∉ (sc.after_acquisition from_pipeline).calls.drop sc.calls.length
          ++ save_calls lib action ++ [Call.timeline_unref])
    ∧ (_remove_clip lib action sc).scenario.reports = sc.reports
    ∧ (_remove_clip lib action sc).scenario.pipeline = sc.pipeline := by
  have hmut : SavingHandler._remove_clip.mutation lib action t from_pipeline
      (sc.after_acquisition from_pipeline)
      = Mutation.save GstValidateActionReturn.ERROR t (sc.after_acquisition from_pipeline) := by
    simp [SavingHandler.mutation, _remove_clip_mutation, hclip, his, hlayer]
  have hrun : _remove_clip lib action sc
      = Outcome.returned GstValidateActionReturn.ERROR
          { sc.after_acquisition from_pipeline with
            calls := (sc.after_acquisition from_pipeline).calls ++ save_calls lib action
              ++ [Call.timeline_unref] } := by
    rw [_remove_clip, saving_run_acquired _ lib action sc sc1 t from_pipeline hacq, hmut,
      save_and_return_saved lib action _ t _ hsave]
  rw [hrun]
  refine ⟨rfl, rfl, ?_, ?_, ?_⟩
  · intro layer name
    cases htarget : lib.persistence_target action.struct <;>
      cases from_pipeline <;>
      simp [Scenario.after_acquisition, Scenario.call, save_calls, htarget]
  · cases from_pipeline <;> simp [Outcome.scenario, Scenario.after_acquisition, Scenario.call]
  · cases from_pipeline <;> simp [Outcome.scenario, Scenario.after_acquisition, Scenario.call]

/-- Witness of C25 amended: the `remove-clip` on the timeline without layers. -/
theorem remove_clip_without_layer_fails_witness :
    (_remove_clip sample_lib remove_clip_action scenario_without_layers).scenario.pipeline
      = scenario_without_layers.pipeline :=
  (remove_clip_without_layer_fails sample_lib remove_clip_action scenario_without_layers
    scenario_without_layers { sample_timeline with layers := [] } true
    sample_timeline.elements[1] (by decide) (by decide) (by decide) (by decide)
    (by
      intro tl uri h
      have hnone : sample_lib.persistence_target remove_clip_action.struct = none := by decide
      rw [hnone] at h
      cases h)).2.2.2.2

/-! ## Restriction caps of tracks -/

/-- What `set_restriction_caps` does to each track: a track whose type has a flag
in common with the requested types gets the caps, any other track is as it
was. -/
theorem set_restriction_caps_pointwise (tracks : List GESTrack) (track_types : Nat)
    (caps : String) :
    List.Forall₂
      (fun (before after : GESTrack) =>
        if before.type &&& track_types ≠ 0 then
          after = { before with restriction_caps := some caps }
        else after = before)
      tracks (set_restriction_caps tracks track_types caps) := by
  induction tracks with
  | nil => exact List.Forall₂.nil
  | cons track rest ih =>
    refine List.Forall₂.cons ?_ ih
    by_cases h : track.type &&& track_types = 0 <;> simp [h]

/-- C26: for a `set-track-restriction-caps` command whose acquisition macro got
a timeline, whose type flags are not empty and whose caps parse (and whose
save, if one is asked for, does not fail): the setter is called on exactly the
tracks of the timeline whose type has a flag in common with the requested
types, in order, and on no other; each of those tracks holds the caps
afterwards and every other track is as it was; the handler returns OK when
there is such a track and the error result otherwise. -/
theorem restriction_caps_on_matching_tracks (lib : Lib) (action : GstValidateAction)
    (sc sc1 : Scenario) (t : GESTimeline) (from_pipeline : Bool) (caps : String)
    (hacq : acquire_timeline_and_pipeline lib action sc
      = Acquired.locals (some t) from_pipeline sc1)
    (hflags : lib.gst_validate_utils_flags_from_str
      (gst_structure_get_string action.struct "track-type") ≠ 0)
    (hcaps : lib.gst_caps_from_string (gst_structure_get_string action.struct "caps")
      = some caps)
    (hsave : ∀ tl uri, lib.persistence_target action.struct = some uri →
      lib.ges_timeline_save_to_uri tl uri = true) :
    ((_set_track_restriction_caps lib action sc).result = some GstValidateActionReturn.OK
      ↔ ∃ track ∈ t.tracks, track.type &&& lib.gst_validate_utils_flags_from_str
          (gst_structure_get_string action.struct "track-type") ≠ 0)
    ∧ ((_set_track_restriction_caps lib action sc).result = some GstValidateActionReturn.OK
      ∨ (_set_track_restriction_caps lib action sc).result
        = some GstValidateActionReturn.ERROR)
    ∧ (_set_track_restriction_caps lib action sc).scenario.calls
      = (sc.after_acquisition from_pipeline).calls
        ++ (t.tracks.filter (fun track => track.type &&&
              lib.gst_validate_utils_flags_from_str
                (gst_structure_get_string action.struct "track-type") != 0)).map
            (fun track => Call.track_set_restriction_caps track.name caps)
        ++ save_calls lib action ++ [Call.timeline_unref]
    ∧ (_set_track_restriction_caps lib action sc).scenario.pipeline
      = ((sc.after_acquisition from_pipeline).store_timeline from_pipeline
          { t with
            tracks :=
              set_restriction_caps t.tracks
                (lib.gst_validate_utils_flags_from_str
                  (gst_structure_get_string action.struct "track-type")) caps }).pipeline
    ∧ List.Forall₂
        (fun (before after : GESTrack) =>
          if before.type &&& lib.gst_validate_utils_flags_from_str
              (gst_structure_get_string action.struct "track-type") ≠ 0 then
            after = { before with restriction_caps := some caps }
          else after = before)
        t.tracks
        (set_restriction_caps t.tracks
          (lib.gst_validate_utils_flags_from_str
            (gst_structure_get_string action.struct "track-type")) caps) := by
  have hflags' : (lib.gst_validate_utils_flags_from_str
      (gst_structure_get_string action.struct "track-type") == 0) = false := by
    simpa using hflags
  have hrun : _set_track_restriction_caps lib action sc
      = save_and_return lib action
          (_set_track_restriction_caps_mutation lib action t from_pipeline
            (sc.after_acquisition from_pipeline)) := by
    rw [_set_track_restriction_caps,
      saving_run_acquired _ lib action sc sc1 t from_pipeline hacq]
    rfl
  rw [hrun]
  simp only [_set_track_restriction_caps_mutation, hflags', hcaps, Bool.false_eq_true,
    if_false]
  rw [save_and_return_saved lib action _ _ _ hsave]
  refine ⟨?_, ?_, ?_, ?_, set_restriction_caps_pointwise _ _ _⟩
  · simp only [Outcome.result, gboolean, Option.some.injEq]
    constructor
    · intro h
      by_cases hempty : (t.tracks.filter (fun track => track.type &&&
          lib.gst_validate_utils_flags_from_str
            (gst_structure_get_string action.struct "track-type") != 0)) = []
      · simp [hempty] at h
      · obtain ⟨track, htrack⟩ := List.exists_mem_of_ne_nil _ hempty
        rw [List.mem_filter] at htrack
        exact ⟨track, htrack.1, by simpa using htrack.2⟩
    · rintro ⟨track, hmem, hbits⟩
      have hin : track ∈ t.tracks.filter (fun track => track.type &&&
          lib.gst_validate_utils_flags_from_str
            (gst_structure_get_string action.struct "track-type") != 0) := by
        rw [List.mem_filter]
        exact ⟨hmem, by simpa using hbits⟩
      have hne : (t.tracks.filter (fun track => track.type &&&
          lib.gst_validate_utils_flags_from_str
            (gst_structure_get_string action.struct "track-type") != 0)).isEmpty = false := by
        cases hfil : t.tracks.filter (fun track => track.type &&&
          lib.gst_validate_utils_flags_from_str
            (gst_structure_get_string action.struct "track-type") != 0) with
        | nil => rw [hfil] at hin; cases hin
        | cons a l => rfl
      simp [hne]
  · simp only [Outcome.result, gboolean]
    split <;> simp
  · simp [Outcome.scenario, store_timeline_calls]
  · cases from_pipeline <;> simp [Outcome.scenario, Scenario.store_timeline]

/-- Witness of C26: the caps set on the video track of the timeline and not on
its audio track. -/
theorem restriction_caps_on_matching_tracks_witness :
    (_set_track_restriction_caps sample_lib restrict_video_action
        (sample_scenario GstState.PLAYING)).scenario.calls
      = ((sample_scenario GstState.PLAYING).after_acquisition true).calls
        ++ [Call.track_set_restriction_caps "video-track" "video/x-raw"]
        ++ save_calls sample_lib restrict_video_action ++ [Call.timeline_unref] :=
  (restriction_caps_on_matching_tracks sample_lib restrict_video_action
    (sample_scenario GstState.PLAYING) (sample_scenario GstState.PLAYING) sample_timeline
    true "video/x-raw" (by decide) (by decide) (by decide)
    (by
      intro tl uri h
      have hnone : sample_lib.persistence_target restrict_video_action.struct = none := by
        decide
      rw [hnone] at h
      cases h)).2.2.1

/-! ## Edit of a container -/

/-- An optional enumeration field that is absent resolves to its default. -/
theorem optional_enum_absent (lib : Lib) (action : GstValidateAction)
    (field enum_type : String) (default : Nat)
    (h : gst_structure_get_string action.struct field = none) :
    optional_enum lib action field enum_type default = some default := by
  simp [optional_enum, h]

/-- An optional enumeration field that is present resolves to what its name
stands for in the enumeration, and to nothing when it is no name of it. -/
theorem optional_enum_present (lib : Lib) (action : GstValidateAction)
    (field enum_type name : String) (default : Nat)
    (h : gst_structure_get_string action.struct field = some name) :
    optional_enum lib action field enum_type default
      = lib.gst_validate_utils_enum_from_str enum_type name := by
  simp [optional_enum, h]

/-- C27: for an `edit-container` command whose acquisition macro got a timeline,
on a container the timeline has and with a position that resolves (and whose
save, if one is asked for, does not fail).  When `edit-mode` is given and is no
name of `GESEditMode`, or `edge` is given and is no name of `GESEdge`, the
handler returns the error result and makes no call at all: the edit operation
is not invoked.  Otherwise the edit operation is invoked exactly once, with
the mode the given name stands for (normal when `edit-mode` is absent), the
edge the given name stands for (none when `edge` is absent), the position and
`new-layer-priority` (-1 when absent); it is the only call of the handler on
the timeline before the save and the release, the timeline afterwards is the
one the operation left, and the result of the handler is that of the
operation. -/
theorem edit_container_delegates_once (lib : Lib) (action : GstValidateAction)
    (sc sc1 : Scenario) (t : GESTimeline) (from_pipeline : Bool)
    (container : GESTimelineElement) (position : GstClockTime)
    (hacq : acquire_timeline_and_pipeline lib action sc
      = Acquired.locals (some t) from_pipeline sc1)
    (hcontainer : ges_timeline_get_element (some t)
      (gst_structure_get_string action.struct "container-name") = some container)
    (hposition : lib.gst_validate_action_get_clocktime action "position" = some position)
    (hsave : ∀ tl uri, lib.persistence_target action.struct = some uri →
      lib.ges_timeline_save_to_uri tl uri = true) :
    (((∃ name, gst_structure_get_string action.struct "edit-mode" = some name
          ∧ lib.gst_validate_utils_enum_from_str "GESEditMode" name = none)
        ∨ (∃ name, gst_structure_get_string action.struct "edge" = some name
          ∧ lib.gst_validate_utils_enum_from_str "GESEdge" name = none)) →
      _edit_container lib action sc
        = Outcome.returned GstValidateActionReturn.ERROR (sc.after_acquisition from_pipeline))
    ∧ (∀ mode edge,
        ((gst_structure_get_string action.struct "edit-mode" = none
            ∧ mode = GES_EDIT_MODE_NORMAL)
          ∨ (∃ name, gst_structure_get_string action.struct "edit-mode" = some name
            ∧ lib.gst_validate_utils_enum_from_str "GESEditMode" name = some mode)) →
        ((gst_structure_get_string action.struct "edge" = none ∧ edge = GES_EDGE_NONE)
          ∨ (∃ name, gst_structure_get_string action.struct "edge" = some name
            ∧ lib.gst_validate_utils_enum_from_str "GESEdge" name = some edge)) →
        (_edit_container lib action sc).result
          = some (gboolean (lib.ges_container_edit t container
              ((gst_structure_get_int action.struct "new-layer-priority").getD (-1))
              mode edge position).1)
        ∧ (_edit_container lib action sc).scenario.calls
          = (sc.after_acquisition from_pipeline).calls
            ++ [Call.container_edit container.name
                ((gst_structure_get_int action.struct "new-layer-priority").getD (-1))
                mode edge position]
            ++ (if (lib.ges_container_edit t container
                  ((gst_structure_get_int action.struct "new-layer-priority").getD (-1))
                  mode edge position).1 then save_calls lib action else [])
            ++ [Call.timeline_unref]
        ∧ (_edit_container lib action sc).scenario.pipeline
          = ((sc.after_acquisition from_pipeline).store_timeline from_pipeline
              (lib.ges_container_edit t container
                ((gst_structure_get_int action.struct "new-layer-priority").getD (-1))
                mode edge position).2).pipeline
        ∧ (_edit_container lib action sc).scenario.reports = sc.reports) := by
  have hrun : _edit_container lib action sc
      = save_and_return lib action
          (_edit_container_mutation lib action t from_pipeline
            (sc.after_acquisition from_pipeline)) := by
    rw [_edit_container, saving_run_acquired _ lib action sc sc1 t from_pipeline hacq]
    rfl
  refine ⟨?_, ?_⟩
  · intro hbad
    rw [hrun]
    cases hmode : optional_enum lib action "edit-mode" "GESEditMode" GES_EDIT_MODE_NORMAL with
    | none => simp [_edit_container_mutation, hcontainer, hposition, hmode, save_and_return]
    | some mode =>
      have hedge : optional_enum lib action "edge" "GESEdge" GES_EDGE_NONE = none := by
        rcases hbad with ⟨name, hname, hnone⟩ | ⟨name, hname, hnone⟩
        · simp [optional_enum, hname, hnone] at hmode
        · simp [optional_enum, hname, hnone]
      simp [_edit_container_mutation, hcontainer, hposition, hmode, hedge, save_and_return]
  · intro mode edge hmode_given hedge_given
    have hmode : optional_enum lib action "edit-mode" "GESEditMode" GES_EDIT_MODE_NORMAL
        = some mode := by
      rcases hmode_given with ⟨habsent, hdefault⟩ | ⟨name, hname, hvalue⟩
      · simp [optional_enum, habsent, hdefault]
      · simp [optional_enum, hname, hvalue]
    have hedge : optional_enum lib action "edge" "GESEdge" GES_EDGE_NONE = some edge := by
      rcases hedge_given with ⟨habsent, hdefault⟩ | ⟨name, hname, hvalue⟩
      · simp [optional_enum, habsent, hdefault]
      · simp [optional_enum, hname, hvalue]
    rw [hrun]
    simp only [_edit_container_mutation, hcontainer, hposition, hmode, hedge]
    cases hop : (lib.ges_container_edit t container
        ((gst_structure_get_int action.struct "new-layer-priority").getD (-1))
        mode edge position).1 with
    | false =>
      cases from_pipeline <;>
        simp [hop, save_and_return, Outcome.result, Outcome.scenario, gboolean, Scenario.call,
          Scenario.store_timeline, Scenario.after_acquisition]
    | true =>
      simp only [hop, if_true]
      rw [save_and_return_saved lib action _ _ _ hsave]
      cases from_pipeline <;>
        simp [Outcome.result, Outcome.scenario, gboolean, Scenario.call,
          Scenario.store_timeline, Scenario.after_acquisition]

/-- Witness of C27: an `edit-container` on the clip of the timeline in the ripple
mode at the end edge is handed to the operation with the mode 1 and the edge 1,
neither of which is the default; with the mandatory fields only it is handed
over with the normal mode 0, the edge none 2 and the layer priority -1; with
an `edit-mode` that is no name of the enumeration, and with an `edge` that is
none, the handler returns the error result without any call but the release
of the pipeline. -/
theorem edit_container_delegates_once_witness :
    (_edit_container sample_lib edit_container_ripple_action
        (sample_scenario GstState.PLAYING)).scenario.calls
      = [Call.pipeline_unref, Call.container_edit "clip0" 1 1 1 5, Call.save_timeline,
          Call.timeline_unref]
    ∧ (_edit_container sample_lib edit_container_default_action
        (sample_scenario GstState.PLAYING)).scenario.calls
      = [Call.pipeline_unref, Call.container_edit "clip0" (-1) 0 2 5, Call.save_timeline,
          Call.timeline_unref]
    ∧ _edit_container sample_lib edit_container_bad_mode_action
        (sample_scenario GstState.PLAYING)
      = Outcome.returned GstValidateActionReturn.ERROR
          ((sample_scenario GstState.PLAYING).call Call.pipeline_unref)
    ∧ _edit_container sample_lib edit_container_bad_edge_action
        (sample_scenario GstState.PLAYING)
      = Outcome.returned GstValidateActionReturn.ERROR
          ((sample_scenario GstState.PLAYING).call Call.pipeline_unref) := by
  refine ⟨?_, ?_, ?_, ?_⟩
  · exact ((edit_container_delegates_once sample_lib edit_container_ripple_action
      (sample_scenario GstState.PLAYING) (sample_scenario GstState.PLAYING) sample_timeline
      true sample_timeline.elements[1] 5 (by decide) (by decide) (by decide)
      (by
        intro tl uri h
        have hnone : sample_lib.persistence_target edit_container_ripple_action.struct
            = none := by decide
        rw [hnone] at h
        cases h)).2 1 1
      (Or.inr ⟨"ripple", by decide, by decide⟩)
      (Or.inr ⟨"edge_end", by decide, by decide⟩)).2.1
  · exact ((edit_container_delegates_once sample_lib edit_container_default_action
      (sample_scenario GstState.PLAYING) (sample_scenario GstState.PLAYING) sample_timeline
      true sample_timeline.elements[1] 5 (by decide) (by decide) (by decide)
      (by
        intro tl uri h
        have hnone : sample_lib.persistence_target edit_container_default_action.struct
            = none := by decide
        rw [hnone] at h
        cases h)).2 0 2
      (Or.inl ⟨by decide, by decide⟩)
      (Or.inl ⟨by decide, by decide⟩)).2.1
  · exact (edit_container_delegates_once sample_lib edit_container_bad_mode_action
      (sample_scenario GstState.PLAYING) (sample_scenario GstState.PLAYING) sample_timeline
      true sample_timeline.elements[1] 5 (by decide) (by decide) (by decide)
      (by
        intro tl uri h
        have hnone : sample_lib.persistence_target edit_container_bad_mode_action.struct
            = none := by decide
        rw [hnone] at h
        cases h)).1 (Or.inl ⟨"bogus", by decide, by decide⟩)
  · exact (edit_container_delegates_once sample_lib edit_container_bad_edge_action
      (sample_scenario GstState.PLAYING) (sample_scenario GstState.PLAYING) sample_timeline
      true sample_timeline.elements[1] 5 (by decide) (by decide) (by decide)
      (by
        intro tl uri h
        have hnone : sample_lib.persistence_target edit_container_bad_edge_action.struct
            = none := by decide
        rw [hnone] at h
        cases h)).1 (Or.inr ⟨"bogus", by decide, by decide⟩)

/-! ## Add a layer, then remove it -/

/-- The acquisition macro on a scenario with a pipeline, for a command without
`project-uri`. -/
theorem acquire_on_pipeline (lib : Lib) (action : GstValidateAction) (sc : Scenario)
    (p : Pipeline)
    (huri : gst_structure_get_string action.struct "project-uri" = none)
    (hpipe : sc.pipeline = some p) :
    acquire_timeline_and_pipeline lib action sc
      = Acquired.locals (pipeline_get_timeline p) true sc := by
  simp [acquire_timeline_and_pipeline, huri, hpipe]

/-- The index of a layer that was appended last and that is equal to no earlier
layer. -/
theorem indexOf_appended_layer (ls : List GESLayer) (l : GESLayer) (h : l ∉ ls) :
    (ls ++ [l]).indexOf? l = some ls.length := by
  induction ls with
  | nil => simp [List.indexOf?]
  | cons a rest ih =>
    have ha : ¬ a = l := fun e => h (by simp [e])
    have hrest : l ∉ rest := fun m => h (List.mem_cons_of_mem _ m)
    have ih1 := ih hrest
    simp only [List.indexOf?] at ih1 ⊢
    simp [List.findIdx?_cons, ha, ih1]

/-- The properties set on a layer that was appended last and that is equal to
no earlier layer. -/
theorem set_on_appended_layer (t : GESTimeline) (l : GESLayer) (priority : Int)
    (auto_transition : Bool) (h : l ∉ t.layers) :
    layer_set_properties { t with layers := t.layers ++ [l] } (some l) priority auto_transition
      = { t with layers := t.layers ++ [⟨priority, auto_transition⟩] } := by
  simp [layer_set_properties, indexOf_appended_layer t.layers l h]

/-- An `add-layer` with a priority, on a pipeline, for which one new layer is
created: the handler returns OK and the timeline of the pipeline has the new
layer, with the priority and the `auto-transition` of the command. -/
theorem add_layer_on_pipeline (lib : Lib) (add : GstValidateAction) (sc : Scenario)
    (p : Pipeline) (t : GESTimeline) (P : Int) (auto : Bool) (l : GESLayer)
    (huri : gst_structure_get_string add.struct "project-uri" = none)
    (hsave : ∀ tl uri, lib.persistence_target add.struct = some uri →
      lib.ges_timeline_save_to_uri tl uri = true)
    (hpipe : sc.pipeline = some p)
    (hges : p.is_ges = true)
    (htl : p.timeline = some t)
    (hpriority : gst_structure_get_int add.struct "priority" = some P)
    (hauto : (gst_structure_get_boolean add.struct "auto-transition").getD false = auto)
    (hcreate : lib._ges_get_layer_by_priority t P
      = (some l, { t with layers := t.layers ++ [l] }))
    (hfresh : l ∉ t.layers) :
    ∃ added, _add_layer lib add sc = Outcome.returned GstValidateActionReturn.OK added
      ∧ added.pipeline
        = some { p with timeline := some { t with layers := t.layers ++ [⟨P, auto⟩] } } := by
  have hget : pipeline_get_timeline p = some t := by simp [pipeline_get_timeline, hges, htl]
  have hacq := acquire_on_pipeline lib add sc p huri hpipe
  rw [hget] at hacq
  have hmut : SavingHandler._add_layer.mutation lib add t true (sc.after_acquisition true)
      = Mutation.save GstValidateActionReturn.OK
          { t with layers := t.layers ++ [⟨P, auto⟩] }
          ((((sc.after_acquisition true).call (Call.get_layer_by_priority P)).call
            (Call.layer_set l P auto)).store_timeline true
            { t with layers := t.layers ++ [⟨P, auto⟩] }) := by
    simp only [SavingHandler.mutation, _add_layer_mutation, hpriority, hcreate, hauto,
      set_on_appended_layer t l P auto hfresh]
  rw [_add_layer, saving_run_acquired _ lib add sc sc t true hacq, hmut,
    save_and_return_saved lib add _ _ _ hsave]
  refine ⟨_, rfl, ?_⟩
  simp [Scenario.store_timeline, Scenario.call, Scenario.after_acquisition, hpipe]

/-- A `remove-layer` with a priority, on a pipeline, for which a layer of the
timeline is found: the handler returns OK and the timeline of the pipeline
has lost that layer. -/
theorem remove_layer_on_pipeline (lib : Lib) (remove : GstValidateAction) (sc : Scenario)
    (p : Pipeline) (t : GESTimeline) (P : Int) (l : GESLayer)
    (huri : gst_structure_get_string remove.struct "project-uri" = none)
    (hsave : ∀ tl uri, lib.persistence_target remove.struct = some uri →
      lib.ges_timeline_save_to_uri tl uri = true)
    (hpipe : sc.pipeline = some p)
    (hges : p.is_ges = true)
    (htl : p.timeline = some t)
    (hpriority : gst_structure_get_int remove.struct "priority" = some P)
    (hfind : lib._ges_get_layer_by_priority t P = (some l, t))
    (hmem : l ∈ t.layers) :
    ∃ removed, _remove_layer lib remove sc
        = Outcome.returned GstValidateActionReturn.OK removed
      ∧ removed.pipeline
        = some { p with timeline := some { t with layers := t.layers.erase l } } := by
  have hget : pipeline_get_timeline p = some t := by simp [pipeline_get_timeline, hges, htl]
  have hacq := acquire_on_pipeline lib remove sc p huri hpipe
  rw [hget] at hacq
  have hmut : SavingHandler._remove_layer.mutation lib remove t true (sc.after_acquisition true)
      = Mutation.save GstValidateActionReturn.OK
          { t with layers := t.layers.erase l }
          ((((sc.after_acquisition true).call (Call.get_layer_by_priority P)).call
            (Call.timeline_remove_layer l)).store_timeline true
            { t with layers := t.layers.erase l }) := by
    simp [SavingHandler.mutation, _remove_layer_mutation, hpriority, hfind,
      ges_timeline_remove_layer, hmem, gboolean]
  rw [_remove_layer, saving_run_acquired _ lib remove sc sc t true hacq, hmut,
    save_and_return_saved lib remove _ _ _ hsave]
  refine ⟨_, rfl, ?_⟩
  simp [Scenario.store_timeline, Scenario.call, Scenario.after_acquisition, hpipe]

/-- C22 as stated fails: with layers created on demand, an `add-layer` with the
priority 0 of a layer the timeline has already creates no layer, and the
`remove-layer` that follows removes the layer that was there before; an
`add-layer` with the priority 4 on a timeline of two layers creates three
layers, of which the `remove-layer` that follows removes one. -/
theorem add_then_remove_layer_changes_layers :
    (sample_scenario GstState.PLAYING).layers = some [⟨0, false⟩, ⟨1, true⟩]
    ∧ (_add_layer layered_lib (add_layer_action 0)
        (sample_scenario GstState.PLAYING)).scenario.layers = some [⟨0, false⟩, ⟨1, true⟩]
    ∧ (_remove_layer layered_lib (remove_layer_action 0)
        (_add_layer layered_lib (add_layer_action 0)
          (sample_scenario GstState.PLAYING)).scenario).result
      = some GstValidateActionReturn.OK
    ∧ (_remove_layer layered_lib (remove_layer_action 0)
        (_add_layer layered_lib (add_layer_action 0)
          (sample_scenario GstState.PLAYING)).scenario).scenario.layers = some [⟨1, true⟩]
    ∧ (_remove_layer layered_lib (remove_layer_action 4)
        (_add_layer layered_lib (add_layer_action 4)
          (sample_scenario GstState.PLAYING)).scenario).scenario.layers
      = some [⟨0, false⟩, ⟨1, true⟩, ⟨2, false⟩, ⟨3, false⟩] := by
  decide

/-- C22, amended: for a pipeline that holds the timeline `t` and two commands
without `project-uri` (whose saves, if asked for, do not fail), an `add-layer`
and a `remove-layer` with the same priority P: when the timeline has no layer
equal to the one `add-layer` sets up, `add-layer` gets exactly one new layer
for the priority, and the `remove-layer` that follows finds that layer as the
one of priority P, then both commands return OK, the timeline has the new
layer with priority P and the `auto-transition` of the command after the
first, and after the second the layers of the timeline are those it had before
the two commands. -/
theorem add_then_remove_layer_round_trip (lib : Lib) (add remove : GstValidateAction)
    (sc : Scenario) (p : Pipeline) (t : GESTimeline) (P : Int) (auto : Bool) (l : GESLayer)
    (hadd_uri : gst_structure_get_string add.struct "project-uri" = none)
    (hremove_uri : gst_structure_get_string remove.struct "project-uri" = none)
    (hadd_save : ∀ tl uri, lib.persistence_target add.struct = some uri →
      lib.ges_timeline_save_to_uri tl uri = true)
    (hremove_save : ∀ tl uri, lib.persistence_target remove.struct = some uri →
      lib.ges_timeline_save_to_uri tl uri = true)
    (hpipe : sc.pipeline = some p)
    (hges : p.is_ges = true)
    (htl : p.timeline = some t)
    (hadd_priority : gst_structure_get_int add.struct "priority" = some P)
    (hremove_priority : gst_structure_get_int remove.struct "priority" = some P)
    (hauto : (gst_structure_get_boolean add.struct "auto-transition").getD false = auto)
    (hcreate : lib._ges_get_layer_by_priority t P
      = (some l, { t with layers := t.layers ++ [l] }))
    (hfresh : l ∉ t.layers)
    (hnew : (⟨P, auto⟩ : GESLayer) ∉ t.layers)
    (hfind : lib._ges_get_layer_by_priority { t with layers := t.layers ++ [⟨P, auto⟩] } P
      = (some ⟨P, auto⟩, { t with layers := t.layers ++ [⟨P, auto⟩] })) :
    (_add_layer lib add sc).result = some GstValidateActionReturn.OK
    ∧ (_add_layer lib add sc).scenario.layers = some (t.layers ++ [⟨P, auto⟩])
    ∧ (_remove_layer lib remove (_add_layer lib add sc).scenario).result
      = some GstValidateActionReturn.OK
    ∧ (_remove_layer lib remove (_add_layer lib add sc).scenario).scenario.layers
      = some t.layers := by
  obtain ⟨added, hadd, hadded⟩ := add_layer_on_pipeline lib add sc p t P auto l hadd_uri
    hadd_save hpipe hges htl hadd_priority hauto hcreate hfresh
  obtain ⟨removed, hremove, hremoved⟩ := remove_layer_on_pipeline lib remove added
    { p with timeline := some { t with layers := t.layers ++ [⟨P, auto⟩] } }
    { t with layers := t.layers ++ [⟨P, auto⟩] } P ⟨P, auto⟩ hremove_uri hremove_save
    hadded hges rfl hremove_priority hfind (by simp)
  have herase : (t.layers ++ [(⟨P, auto⟩ : GESLayer)]).erase ⟨P, auto⟩ = t.layers := by
    rw [List.erase_append_right _ hnew]
    simp
  rw [hadd]
  simp only [Outcome.scenario, Outcome.result]
  rw [hremove]
  simp only [Outcome.scenario, Outcome.result]
  refine ⟨trivial, ?_, trivial, ?_⟩
  · simp [Scenario.layers, hadded, pipeline_get_timeline, hges]
  · simp [Scenario.layers, hremoved, pipeline_get_timeline, hges, herase]

/-- Witness of C22 amended: on the timeline of two layers, an `add-layer` with
the priority 2 followed by a `remove-layer` with the priority 2. -/
theorem add_then_remove_layer_round_trip_witness :
    (_remove_layer layered_lib (remove_layer_action 2)
        (_add_layer layered_lib (add_layer_action 2)
          (sample_scenario GstState.PLAYING)).scenario).scenario.layers
      = some sample_timeline.layers :=
  (add_then_remove_layer_round_trip layered_lib (add_layer_action 2) (remove_layer_action 2)
    (sample_scenario GstState.PLAYING) (sample_pipeline GstState.PLAYING) sample_timeline
    2 false ⟨2, false⟩ (by decide) (by decide)
    (by
      intro tl uri h
      have hnone : layered_lib.persistence_target (add_layer_action 2).struct = none := by
        decide
      rw [hnone] at h
      cases h)
    (by
      intro tl uri h
      have hnone : layered_lib.persistence_target (remove_layer_action 2).struct = none := by
        decide
      rw [hnone] at h
      cases h)
    rfl rfl rfl (by decide) (by decide) (by decide) (by decide) (by decide) (by decide)
    (by decide)).2.2.2

/-! ## Commit: results other than the asynchronous one -/

/-- The function `_ges_load_timeline` touches neither the pipeline nor the done
actions. -/
theorem load_timeline_frame (lib : Lib) (project_uri : String) (sc : Scenario) :
    (_ges_load_timeline lib project_uri sc).2.pipeline = sc.pipeline
    ∧ (_ges_load_timeline lib project_uri sc).2.actions_done = sc.actions_done := by
  simp only [_ges_load_timeline]
  split <;> simp [Scenario.report]

/-- A `_commit` that does not get its timeline from the pipeline has no bus to
connect to: the pipeline and the done actions are as they were. -/
theorem commit_frame_without_bus (lib : Lib) (state0 : GstState) (action : GstValidateAction)
    (sc : Scenario) (uri : String)
    (huri : gst_structure_get_string action.struct "project-uri" = some uri) :
    (_commit lib state0 action sc).2.pipeline = sc.pipeline
    ∧ (_commit lib state0 action sc).2.actions_done = sc.actions_done := by
  obtain ⟨hf1, hf2⟩ := load_timeline_frame lib uri sc
  simp only [_commit, DECLARE_AND_GET_TIMELINE_AND_PIPELINE, acquire_timeline_and_pipeline, huri]
  cases hload : _ges_load_timeline lib uri sc with
  | mk tl sc1 =>
    rw [hload] at hf1 hf2
    simp only at hf1 hf2
    cases tl with
    | none => exact ⟨hf1, hf2⟩
    | some t =>
      simp only [Scenario.signal_connect, Scenario.signal_disconnect, Scenario.store_timeline,
        Bool.false_eq_true, if_false]
      split
      · exact ⟨hf1, hf2⟩
      · simp only [SAVE_TIMELINE_IF_NEEDED, _ges_save_timeline_if_needed]
        cases ht : lib.persistence_target action.struct with
        | none => simp [Scenario.call, hf1, hf2]
        | some target =>
          cases hs : lib.ges_timeline_save_to_uri (some (lib.ges_timeline_commit t).2) target <;>
            simp [Scenario.call, Scenario.report, hf1, hf2, hs]

/-- A `_commit` on a pipeline that holds a timeline, for a command without
`project-uri` and without persistence target: either it returns the
asynchronous result, or it returns OK with its handler disconnected. -/
theorem commit_on_pipeline_cases (lib : Lib) (state0 : GstState) (action : GstValidateAction)
    (sc : Scenario) (p : Pipeline) (t : GESTimeline)
    (huri : gst_structure_get_string action.struct "project-uri" = none)
    (htarget : lib.persistence_target action.struct = none)
    (hpipe : sc.pipeline = some p)
    (htl : pipeline_get_timeline p = some t) :
    (_commit lib state0 action sc).1 = GstValidateActionReturn.ASYNC
    ∨ ((_commit lib state0 action sc).1 = GstValidateActionReturn.OK
      ∧ connected_handlers (_commit lib state0 action sc).2
        = (p.async_done_handlers ++ [(⟨action.id⟩ : BusHandler)]).filter
            (fun h => h.action_id != action.id)
      ∧ (_commit lib state0 action sc).2.actions_done = sc.actions_done) := by
  have hacq := acquire_on_pipeline lib action sc p huri hpipe
  rw [htl] at hacq
  simp only [_commit, DECLARE_AND_GET_TIMELINE_AND_PIPELINE, hacq]
  by_cases hcond : (!(lib.ges_timeline_commit t).1
      || decide (p.state.toNat < GstState.PAUSED.toNat)) = true
  · right
    simp [Scenario.signal_connect, Scenario.signal_disconnect, Scenario.call,
      Scenario.store_timeline, hpipe, hcond, connected_handlers]
  · left
    have hcond' : (!(lib.ges_timeline_commit t).1
        || decide (p.state.toNat < GstState.PAUSED.toNat)) = false := by
      simpa using hcond
    simp [Scenario.signal_connect, Scenario.call, Scenario.store_timeline, hpipe, hcond',
      SAVE_TIMELINE_IF_NEEDED, _ges_save_timeline_if_needed, htarget]

/-- C29: for a commit command for which no handler is connected yet, run on a
scenario whose pipeline, if there is one, holds a timeline, and with the
persistence target carried by `project-uri` (a command that has a target has
that field): whenever `_commit` returns a result other than the asynchronous
one, no async-done handler of the action is connected to the bus of the
pipeline, `_commit` has marked no action done, and an emission of
`message::async-done` afterwards does not mark the action done. -/
theorem commit_not_pending_leaves_no_handler (lib : Lib) (state0 : GstState)
    (action : GstValidateAction) (sc : Scenario) (action_of : Nat → GstValidateAction)
    (hid : ∀ i, (action_of i).id = i)
    (hnone : (⟨action.id⟩ : BusHandler) ∉ connected_handlers sc)
    (htarget : ∀ uri, lib.persistence_target action.struct = some uri →
      gst_structure_get_string action.struct "project-uri" ≠ none)
    (htl : ∀ p, sc.pipeline = some p → pipeline_get_timeline p ≠ none)
    (hres : (_commit lib state0 action sc).1 ≠ GstValidateActionReturn.ASYNC) :
    (⟨action.id⟩ : BusHandler) ∉ connected_handlers (_commit lib state0 action sc).2
    ∧ (_commit lib state0 action sc).2.actions_done = sc.actions_done
    ∧ (emit_async_done action_of (_commit lib state0 action sc).2).actions_done.count action.id
      = sc.actions_done.count action.id := by
  have hmain : (⟨action.id⟩ : BusHandler) ∉ connected_handlers (_commit lib state0 action sc).2
      ∧ (_commit lib state0 action sc).2.actions_done = sc.actions_done := by
    cases huri : gst_structure_get_string action.struct "project-uri" with
    | some uri =>
      obtain ⟨h1, h2⟩ := commit_frame_without_bus lib state0 action sc uri huri
      refine ⟨?_, h2⟩
      have hsame : connected_handlers (_commit lib state0 action sc).2
          = connected_handlers sc := by
        simp only [connected_handlers, h1]
      rw [hsame]
      exact hnone
    | none =>
      cases hpipe : sc.pipeline with
      | none =>
        have hacq := acquire_without_pipeline lib action sc huri hpipe
        simp [_commit, DECLARE_AND_GET_TIMELINE_AND_PIPELINE, hacq, connected_handlers, hpipe]
      | some p =>
        obtain ⟨t, ht⟩ := Option.ne_none_iff_exists'.1 (htl p hpipe)
        have hno : lib.persistence_target action.struct = none := by
          cases h : lib.persistence_target action.struct with
          | none => rfl
          | some target => exact absurd huri (htarget target h)
        rcases commit_on_pipeline_cases lib state0 action sc p t huri hno hpipe ht with
          h | ⟨_, h2, h3⟩
        · exact absurd h hres
        · refine ⟨?_, h3⟩
          rw [h2]
          simp [List.mem_filter]
  obtain ⟨e1, _⟩ := emit_async_done_spec action_of hid action.id
    (_commit lib state0 action sc).2
  refine ⟨hmain.1, hmain.2, ?_⟩
  rw [e1, hmain.2]
  simp [hmain.1]

/-- Witness of C29: a commit on the pipeline in the READY state, then an emission
of `message::async-done`. -/
theorem commit_not_pending_leaves_no_handler_witness :
    (emit_async_done sample_action_of
        (_commit sample_lib GstState.NULL commit_action
          (sample_scenario GstState.READY)).2).actions_done.count 1 = 0 :=
  (commit_not_pending_leaves_no_handler sample_lib GstState.NULL commit_action
    (sample_scenario GstState.READY) sample_action_of (fun _ => rfl) (by decide)
    (by
      intro uri h
      have hnone : sample_lib.persistence_target commit_action.struct = none := by decide
      rw [hnone] at h
      cases h)
    (by
      intro p hp
      have hp1 : p = sample_pipeline GstState.READY := by
        simp only [sample_scenario, Option.some.injEq] at hp
        exact hp.symm
      subst hp1
      decide)
    (by decide)).2.2

/-- The macro `SAVE_TIMELINE_IF_NEEDED` in `_commit` depends on the persistence
target being carried by `project-uri`: were the target carried by another
field, such as `project-id`, a commit on the playing pipeline
whose save fails would return the error-reported result with its handler
still connected, and a later `message::async-done` would mark the action
done: `SAVE_TIMELINE_IF_NEEDED` returns without disconnecting. -/
theorem commit_save_failure_skips_disconnect :
    (_commit detached_target_lib GstState.NULL commit_with_project_id_action
        (sample_scenario GstState.PLAYING)).1 = GstValidateActionReturn.ERROR_REPORTED
    ∧ connected_handlers (_commit detached_target_lib GstState.NULL
        commit_with_project_id_action (sample_scenario GstState.PLAYING)).2 = [⟨1⟩]
    ∧ (emit_async_done sample_action_of
        (_commit detached_target_lib GstState.NULL commit_with_project_id_action
          (sample_scenario GstState.PLAYING)).2).actions_done = [1] := by
  decide

/-! ## Release of the timeline by the saving handlers -/

/-- The common end of the saving handlers releases the timeline once, whether the
save succeeds or fails, and after the label `beach`; a `return` of the
statements before the save macro releases nothing. -/
theorem save_and_return_releases (lib : Lib) (action : GstValidateAction) (m : Mutation) :
    timeline_releases (save_and_return lib action m).scenario.calls
      = timeline_releases m.scenario.calls
        + (match m with
          | Mutation.returned _ _ => 0
          | Mutation.beach _ _ => 1
          | Mutation.save _ _ _ => 1) := by
  cases m with
  | returned res sc => simp [save_and_return, Outcome.scenario, Mutation.scenario]
  | beach res sc =>
    simp [save_and_return, Outcome.scenario, Mutation.scenario, timeline_releases,
      Scenario.call, List.count_append]
  | save res t1 sc =>
    cases htarget : lib.persistence_target action.struct with
    | none =>
      simp [save_and_return, SAVE_TIMELINE_IF_NEEDED, _ges_save_timeline_if_needed, htarget,
        Outcome.scenario, Mutation.scenario, timeline_releases, Scenario.call,
        List.count_append]
    | some uri =>
      cases hs : lib.ges_timeline_save_to_uri (some t1) uri <;>
        simp [save_and_return, SAVE_TIMELINE_IF_NEEDED, _ges_save_timeline_if_needed, htarget,
          hs, Outcome.scenario, Mutation.scenario, timeline_releases, Scenario.call,
          Scenario.report, List.count_append]

end GESValidate
